import Mathlib

/-!
# PRAMFS: superblock store, root-inode repair and directory lookup

A shallow embedding of the parts of `super.c` (`pram_init`, `pram_root_check`,
the superblock sanity checks of `pram_fill_super`) and of `namei.c`
(`pram_inode_by_name`) that the verified properties are about.

Conventions.
* C integers are natural numbers; every operation that can wrap in C carries
  its modulus explicitly.  `unsigned long`, `u64` and `loff_t` are 64 bits
  wide (a 64-bit kernel); `__be16`/`__be32`/`__be64` fields hold the numeric
  value that `beNN_to_cpu` reads back, so `cpu_to_beNN` is reduction modulo
  `2 ^ NN`.
* The persistent image is a record of the two superblock copies and the inode
  records, addressed by inode number (an inode number is the byte offset of
  the record in the image).
* Write protection (`pram_memunlock_*`/`pram_memlock_*`), locking and `printk`
  do not change the data and are left out.
-/

namespace Pramfs

/-! ## Constants of `pram.h` / `pram_fs.h` -/

/-- Modelled from the spec: the on-media header `pram.h` is not among the
sources.  `SB_SIZE` is the fixed size of one superblock copy; the value is the
one that makes the spec's worked example (16 MiB, 4 KiB blocks) land on a block
boundary together with `PRAM_INODE_SIZE = 128`. -/
def PRAM_SB_SIZE : Nat := 128

/-- Modelled from the spec: `INODE_SIZE`, the fixed size of an inode record
(the default inode budget is `20 * PRAM_INODE_SIZE` bytes per inode). -/
def PRAM_INODE_SIZE : Nat := 128

/-- Modelled from the spec: `log2 PRAM_INODE_SIZE`, used by the source as a
shift count to convert between inode counts and bytes. -/
def PRAM_INODE_BITS : Nat := 7

/-- Modelled from the spec: "a fixed low id is the root directory"; the inode
table starts right behind the redundant superblock (offset `2 × SB_SIZE`) and
the root is its first record. -/
def PRAM_ROOT_INO : Nat := PRAM_SB_SIZE * 2

/-- Modelled from the spec: the "magic value" of the superblock (2 bytes). -/
def PRAM_SUPER_MAGIC : Nat := 0xEFFA

/-- Modelled from the spec: block size used when no `bs=` option is given;
a power of two between the minimum and the maximum block size. -/
def PRAM_DEF_BLOCK_SIZE : Nat := 2048

/-- Modelled from the spec: the "minimum" of the bounds that
`pram_parse_options` puts on the `bs=` option; the root inode record (bytes
256 to 383) lies inside the first block for every block size it admits. -/
def PRAM_MIN_BLOCK_SIZE : Nat := 512

/-- The errno value `EINVAL`. -/
def EINVAL : Int := 22

/-- Mode bits of `<linux/stat.h>`. -/
def S_IFMT : Nat := 0o170000
/-- Directory file type. -/
def S_IFDIR : Nat := 0o040000
/-- Read, write and execute for user, group and others. -/
def S_IRWXUGO : Nat := 0o777
/-- Sticky bit. -/
def S_ISVTX : Nat := 0o1000

/-- The test `S_ISDIR(m)`: `(m & S_IFMT) == S_IFDIR`. -/
def S_ISDIR (m : Nat) : Bool := (m &&& S_IFMT) == S_IFDIR

/-! ## Machine arithmetic -/

/-- The C operator `~` on a 64-bit unsigned operand (`unsigned long`, and an
`int` such as `~7` once converted to `unsigned long`). -/
def not_ulong (x : Nat) : Nat := 2 ^ 64 - 1 - x

/-- Storing into a `__be16` field: the value is truncated to 16 bits. -/
def cpu_to_be16 (x : Nat) : Nat := x % 2 ^ 16
/-- Storing into a `__be32` field: the value is truncated to 32 bits. -/
def cpu_to_be32 (x : Nat) : Nat := x % 2 ^ 32
/-- Storing into a `__be64` field. -/
def cpu_to_be64 (x : Nat) : Nat := x % 2 ^ 64

/-- Highest set bit among the low `n` bits of `x`, counted from 1; 0 if none. -/
def fls_aux : Nat → Nat → Nat
  | 0, _ => 0
  | n + 1, x => if x.testBit n then n + 1 else fls_aux n x

/-- The kernel's `fls(int x)`: position of the last (most significant) set bit
of the 32-bit argument, counted from 1, and 0 for 0. -/
def fls (x : Nat) : Nat := fls_aux 32 x

/-! ## On-media records -/

/-- Modelled from the spec: `struct pram_super_block` is declared in the absent
`pram.h`.  Fields as listed in the spec's persisted layout; `s_rest` stands for
the remaining bytes of the `PRAM_SB_SIZE`-byte record. -/
structure pram_super_block where
  s_sum : Nat
  s_magic : Nat
  s_size : Nat
  s_blocksize : Nat
  s_inodes_count : Nat
  s_blocks_count : Nat
  s_free_inodes_count : Nat
  s_free_blocks_count : Nat
  s_bitmap_blocks : Nat
  s_free_inode_hint : Nat
  s_bitmap_start : Nat
  s_mtime : Nat
  s_rest : List Nat
  deriving DecidableEq

/-- Modelled from the spec: `struct pram_inode` is declared in the absent
`pram.h`.  Fields as listed in the spec's data model; `i_type_dir_head` and
`i_type_dir_tail` are `i_type.dir.head/tail`, `i_d_next`, `i_d_parent` and
`i_d_name` are the members of `i_d`, and `i_rest` stands for the remaining
bytes of the `PRAM_INODE_SIZE`-byte record. -/
structure pram_inode where
  i_sum : Nat
  i_uid : Nat
  i_gid : Nat
  i_mode : Nat
  i_links_count : Nat
  i_size : Nat
  i_generation : Nat
  i_type_dir_head : Nat
  i_type_dir_tail : Nat
  i_d_next : Nat
  i_d_parent : Nat
  i_d_name : List Nat
  i_rest : List Nat
  deriving DecidableEq

/-- The persistent image: primary superblock at offset 0, redundant copy at
offset `PRAM_SB_SIZE`, and the inode records by inode number. -/
structure Image where
  super : pram_super_block
  redund : pram_super_block
  inode : Nat → pram_inode

/-- The mount options kept in `struct pram_sb_info` (`pram_fs.h`). -/
structure pram_sb_info where
  bpi : Nat
  num_inodes : Nat
  blocksize : Nat
  initsize : Nat
  s_mount_opt : Nat
  uid : Nat
  gid : Nat
  mode : Nat
  deriving DecidableEq

/-! ## Checksums -/

/-- The bytes of a superblock copy that the checksum covers: every field but
the checksum itself. -/
def sb_payload (b : pram_super_block) : List Nat :=
  [b.s_magic, b.s_size, b.s_blocksize, b.s_inodes_count, b.s_blocks_count,
   b.s_free_inodes_count, b.s_free_blocks_count, b.s_bitmap_blocks,
   b.s_free_inode_hint, b.s_bitmap_start, b.s_mtime] ++ b.s_rest

/-- The bytes of an inode record that the checksum covers. -/
def inode_payload (p : pram_inode) : List Nat :=
  [p.i_uid, p.i_gid, p.i_mode, p.i_links_count, p.i_size, p.i_generation,
   p.i_type_dir_head, p.i_type_dir_tail, p.i_d_next, p.i_d_parent]
    ++ p.i_d_name ++ p.i_rest

/-- Modelled from the spec: `pram_calc_checksum` lives in the absent `pram.h`.
"Checksum is computed over all fields except itself and must validate": the
result is 0 when the stored checksum `sum` equals the checksum of the rest of
the record and non-zero otherwise.  The checksum algorithm `crc` is a
parameter. -/
def pram_calc_checksum (crc : List Nat → Nat) (sum : Nat) (payload : List Nat) : Nat :=
  if sum = cpu_to_be16 (crc payload) then 0 else 1

/-- Modelled from the spec: `pram_sync_super` lives in the absent `pram.h`.
It recomputes the checksum of the primary copy and "writes identical primary
and redundant copies". -/
def pram_sync_super (crc : List Nat → Nat) (img : Image) : Image :=
  let s := { img.super with s_sum := cpu_to_be16 (crc (sb_payload img.super)) }
  { img with super := s, redund := s }

/-- Modelled from the spec: `pram_sync_inode` lives in the absent `pram.h`.
It recomputes the checksum of an inode record. -/
def pram_sync_inode (crc : List Nat → Nat) (p : pram_inode) : pram_inode :=
  { p with i_sum := cpu_to_be16 (crc (inode_payload p)) }

/-! ## `pram_init` -/

/-- A superblock copy with every byte cleared. -/
def zero_super (b : pram_super_block) : pram_super_block :=
  { s_sum := 0, s_magic := 0, s_size := 0, s_blocksize := 0, s_inodes_count := 0,
    s_blocks_count := 0, s_free_inodes_count := 0, s_free_blocks_count := 0,
    s_bitmap_blocks := 0, s_free_inode_hint := 0, s_bitmap_start := 0, s_mtime := 0,
    s_rest := List.replicate b.s_rest.length 0 }

/-- An inode record with every byte cleared. -/
def zero_inode (p : pram_inode) : pram_inode :=
  { i_sum := 0, i_uid := 0, i_gid := 0, i_mode := 0, i_links_count := 0, i_size := 0,
    i_generation := 0, i_type_dir_head := 0, i_type_dir_tail := 0, i_d_next := 0,
    i_d_parent := 0, i_d_name := List.replicate p.i_d_name.length 0,
    i_rest := List.replicate p.i_rest.length 0 }

/-- The call `memset(super, 0, n)`: the records that lie inside the first `n`
bytes of the image are cleared.  (`n` is a multiple of the record size at the
only call site, so no record is cleared in part.) -/
def memset_zero (img : Image) (n : Nat) : Image :=
  { super := if PRAM_SB_SIZE ≤ n then zero_super img.super else img.super,
    redund := if 2 * PRAM_SB_SIZE ≤ n then zero_super img.redund else img.redund,
    inode := fun ino =>
      if ino + PRAM_INODE_SIZE ≤ n then zero_inode (img.inode ino) else img.inode ino }

/-- The function `pram_set_blocksize`: the pair `(s_blocksize_bits, s_blocksize)`.
The local `bits` is an `int`, `fls(size) - 1`, which is -1 when the low 32 bits
of `size` are clear; the `unsigned char` field `s_blocksize_bits` keeps its low
8 bits, 255 for -1.  The value `1 << bits` is an `int` that is converted to
the `unsigned long` field `s_blocksize`: for `bits = 31` it is the negative
`INT_MIN`, whose conversion is `2 ^ 64 - 2 ^ 31`.  For `bits = -1` the shift is
undefined in C; it is given the value of a shift by the low five bits of the
count, 31, as the shift instruction of x86 computes it. -/
def pram_set_blocksize (size : Nat) : Nat × Nat :=
  if fls size = 0 then (255, 2 ^ 64 - 2 ^ 31)
  else if fls size = 32 then (31, 2 ^ 64 - 2 ^ 31)
  else (fls size - 1, 2 ^ (fls size - 1))

/-- What a successful `pram_init` leaves behind: the image, the updated mount
options, the block size of the VFS superblock, and the local variables the
layout was computed in. -/
structure pram_init_result where
  image : Image
  sbi : pram_sb_info
  s_blocksize_bits : Nat
  s_blocksize : Nat
  bitmap_start : Nat
  bitmap_size : Nat
  num_inodes : Nat
  num_blocks : Nat

/-- Lines 362-368 of `pram_init`: the block size in use, as the pair
`(sb->s_blocksize_bits, sb->s_blocksize)` that `pram_set_blocksize` leaves. -/
def pram_init_blocksize (sbi : pram_sb_info) : Nat × Nat :=
  pram_set_blocksize (if sbi.blocksize = 0 then PRAM_DEF_BLOCK_SIZE else sbi.blocksize)

/-- Lines 378-390 of `pram_init`: the requested number of inodes, the explicit
`N=` if there is one and `size / bpi` otherwise. -/
def pram_init_requested (sbi : pram_sb_info) (size : Nat) : Nat :=
  let bpi := if sbi.bpi = 0 then 20 * PRAM_INODE_SIZE else sbi.bpi
  if sbi.num_inodes = 0 then size / bpi else sbi.num_inodes

/-- Lines 396-399 of `pram_init`: the end of the inode table, moved up to a
block boundary. -/
def pram_init_bitmap_start (num_inodes blocksize : Nat) : Nat :=
  let bitmap_start := (PRAM_SB_SIZE * 2 + (num_inodes <<< PRAM_INODE_BITS) % 2 ^ 64) % 2 ^ 64
  if bitmap_start &&& (blocksize - 1) ≠ 0
    then ((bitmap_start + blocksize) % 2 ^ 64) &&& not_ulong (blocksize - 1)
    else bitmap_start

/-- Line 400 of `pram_init`: the inode count recomputed from the boundary. -/
def pram_init_num_inodes (bitmap_start : Nat) : Nat :=
  ((bitmap_start + 2 ^ 64 - PRAM_SB_SIZE * 2) % 2 ^ 64) >>> PRAM_INODE_BITS

/-- Lines 413-419 of `pram_init`: the size in bytes of the in-use bitmap. -/
def pram_init_bitmap_size (num_blocks blocksize : Nat) : Nat :=
  let bitmap_size := if num_blocks &&& 7 ≠ 0
    then (((num_blocks + 8) % 2 ^ 64) &&& not_ulong 7) >>> 3
    else num_blocks >>> 3
  if bitmap_size &&& (blocksize - 1) ≠ 0
    then ((bitmap_size + blocksize) % 2 ^ 64) &&& not_ulong (blocksize - 1)
    else bitmap_size

/-- Lines 432-444 of `pram_init`: the superblock fields, then `pram_sync_super`. -/
def pram_init_super (crc : List Nat → Nat) (img : Image)
    (size blocksize s_blocksize_bits num_inodes num_blocks bitmap_start bitmap_size : Nat) :
    Image :=
  let s_bitmap_blocks := cpu_to_be32 (bitmap_size >>> s_blocksize_bits)
  let super : pram_super_block :=
    { img.super with
      s_size := cpu_to_be64 size,
      s_blocksize := cpu_to_be32 blocksize,
      s_inodes_count := cpu_to_be32 num_inodes,
      s_blocks_count := cpu_to_be32 num_blocks,
      s_free_inodes_count := cpu_to_be32 ((num_inodes + 2 ^ 64 - 1) % 2 ^ 64),
      s_bitmap_blocks := s_bitmap_blocks,
      s_free_blocks_count := cpu_to_be32 ((num_blocks + 2 ^ 64 - s_bitmap_blocks) % 2 ^ 64),
      s_free_inode_hint := cpu_to_be32 1,
      s_bitmap_start := cpu_to_be64 bitmap_start,
      s_magic := cpu_to_be16 PRAM_SUPER_MAGIC }
  pram_sync_super crc { img with super := super }

/-- Lines 446-453 of `pram_init`: the root directory inode, then
`pram_sync_inode`. -/
def pram_init_root (crc : List Nat → Nat) (sbi : pram_sb_info) (img : Image) : Image :=
  let root_i := img.inode PRAM_ROOT_INO
  let root_i : pram_inode :=
    { root_i with
      i_mode := cpu_to_be16 (sbi.mode ||| S_IFDIR),
      i_uid := cpu_to_be32 sbi.uid,
      i_gid := cpu_to_be32 sbi.gid,
      i_links_count := cpu_to_be16 2,
      i_d_parent := cpu_to_be64 PRAM_ROOT_INO }
  let root_i := pram_sync_inode crc root_i
  { img with inode := fun ino => if ino = PRAM_ROOT_INO then root_i else img.inode ino }

/-- The function `pram_init(sb, size)`.  `ioremap_ok` tells whether
`pram_ioremap` returned a mapping; `img` is the content of the mapped memory
before the call.  `pram_init_bitmap` only writes the bitmap region behind
`bitmap_start`, which is not part of `Image`. -/
def pram_init (crc : List Nat → Nat) (ioremap_ok : Bool) (sbi : pram_sb_info)
    (img : Image) (size : Nat) : Except Int pram_init_result :=
  if !ioremap_ok then .error (-EINVAL) else
  let s_blocksize_bits := (pram_init_blocksize sbi).1
  let blocksize := (pram_init_blocksize sbi).2
  let sbi1 := if sbi.blocksize ≠ 0 ∧ sbi.blocksize ≠ blocksize
    then { sbi with blocksize := blocksize } else sbi
  if size < blocksize then .error (-EINVAL) else
  let bitmap_start := pram_init_bitmap_start (pram_init_requested sbi1 size) blocksize
  let num_inodes := pram_init_num_inodes bitmap_start
  let sbi2 := if sbi1.num_inodes ≠ 0 ∧ num_inodes ≠ sbi1.num_inodes
    then { sbi1 with num_inodes := num_inodes } else sbi1
  let num_blocks := ((size + 2 ^ 64 - bitmap_start) % 2 ^ 64) >>> s_blocksize_bits
  if num_blocks = 0 then .error (-EINVAL) else
  let bitmap_size := pram_init_bitmap_size num_blocks blocksize
  let img := memset_zero img bitmap_start
  let img := pram_init_super crc img size blocksize s_blocksize_bits num_inodes num_blocks
    bitmap_start bitmap_size
  let img := pram_init_root crc sbi2 img
  .ok { image := img, sbi := sbi2, s_blocksize_bits := s_blocksize_bits,
        s_blocksize := blocksize, bitmap_start := bitmap_start,
        bitmap_size := bitmap_size, num_inodes := num_inodes, num_blocks := num_blocks }

/-! ## `pram_root_check` -/

/-- The label `fail3` of `pram_root_check`: the parent is reset to the root
itself. -/
def pram_root_check_fail3 (root_pi : pram_inode) : pram_inode :=
  { root_pi with i_d_parent := cpu_to_be64 PRAM_ROOT_INO }

/-- The label `fail2` of `pram_root_check`: the mode is reset, then control
falls into `fail3`. -/
def pram_root_check_fail2 (root_pi : pram_inode) : pram_inode :=
  pram_root_check_fail3
    { root_pi with i_mode := cpu_to_be16 (S_IRWXUGO ||| S_ISVTX ||| S_IFDIR) }

/-- The label `fail1` of `pram_root_check`: `d_next` is cleared, then control
falls into `fail2`. -/
def pram_root_check_fail1 (root_pi : pram_inode) : pram_inode :=
  pram_root_check_fail2 { root_pi with i_d_next := 0 }

/-- The function `pram_root_check`.  Each failed check jumps to its label; when
all three checks pass, control runs on into the label `fail1`, which follows
the last check in the source. -/
def pram_root_check (crc : List Nat → Nat) (root_pi : pram_inode) : pram_inode :=
  if root_pi.i_d_next ≠ 0 then pram_root_check_fail1 root_pi
  else if !S_ISDIR root_pi.i_mode then pram_root_check_fail2 root_pi
  else if pram_calc_checksum crc root_pi.i_sum (inode_payload root_pi) ≠ 0
    then pram_root_check_fail3 root_pi
  else pram_root_check_fail1 root_pi

/-! ## Mounting an existing image: `pram_fill_super`, lines 575-621 -/

/-- Lines 578-608 of `pram_fill_super`: the sanity checks on the superblock.
`goto out` leaves with `retval = -EINVAL`; `memcpy(super, super_redund,
PRAM_SB_SIZE)` replaces the primary copy by the redundant one. -/
def pram_fill_super_checks (crc : List Nat → Nat) (img : Image) : Except Int Image :=
  let step1 : Except Int Image :=
    if img.super.s_magic ≠ PRAM_SUPER_MAGIC then
      if img.redund.s_magic ≠ PRAM_SUPER_MAGIC then .error (-EINVAL)
      else .ok { img with super := img.redund }
    else .ok img
  match step1 with
  | .error e => .error e
  | .ok img =>
    if pram_calc_checksum crc img.super.s_sum (sb_payload img.super) ≠ 0 then
      if pram_calc_checksum crc img.redund.s_sum (sb_payload img.redund) ≠ 0
        then .error (-EINVAL)
      else .ok { img with super := img.redund }
    else .ok img

/-- What lines 575-621 of `pram_fill_super` leave behind when they do not fail:
the image, the block size of the VFS superblock and the image size. -/
structure pram_mount_result where
  image : Image
  s_blocksize_bits : Nat
  s_blocksize : Nat
  initsize : Nat

/-- Lines 575-621 of `pram_fill_super`, the mount of an existing image (no
`init=` option) once the first page is mapped: superblock checks, block size
and image size from the primary copy, then `pram_root_check` on the root
inode. -/
def pram_fill_super_existing (crc : List Nat → Nat) (img : Image) :
    Except Int pram_mount_result :=
  match pram_fill_super_checks crc img with
  | .error e => .error e
  | .ok img =>
    let blocksize := img.super.s_blocksize
    let initsize := img.super.s_size
    let root_pi := pram_root_check crc (img.inode PRAM_ROOT_INO)
    .ok { image := { img with
            inode := fun ino => if ino = PRAM_ROOT_INO then root_pi else img.inode ino },
          s_blocksize_bits := (pram_set_blocksize blocksize).1,
          s_blocksize := (pram_set_blocksize blocksize).2,
          initsize := initsize }

/-- A superblock copy is valid when it has the right magic and its checksum
passes. -/
def sb_valid (crc : List Nat → Nat) (b : pram_super_block) : Prop :=
  b.s_magic = PRAM_SUPER_MAGIC ∧ pram_calc_checksum crc b.s_sum (sb_payload b) = 0

instance (crc : List Nat → Nat) (b : pram_super_block) : Decidable (sb_valid crc b) :=
  inferInstanceAs (Decidable (_ ∧ _))

/-! ## `pram_inode_by_name` -/

/-- The C function `strlen` on a character array: the number of bytes before
the first NUL (the whole array when it holds none). -/
def strlen (s : List Nat) : Nat := (s.takeWhile (fun c => c ≠ 0)).length

/-- The test `!memcmp(a, b, n)`: the first `n` bytes agree. -/
def memcmp_eq (a b : List Nat) (n : Nat) : Bool := a.take n == b.take n

/-- The body of the `while (ino)` loop of `pram_inode_by_name`, run with a
bound `fuel` on the number of inodes visited; `none` when the bound is hit.
`tbl` is the inode table (`pram_get_inode`), `name` the bytes of
`dentry->d_name` (`d_name.len` is their number). -/
def pram_inode_by_name_loop (tbl : Nat → pram_inode) (name : List Nat) :
    Nat → Nat → Option Nat
  | 0, _ => none
  | fuel + 1, ino =>
    if ino = 0 then some ino
    else
      let pi := tbl ino
      if pi.i_links_count ≠ 0 ∧ strlen pi.i_d_name = name.length ∧
          memcmp_eq name pi.i_d_name (strlen pi.i_d_name) = true
      then some ino
      else pram_inode_by_name_loop tbl name fuel pi.i_d_next

/-- The function `pram_inode_by_name(dir, dentry)`: the walk starts at the
head of the directory `dir`. -/
def pram_inode_by_name (tbl : Nat → pram_inode) (dir : Nat) (name : List Nat)
    (fuel : Nat) : Option Nat :=
  pram_inode_by_name_loop tbl name fuel (tbl dir).i_type_dir_head

/-- The name stored in an inode record: the bytes of `d_name` up to the
terminating NUL. -/
def stored_name (p : pram_inode) : List Nat := p.i_d_name.takeWhile (fun c => c ≠ 0)

/-- An entry that a lookup of `name` may return: it is live (link count
non-zero) and its stored name has the length and the bytes of `name`. -/
def entry_matches (tbl : Nat → pram_inode) (name : List Nat) (ino : Nat) : Bool :=
  decide ((tbl ino).i_links_count ≠ 0) && (stored_name (tbl ino) == name)

/-- The list `l` is the chain `ino → d_next → … → 0`: its entries are the
non-zero inode numbers visited, in order, and the last `d_next` is 0. -/
def dir_chain (tbl : Nat → pram_inode) : Nat → List Nat → Bool
  | ino, [] => ino == 0
  | ino, x :: l => ino != 0 && x == ino && dir_chain tbl (tbl ino).i_d_next l

/-- The `while (ino)` loop of `pram_inode_by_name` with a record of its
iterations: next to the value of `ino` at the exit, the inode numbers for
which the loop body ran, in order.  `none` when the bound `fuel` is hit. -/
def pram_inode_by_name_visits (tbl : Nat → pram_inode) (name : List Nat) :
    Nat → Nat → Option (Nat × List Nat)
  | 0, _ => none
  | fuel + 1, ino =>
    if ino = 0 then some (ino, [])
    else
      let pi := tbl ino
      if pi.i_links_count ≠ 0 ∧ strlen pi.i_d_name = name.length ∧
          memcmp_eq name pi.i_d_name (strlen pi.i_d_name) = true
      then some (ino, [ino])
      else
        match pram_inode_by_name_visits tbl name fuel pi.i_d_next with
        | none => none
        | some (r, visited) => some (r, ino :: visited)

/-! ## The direct-map fault path: `xip.c` -/

/-- The errno value `ENODATA`. -/
def ENODATA : Int := 61

/-- The external collaborators of the fault path (`pram_find_data_block`,
`pram_alloc_blocks`, `pram_get_block`, `pram_get_pfn` are not defined in
`xip.c`), over a state `σ` of the allocator's block-pointer structures.  A
lookup yields a physical block offset, 0 for "absent"; an allocation yields
its `int` result and the new state. -/
structure block_ops (σ : Type) where
  pram_find_data_block : σ → Nat → Nat → Nat
  pram_alloc_blocks : σ → Nat → Nat → Nat → Int × σ
  pram_get_block : Nat → Nat
  pram_get_pfn : Nat → Nat

/-- What a call of `pram_find_and_alloc_blocks` leaves: the `int` it returns,
the content of `*data_block`, the allocator state, and the arguments
`(inode, file block, count)` of the calls it made to `pram_alloc_blocks`. -/
structure find_alloc_result (σ : Type) where
  err : Int
  data_block : Nat
  state : σ
  alloc_calls : List (Nat × Nat × Nat)

/-- The function `pram_find_and_alloc_blocks(inode, iblock, data_block,
create)`; the argument `data_block` is the content of `*data_block` before the
call. -/
def pram_find_and_alloc_blocks {σ : Type} (ops : block_ops σ) (s : σ)
    (inode iblock data_block : Nat) (create : Int) : find_alloc_result σ :=
  let block := ops.pram_find_data_block s inode iblock
  if block = 0 then
    if create = 0 then
      { err := -ENODATA, data_block := data_block, state := s, alloc_calls := [] }
    else
      let a := ops.pram_alloc_blocks s inode iblock 1
      if a.1 ≠ 0 then
        { err := a.1, data_block := data_block, state := a.2,
          alloc_calls := [(inode, iblock, 1)] }
      else
        let block := ops.pram_find_data_block a.2 inode iblock
        if block = 0 then
          { err := -ENODATA, data_block := data_block, state := a.2,
            alloc_calls := [(inode, iblock, 1)] }
        else
          { err := 0, data_block := block, state := a.2,
            alloc_calls := [(inode, iblock, 1)] }
  else
    { err := 0, data_block := block, state := s, alloc_calls := [] }

/-- How a kernel function ends: it returns a value, or it runs into `BUG()`. -/
inductive kernel_result (α : Type) where
  | returns (a : α)
  | BUG

/-- The function `__pram_get_block(inode, pgoff, create, result)`. -/
def __pram_get_block {σ : Type} (ops : block_ops σ) (s : σ)
    (inode pgoff : Nat) (create : Int) (result : Nat) :
    kernel_result (find_alloc_result σ) :=
  let rc := pram_find_and_alloc_blocks ops s inode pgoff result create
  if rc.err = -ENODATA ∧ create ≠ 0 then .BUG else .returns rc

/-- What a call of `pram_get_xip_mem` leaves: its return value, the contents of
`*kmem` and `*pfn`, the allocator state and the allocator calls made. -/
structure xip_mem_result (σ : Type) where
  rc : Int
  kmem : Nat
  pfn : Nat
  state : σ
  alloc_calls : List (Nat × Nat × Nat)

/-- The function `pram_get_xip_mem(mapping, pgoff, create, kmem, pfn)` with
`host = mapping->host`; the arguments `kmem` and `pfn` are the contents of
`*kmem` and `*pfn` before the call.  (The block under `#if 0` is not
compiled.) -/
def pram_get_xip_mem {σ : Type} (ops : block_ops σ) (s : σ)
    (host pgoff : Nat) (create : Int) (kmem pfn : Nat) :
    kernel_result (xip_mem_result σ) :=
  match __pram_get_block ops s host pgoff create 0 with
  | .BUG => .BUG
  | .returns r =>
    if r.err ≠ 0 then
      .returns { rc := r.err, kmem := kmem, pfn := pfn, state := r.state,
                 alloc_calls := r.alloc_calls }
    else
      .returns { rc := r.err, kmem := ops.pram_get_block r.data_block,
                 pfn := ops.pram_get_pfn r.data_block, state := r.state,
                 alloc_calls := r.alloc_calls }

/-! ## Mount options: `pram_parse_options`, `set_default_opts` -/

/-- Modelled from the spec: the mount flags `PRAM_MOUNT_*` are defined in the
absent `pram_fs.h`; each of the switches of the spec's configuration surface
(write protection, user xattrs, ACLs, direct-map mode, the three error
policies) is one bit of `s_mount_opt`. -/
def PRAM_MOUNT_PROTECT : Nat := 0x000001
/-- Modelled from the spec: see `PRAM_MOUNT_PROTECT`. -/
def PRAM_MOUNT_XATTR_USER : Nat := 0x000002
/-- Modelled from the spec: see `PRAM_MOUNT_PROTECT`. -/
def PRAM_MOUNT_POSIX_ACL : Nat := 0x000004
/-- Modelled from the spec: see `PRAM_MOUNT_PROTECT`. -/
def PRAM_MOUNT_XIP : Nat := 0x000008
/-- Modelled from the spec: error policy "continue". -/
def PRAM_MOUNT_ERRORS_CONT : Nat := 0x000010
/-- Modelled from the spec: error policy "remount read-only". -/
def PRAM_MOUNT_ERRORS_RO : Nat := 0x000020
/-- Modelled from the spec: error policy "kernel panic". -/
def PRAM_MOUNT_ERRORS_PANIC : Nat := 0x000040

/-- Modelled from the spec: the "maximum" of the bounds on the `bs=` option;
direct-map mode needs a block of one page, so a page is admitted. -/
def PRAM_MAX_BLOCK_SIZE : Nat := 4096

/-- The host page size (4 KiB pages). -/
def PAGE_SIZE : Nat := 4096

/-- The errno value `ENOMEM`. -/
def ENOMEM : Int := 12

/-- Superblock flag `MS_RDONLY` of `<linux/fs.h>`. -/
def MS_RDONLY : Nat := 1
/-- Superblock flag `MS_POSIXACL` of `<linux/fs.h>`. -/
def MS_POSIXACL : Nat := 1 <<< 16
/-- Superblock flag `MS_NOSEC` of `<linux/fs.h>`. -/
def MS_NOSEC : Nat := 1 <<< 28

/-- The macro `set_opt(o, opt)`: `o |= PRAM_MOUNT_opt`. -/
def set_opt (o flag : Nat) : Nat := o ||| flag
/-- The macro `clear_opt(o, opt)`: `o &= ~PRAM_MOUNT_opt`. -/
def clear_opt (o flag : Nat) : Nat := o &&& not_ulong flag
/-- The macro `test_opt(sb, opt)`: `s_mount_opt & PRAM_MOUNT_opt`. -/
def test_opt (o flag : Nat) : Bool := (o &&& flag) != 0

/-- The kernel's `is_power_of_2`. -/
def is_power_of_2 (n : Nat) : Bool := n != 0 && (n &&& (n - 1)) == 0

/-- The compile-time switches that `super.c` tests with `#ifdef`. -/
structure pram_config where
  CONFIG_PRAMFS_WRITE_PROTECT : Bool
  CONFIG_PRAMFS_XATTR : Bool
  CONFIG_PRAMFS_POSIX_ACL : Bool
  CONFIG_PRAMFS_XIP : Bool
  deriving DecidableEq

/-- The anonymous `enum` of option tokens, `super.c` lines 121-129. -/
inductive Opt where
  | Opt_addr | Opt_bpi | Opt_size
  | Opt_num_inodes | Opt_mode | Opt_uid
  | Opt_gid | Opt_blocksize | Opt_user_xattr
  | Opt_nouser_xattr | Opt_noprotect
  | Opt_acl | Opt_noacl | Opt_xip
  | Opt_err_cont | Opt_err_panic | Opt_err_ro
  | Opt_err
  deriving DecidableEq

/-- The patterns of the table `tokens`: `physaddr=%x`, `bpi=%u`, `init=%s`,
`N=%u`, `mode=%o`, `uid=%u`, `gid=%u`, `bs=%s`, `user_xattr`, `nouser_xattr`,
`noprotect`, `acl`, `noacl`, `xip`, `errors=continue`, `errors=panic`,
`errors=remount-ro`. -/
inductive opt_pattern where
  | physaddr | bpi | init | N | mode | uid | gid | bs
  | user_xattr | nouser_xattr | noprotect | acl | noacl | xip
  | errors_continue | errors_panic | errors_remount_ro
  deriving DecidableEq

/-- The table `tokens`, `super.c` lines 131-150, entry by entry (the closing
entry `{Opt_err, NULL}` is the default of `match_token`). -/
def tokens : List (Opt × opt_pattern) :=
  [(.Opt_bpi, .physaddr),
   (.Opt_bpi, .bpi),
   (.Opt_size, .init),
   (.Opt_num_inodes, .N),
   (.Opt_mode, .mode),
   (.Opt_uid, .uid),
   (.Opt_gid, .gid),
   (.Opt_blocksize, .bs),
   (.Opt_user_xattr, .user_xattr),
   (.Opt_user_xattr, .nouser_xattr),
   (.Opt_noprotect, .noprotect),
   (.Opt_acl, .acl),
   (.Opt_acl, .noacl),
   (.Opt_xip, .xip),
   (.Opt_err_cont, .errors_continue),
   (.Opt_err_panic, .errors_panic),
   (.Opt_err_ro, .errors_remount_ro)]

/-- One item of the comma-separated option string, as the kernel's option
parser (`lib/parser.c`, `memparse`) reads it: `empty` is `!*p`; `pattern` is
the pattern of `tokens` that the text matches, if any; `int_arg` is the value
that `match_int`/`match_octal` store for `args[0]`, `none` when they fail;
`is_digit` is `isdigit(*args[0].from)` and `mem_arg` is what `memparse`
returns for `args[0]`. -/
structure opt_item where
  empty : Bool
  pattern : Option opt_pattern
  int_arg : Option Nat
  is_digit : Bool
  mem_arg : Nat
  deriving DecidableEq

/-- The kernel's `match_token(p, table, args)`: the token of the first entry of
the table whose pattern matches, `Opt_err` when none does. -/
def match_token (p : opt_item) (table : List (Opt × opt_pattern)) : Opt :=
  match p.pattern with
  | none => .Opt_err
  | some pat =>
    match table.find? (fun e => e.2 == pat) with
    | some e => e.1
    | none => .Opt_err

/-- The kernel's `make_kuid`/`make_kgid` in the initial user namespace: the
32-bit id itself. -/
def make_kuid (option : Nat) : Nat := option % 2 ^ 32

/-- The kernel's `uid_valid`/`gid_valid`: every id but `(uid_t)-1`. -/
def uid_valid (uid : Nat) : Bool := uid != 2 ^ 32 - 1

/-- The body of the `switch (token)` of `pram_parse_options` for one item:
`true` and the options when the `case` ends in `break`, `false` and the
options as they are at the jump when it ends in `goto bad_val` or
`goto bad_opt`. -/
def pram_parse_option (cfg : pram_config) (remount : Bool) (p : opt_item)
    (sbi : pram_sb_info) : Bool × pram_sb_info :=
  match match_token p tokens with
  | .Opt_addr => if remount then (false, sbi) else (true, sbi)
  | .Opt_bpi =>
    if remount then (false, sbi) else
    match p.int_arg with
    | none => (false, sbi)
    | some option => (true, { sbi with bpi := option })
  | .Opt_uid =>
    if remount then (false, sbi) else
    match p.int_arg with
    | none => (false, sbi)
    | some option =>
      let sbi := { sbi with uid := make_kuid option }
      if !uid_valid sbi.uid then (false, sbi) else (true, sbi)
  | .Opt_gid =>
    match p.int_arg with
    | none => (false, sbi)
    | some option =>
      let sbi := { sbi with gid := make_kuid option }
      if !uid_valid sbi.gid then (false, sbi) else (true, sbi)
  | .Opt_mode =>
    match p.int_arg with
    | none => (false, sbi)
    | some option => (true, { sbi with mode := option &&& 0o1777 })
  | .Opt_size =>
    if remount then (false, sbi) else
    if !p.is_digit then (false, sbi) else
    (true, { sbi with initsize := p.mem_arg % 2 ^ 64 })
  | .Opt_num_inodes =>
    if remount then (false, sbi) else
    match p.int_arg with
    | none => (false, sbi)
    | some option => (true, { sbi with num_inodes := option })
  | .Opt_blocksize =>
    if remount then (false, sbi) else
    if !p.is_digit then (false, sbi) else
    let sbi := { sbi with blocksize := p.mem_arg % 2 ^ 64 }
    if sbi.blocksize < PRAM_MIN_BLOCK_SIZE ∨ sbi.blocksize > PRAM_MAX_BLOCK_SIZE ∨
        !is_power_of_2 sbi.blocksize
    then (false, sbi) else (true, sbi)
  | .Opt_err_panic =>
    let o := clear_opt sbi.s_mount_opt PRAM_MOUNT_ERRORS_CONT
    let o := clear_opt o PRAM_MOUNT_ERRORS_RO
    let o := set_opt o PRAM_MOUNT_ERRORS_PANIC
    (true, { sbi with s_mount_opt := o })
  | .Opt_err_ro =>
    let o := clear_opt sbi.s_mount_opt PRAM_MOUNT_ERRORS_CONT
    let o := clear_opt o PRAM_MOUNT_ERRORS_PANIC
    let o := set_opt o PRAM_MOUNT_ERRORS_RO
    (true, { sbi with s_mount_opt := o })
  | .Opt_err_cont =>
    let o := clear_opt sbi.s_mount_opt PRAM_MOUNT_ERRORS_RO
    let o := clear_opt o PRAM_MOUNT_ERRORS_PANIC
    let o := set_opt o PRAM_MOUNT_ERRORS_CONT
    (true, { sbi with s_mount_opt := o })
  | .Opt_noprotect =>
    if cfg.CONFIG_PRAMFS_WRITE_PROTECT then
      if remount then (false, sbi) else
      (true, { sbi with s_mount_opt := clear_opt sbi.s_mount_opt PRAM_MOUNT_PROTECT })
    else (true, sbi)
  | .Opt_user_xattr =>
    if cfg.CONFIG_PRAMFS_XATTR then
      (true, { sbi with s_mount_opt := set_opt sbi.s_mount_opt PRAM_MOUNT_XATTR_USER })
    else (true, sbi)
  | .Opt_nouser_xattr =>
    if cfg.CONFIG_PRAMFS_XATTR then
      (true, { sbi with s_mount_opt := clear_opt sbi.s_mount_opt PRAM_MOUNT_XATTR_USER })
    else (true, sbi)
  | .Opt_acl =>
    if cfg.CONFIG_PRAMFS_POSIX_ACL then
      (true, { sbi with s_mount_opt := set_opt sbi.s_mount_opt PRAM_MOUNT_POSIX_ACL })
    else (true, sbi)
  | .Opt_noacl =>
    if cfg.CONFIG_PRAMFS_POSIX_ACL then
      (true, { sbi with s_mount_opt := clear_opt sbi.s_mount_opt PRAM_MOUNT_POSIX_ACL })
    else (true, sbi)
  | .Opt_xip =>
    if cfg.CONFIG_PRAMFS_XIP then
      if remount then (false, sbi) else
      (true, { sbi with s_mount_opt := set_opt sbi.s_mount_opt PRAM_MOUNT_XIP })
    else (true, sbi)
  | .Opt_err => (false, sbi)

/-- The `while ((p = strsep(&options, ",")) != NULL)` loop of
`pram_parse_options` over the items of the option string: the return value
and the options as the function leaves them. -/
def pram_parse_options_loop (cfg : pram_config) (remount : Bool) :
    List opt_item → pram_sb_info → Int × pram_sb_info
  | [], sbi => (0, sbi)
  | p :: rest, sbi =>
    if p.empty then pram_parse_options_loop cfg remount rest sbi
    else
      let r := pram_parse_option cfg remount p sbi
      if r.1 then pram_parse_options_loop cfg remount rest r.2
      else (-EINVAL, r.2)

/-- The function `pram_parse_options(options, sbi, remount)`; `none` is a NULL
option string. -/
def pram_parse_options (cfg : pram_config) (options : Option (List opt_item))
    (sbi : pram_sb_info) (remount : Bool) : Int × pram_sb_info :=
  match options with
  | none => (0, sbi)
  | some l => pram_parse_options_loop cfg remount l sbi

/-- The function `set_default_opts`. -/
def set_default_opts (cfg : pram_config) (sbi : pram_sb_info) : pram_sb_info :=
  let sbi := if cfg.CONFIG_PRAMFS_WRITE_PROTECT
    then { sbi with s_mount_opt := set_opt sbi.s_mount_opt PRAM_MOUNT_PROTECT } else sbi
  { sbi with s_mount_opt := set_opt sbi.s_mount_opt PRAM_MOUNT_ERRORS_CONT }

/-- The items that the loop of `pram_parse_options` handled before it
stopped: all of them when it returns 0, those in front of the rejected one
otherwise. -/
def options_processed (cfg : pram_config) (remount : Bool) :
    List opt_item → pram_sb_info → List opt_item
  | [], _ => []
  | p :: rest, sbi =>
    if p.empty then p :: options_processed cfg remount rest sbi
    else
      let r := pram_parse_option cfg remount p sbi
      if r.1 then p :: options_processed cfg remount rest r.2
      else []

/-- The error policy after one more option item: an `errors=` item names its
own flag, every other item leaves the policy as it is. -/
def error_policy_step (policy : Nat) (p : opt_item) : Nat :=
  if p.empty then policy
  else match p.pattern with
    | some .errors_continue => PRAM_MOUNT_ERRORS_CONT
    | some .errors_panic => PRAM_MOUNT_ERRORS_PANIC
    | some .errors_remount_ro => PRAM_MOUNT_ERRORS_RO
    | _ => policy

/-- The error policy that a list of option items names: the flag of its last
`errors=` item, `PRAM_MOUNT_ERRORS_CONT` when it has none. -/
def named_error_policy (l : List opt_item) : Nat :=
  l.foldl error_policy_step PRAM_MOUNT_ERRORS_CONT

/-- The three error-policy bits of `s_mount_opt`. -/
def error_policy_bits (o : Nat) : Nat :=
  o &&& (PRAM_MOUNT_ERRORS_CONT ||| PRAM_MOUNT_ERRORS_RO ||| PRAM_MOUNT_ERRORS_PANIC)

/-! ## `pram_remount` -/

/-- The mounted filesystem as `pram_remount` sees it: `sb->s_flags`, the
options in `sb->s_fs_info` and the persistent image. -/
structure mounted_sb where
  s_flags : Nat
  sbi : pram_sb_info
  image : Image

/-- Modelled from the spec: `pram_memunlock_super` and `pram_memlock_super` are
defined in the absent `pram.h`; they are the acquire and the release of the
ProtectionGuard around a write to the primary superblock.  The spec's
superblock invariant, "the two copies are bit-identical immediately after any
successful mutation" with a checksum that validates, is stated for the
superblock as "mutated on remount", where the release is the only step after
the write: the release recomputes the checksum of the primary copy and
rewrites the redundant copy, as `pram_sync_super` does. -/
def pram_memlock_super (crc : List Nat → Nat) (img : Image) : Image :=
  pram_sync_super crc img

/-- The function `pram_remount(sb, mntflags, data)`; `now` is what
`get_seconds()` returns, `mntflags` is `*mntflags`. -/
def pram_remount (cfg : pram_config) (crc : List Nat → Nat) (now : Nat) (sb : mounted_sb)
    (mntflags : Nat) (data : Option (List opt_item)) : Int × mounted_sb :=
  let old_sb_flags := sb.s_flags
  let old_mount_opt := sb.sbi.s_mount_opt
  let r := pram_parse_options cfg data sb.sbi true
  if r.1 ≠ 0 then
    (-EINVAL, { sb with s_flags := old_sb_flags,
                        sbi := { r.2 with s_mount_opt := old_mount_opt } })
  else
    let s_flags := (sb.s_flags &&& not_ulong MS_POSIXACL) |||
      (if r.2.s_mount_opt &&& PRAM_MOUNT_POSIX_ACL ≠ 0 then MS_POSIXACL else 0)
    let image :=
      if mntflags &&& MS_RDONLY ≠ s_flags &&& MS_RDONLY then
        let ps := { sb.image.super with s_mtime := cpu_to_be32 now }
        pram_memlock_super crc { sb.image with super := ps }
      else sb.image
    (0, { s_flags := s_flags, sbi := r.2, image := image })

/-! ## `pram_fill_super` -/

/-- The outcomes of the steps of `pram_fill_super` that are decided outside
`super.c`: whether `kzalloc` returned memory, whether `get_phys_addr` found a
page-aligned `physaddr=` in front of the options, the caller's fsuid and
fsgid, whether the first and the second `pram_ioremap` returned a mapping,
the error of `pram_iget` for the root inode (0 for none), and whether
`d_make_root` returned a dentry. -/
structure mount_env where
  kzalloc_ok : Bool
  phys_addr_ok : Bool
  current_fsuid : Nat
  current_fsgid : Nat
  ioremap_ok : Bool
  remap_ok : Bool
  pram_iget_err : Int
  d_make_root_ok : Bool

/-- What a successful `pram_fill_super` leaves: the image, the options, and the
fields of the VFS superblock it has set. -/
structure fill_super_result where
  image : Image
  sbi : pram_sb_info
  s_blocksize_bits : Nat
  s_blocksize : Nat
  s_magic : Nat
  s_flags : Nat

/-- The memory that `kzalloc` returns for `struct pram_sb_info`. -/
def zero_sbi : pram_sb_info :=
  { bpi := 0, num_inodes := 0, blocksize := 0, initsize := 0, s_mount_opt := 0,
    uid := 0, gid := 0, mode := 0 }

/-- The part of `pram_fill_super` from the label `setup_sb` on. -/
def pram_fill_super_setup (cfg : pram_config) (env : mount_env) (s_flags : Nat)
    (image : Image) (sbi : pram_sb_info) (s_blocksize_bits s_blocksize : Nat) :
    Except Int fill_super_result :=
  let s_magic := image.super.s_magic
  let s_flags := if cfg.CONFIG_PRAMFS_POSIX_ACL
    then (if (s_flags &&& not_ulong MS_POSIXACL) |||
            (sbi.s_mount_opt &&& PRAM_MOUNT_POSIX_ACL) ≠ 0 then MS_POSIXACL else 0)
    else s_flags
  let s_flags := s_flags ||| MS_NOSEC
  if env.pram_iget_err ≠ 0 then .error env.pram_iget_err
  else if !env.d_make_root_ok then .error (-ENOMEM)
  else .ok { image := image, sbi := sbi, s_blocksize_bits := s_blocksize_bits,
             s_blocksize := s_blocksize, s_magic := s_magic, s_flags := s_flags }

/-- The function `pram_fill_super(sb, data, silent)`: `s_flags` is
`sb->s_flags` at the call, `img` the content of the memory at the physical
address, `data` the options behind `physaddr=`. -/
def pram_fill_super (cfg : pram_config) (crc : List Nat → Nat) (env : mount_env)
    (s_flags : Nat) (img : Image) (data : Option (List opt_item)) :
    Except Int fill_super_result :=
  if !env.kzalloc_ok then .error (-ENOMEM) else
  let sbi := set_default_opts cfg zero_sbi
  if !env.phys_addr_ok then .error (-EINVAL) else
  let sbi := { sbi with mode := S_IRWXUGO ||| S_ISVTX, uid := env.current_fsuid,
                        gid := env.current_fsgid }
  let r := pram_parse_options cfg data sbi false
  if r.1 ≠ 0 then .error (-EINVAL) else
  let sbi := r.2
  if test_opt sbi.s_mount_opt PRAM_MOUNT_XIP ∧ test_opt sbi.s_mount_opt PRAM_MOUNT_PROTECT
    then .error (-EINVAL) else
  if test_opt sbi.s_mount_opt PRAM_MOUNT_XIP ∧ sbi.blocksize ≠ PAGE_SIZE
    then .error (-EINVAL) else
  let initsize := sbi.initsize
  if initsize ≠ 0 then
    match pram_init crc env.ioremap_ok sbi img initsize with
    | .error _ => .error (-EINVAL)
    | .ok i =>
      pram_fill_super_setup cfg env s_flags i.image i.sbi i.s_blocksize_bits i.s_blocksize
  else
    if !env.ioremap_ok then .error (-EINVAL) else
    match pram_fill_super_existing crc img with
    | .error e => .error e
    | .ok m =>
      if !env.remap_ok then .error (-EINVAL) else
      pram_fill_super_setup cfg env s_flags m.image sbi m.s_blocksize_bits m.s_blocksize

/-! ## NFS export: `pram_nfs_get_inode` -/

/-- The errno value `ESTALE`. -/
def ESTALE : Int := 116

/-- The in-memory inode that `pram_iget` returns, as far as
`pram_nfs_get_inode` reads it. -/
structure iget_inode where
  i_ino : Nat
  i_generation : Nat
  deriving DecidableEq

/-- The function `pram_nfs_get_inode(sb, ino, generation)`.  `ps` is the
primary superblock (`pram_get_super`); `pram_iget` (`inode.c`) yields the
inode or the error of `ERR_PTR`. -/
def pram_nfs_get_inode (pram_iget : Nat → Except Int iget_inode) (ps : pram_super_block)
    (ino generation : Nat) : Except Int iget_inode :=
  if ino < PRAM_ROOT_INO then .error (-ESTALE)
  else if ((ino - PRAM_ROOT_INO) >>> PRAM_INODE_BITS) > ps.s_inodes_count
    then .error (-ESTALE)
  else
    match pram_iget ino with
    | .error e => .error e
    | .ok inode =>
      if generation ≠ 0 ∧ inode.i_generation ≠ generation then .error (-ESTALE)
      else .ok inode

/-! ## Directory operations: `namei.c` -/

/-- The errno value `ENOENT`. -/
def ENOENT : Int := 2
/-- The errno value `ENOTEMPTY`. -/
def ENOTEMPTY : Int := 39

/-- The fields of the in-memory `struct inode` that `namei.c` reads or writes.
`i_nlink` is an `unsigned int`. -/
structure vfs_inode where
  i_mode : Nat
  i_nlink : Nat
  i_size : Nat
  i_ctime : Nat
  deriving DecidableEq

/-- The state `namei.c` works on: the in-memory inodes by inode number and the
on-media inode records. -/
structure namei_state where
  inode : Nat → vfs_inode
  media : Nat → pram_inode

/-- The functions that `namei.c` calls and that are defined elsewhere
(`inode.c`, `dir.c`).  `pram_write_inode` copies an in-memory inode to its
on-media record.  `pram_new_inode(dir, mode, name)` yields `PTR_ERR` or the
number of the new inode, its in-memory inode and the new on-media records.
`pram_add_link(dir, name, ino)` yields its `int` result and the new on-media
records.  They work on the on-media records; the link counts of the in-memory
inodes are only changed by `inc_nlink`, `drop_nlink` and `clear_nlink` in
`namei.c` itself.  The reference counting of the VFS (`unlock_new_inode`,
`d_instantiate`, `iput`) is not part of the state. -/
structure namei_ops where
  pram_write_inode : Nat → vfs_inode → (Nat → pram_inode) → (Nat → pram_inode)
  pram_new_inode : namei_state → Nat → Nat → List Nat →
    Except Int (Nat × vfs_inode × (Nat → pram_inode))
  pram_add_link : namei_state → Nat → List Nat → Nat → Int × (Nat → pram_inode)

/-- The state with the in-memory inode `ino` replaced. -/
def set_inode (st : namei_state) (ino : Nat) (v : vfs_inode) : namei_state :=
  { st with inode := fun i => if i = ino then v else st.inode i }

/-- The call `pram_write_inode(inode, NULL)` for the inode number `ino`. -/
def write_inode (ops : namei_ops) (st : namei_state) (ino : Nat) : namei_state :=
  { st with media := ops.pram_write_inode ino (st.inode ino) st.media }

/-- The function `pram_inc_count`: `inc_nlink`, then `pram_write_inode`. -/
def pram_inc_count (ops : namei_ops) (st : namei_state) (ino : Nat) : namei_state :=
  let v := st.inode ino
  write_inode ops (set_inode st ino { v with i_nlink := (v.i_nlink + 1) % 2 ^ 32 }) ino

/-- The function `pram_dec_count`: when the link count is non-zero,
`drop_nlink`, then `pram_write_inode`. -/
def pram_dec_count (ops : namei_ops) (st : namei_state) (ino : Nat) : namei_state :=
  let v := st.inode ino
  if v.i_nlink ≠ 0 then
    write_inode ops (set_inode st ino { v with i_nlink := v.i_nlink - 1 }) ino
  else st

/-- The function `pram_add_nondir(dir, dentry, inode)`; `name` is the name of
`dentry`. -/
def pram_add_nondir (ops : namei_ops) (st : namei_state) (dir : Nat) (name : List Nat)
    (ino : Nat) : Int × namei_state :=
  let a := ops.pram_add_link st dir name ino
  let st := { st with media := a.2 }
  if a.1 = 0 then (0, st)
  else (a.1, pram_dec_count ops st ino)

/-- Lines 240-246 of `pram_mkdir`: the link count of the new inode is raised
and its on-media record is made an empty directory. -/
def pram_mkdir_new_dir (ops : namei_ops) (st : namei_state) (ino : Nat) : namei_state :=
  let st := pram_inc_count ops st ino
  let pi := st.media ino
  { st with media := fun i =>
      if i = ino then { pi with i_type_dir_head := 0, i_type_dir_tail := 0 } else st.media i }

/-- The labels `out_fail` and `out_dir` of `pram_mkdir`: the link count of the
new inode is dropped twice, then the one of the parent once. -/
def pram_mkdir_out_fail (ops : namei_ops) (st : namei_state) (dir ino : Nat) : namei_state :=
  let st := pram_dec_count ops st ino
  let st := pram_dec_count ops st ino
  pram_dec_count ops st dir

/-- The function `pram_mkdir(dir, dentry, mode)`; `name` is the name of
`dentry`. -/
def pram_mkdir (ops : namei_ops) (st : namei_state) (dir : Nat) (name : List Nat)
    (mode : Nat) : Int × namei_state :=
  let st := pram_inc_count ops st dir
  match ops.pram_new_inode st dir (S_IFDIR ||| mode) name with
  | .error err => (err, pram_dec_count ops st dir)
  | .ok (ino, v, media) =>
    let st := pram_mkdir_new_dir ops (set_inode { st with media := media } ino v) ino
    let a := ops.pram_add_link st dir name ino
    let st := { st with media := a.2 }
    if a.1 ≠ 0 then (a.1, pram_mkdir_out_fail ops st dir ino)
    else (a.1, st)

/-- The function `pram_rmdir(dir, dentry)`; `d_inode` is `dentry->d_inode`,
`none` for NULL. -/
def pram_rmdir (ops : namei_ops) (st : namei_state) (dir : Nat) (d_inode : Option Nat) :
    Int × namei_state :=
  match d_inode with
  | none => (-ENOENT, st)
  | some ino =>
    let pi := st.media ino
    if pi.i_type_dir_tail = 0 then
      let v := st.inode ino
      let st := set_inode st ino
        { v with i_ctime := (st.inode dir).i_ctime, i_size := 0, i_nlink := 0 }
      let st := write_inode ops st ino
      let st := pram_dec_count ops st dir
      (0, st)
    else (-ENOTEMPTY, st)

/-- The functions that `pram_rename` calls next to those of `namei_ops`:
`pram_remove_link(inode)` (`dir.c`) yields its `int` result and the new
on-media records. -/
structure rename_ops extends namei_ops where
  pram_remove_link : namei_state → Nat → Int × (Nat → pram_inode)

/-- Lines 302-321 of `pram_rename`, the link counts: `new_inode` is
`new_dentry->d_inode` (`none` for NULL), `now` is `CURRENT_TIME`.  The error is
the `-ENOTEMPTY` of the `goto out` for a destination directory that has
entries. -/
def pram_rename_counts (ops : rename_ops) (now : Nat) (st : namei_state)
    (old_dir old_inode new_dir : Nat) (new_inode : Option Nat) : Except Int namei_state :=
  match new_inode with
  | some ni =>
    let pi_new := st.media ni
    let r : Except Int namei_state :=
      if S_ISDIR (st.inode old_inode).i_mode then
        if pi_new.i_type_dir_tail ≠ 0 then .error (-ENOTEMPTY)
        else
          let v := st.inode ni
          if v.i_nlink ≠ 0 then .ok (set_inode st ni { v with i_nlink := v.i_nlink - 1 })
          else .ok st
      else .ok st
    match r with
    | .error err => .error err
    | .ok st =>
      let v := st.inode ni
      let st := set_inode st ni { v with i_ctime := now }
      .ok (pram_dec_count ops.tonamei_ops st ni)
  | none =>
    if S_ISDIR (st.inode old_inode).i_mode then
      let st := pram_dec_count ops.tonamei_ops st old_dir
      .ok (pram_inc_count ops.tonamei_ops st new_dir)
    else .ok st

/-- The function `pram_rename(old_dir, old_dentry, new_dir, new_dentry)`:
`old_inode` is `old_dentry->d_inode`, `new_name` the name of `new_dentry` and
`new_inode` is `new_dentry->d_inode`. -/
def pram_rename (ops : rename_ops) (now : Nat) (st : namei_state)
    (old_dir old_inode new_dir : Nat) (new_name : List Nat) (new_inode : Option Nat) :
    Int × namei_state :=
  match pram_rename_counts ops now st old_dir old_inode new_dir new_inode with
  | .error err => (err, st)
  | .ok st =>
    let a := ops.pram_remove_link st old_inode
    let st := { st with media := a.2 }
    if a.1 ≠ 0 then (a.1, st)
    else
      let b := ops.pram_add_link st new_dir new_name old_inode
      let st := { st with media := b.2 }
      if b.1 ≠ 0 then (b.1, st)
      else (0, st)

/-! ## Example inputs -/

/-- A simple checksum algorithm, used to run the model on concrete images. -/
def sum_crc (l : List Nat) : Nat := l.sum

/-- A superblock copy with all bytes clear and 78 bytes behind the fields. -/
def blank_super : pram_super_block :=
  { s_sum := 0, s_magic := 0, s_size := 0, s_blocksize := 0, s_inodes_count := 0,
    s_blocks_count := 0, s_free_inodes_count := 0, s_free_blocks_count := 0,
    s_bitmap_blocks := 0, s_free_inode_hint := 0, s_bitmap_start := 0, s_mtime := 0,
    s_rest := List.replicate 78 0 }

/-- An inode record with all bytes clear. -/
def blank_inode : pram_inode :=
  { i_sum := 0, i_uid := 0, i_gid := 0, i_mode := 0, i_links_count := 0, i_size := 0,
    i_generation := 0, i_type_dir_head := 0, i_type_dir_tail := 0, i_d_next := 0,
    i_d_parent := 0, i_d_name := List.replicate 48 0, i_rest := [] }

/-- Memory that holds no filesystem yet. -/
def blank_image : Image :=
  { super := blank_super, redund := blank_super, inode := fun _ => blank_inode }

/-- Mount options `bs=4k` with everything else at its default
(`mode = S_IRWXUGO | S_ISVTX`, owner and group 0). -/
def opts_4k : pram_sb_info :=
  { bpi := 0, num_inodes := 0, blocksize := 4096, initsize := 0, s_mount_opt := 0,
    uid := 0, gid := 0, mode := 0o1777 }

/-- Mount options `bs=512,N=30`: 512-byte blocks and an inode table that ends
on the block boundary 4096. -/
def opts_512 : pram_sb_info :=
  { bpi := 0, num_inodes := 30, blocksize := 512, initsize := 0, s_mount_opt := 0,
    uid := 0, gid := 0, mode := 0o1777 }

/-- Sets the checksum field of a superblock copy to the `sum_crc` checksum of
its other bytes. -/
def seal_super (b : pram_super_block) : pram_super_block :=
  { b with s_sum := cpu_to_be16 (sum_crc (sb_payload b)) }

/-- Sets the checksum field of an inode record to the `sum_crc` checksum of its
other bytes. -/
def seal_inode (p : pram_inode) : pram_inode :=
  { p with i_sum := cpu_to_be16 (sum_crc (inode_payload p)) }

/-- A valid superblock copy: the one of a 16 MiB image with 4 KiB blocks. -/
def valid_super : pram_super_block :=
  seal_super
    { s_sum := 0, s_magic := 0xEFFA, s_size := 16777216, s_blocksize := 4096,
      s_inodes_count := 6558, s_blocks_count := 3891, s_free_inodes_count := 6557,
      s_free_blocks_count := 3890, s_bitmap_blocks := 1, s_free_inode_hint := 1,
      s_bitmap_start := 839680, s_mtime := 0, s_rest := List.replicate 78 0 }

/-- A copy with the right magic whose checksum fails: one bit of the stored
checksum of `valid_super` is flipped. -/
def bad_sum_super : pram_super_block :=
  { valid_super with s_sum := valid_super.s_sum ^^^ 1 }

/-- A copy with a wrong magic whose checksum passes: the magic of
`valid_super` is cleared and the checksum is the one of the changed bytes. -/
def bad_magic_super : pram_super_block :=
  seal_super { valid_super with s_magic := 0 }

/-- A sound root directory inode with mode `drwxr-xr-x`. -/
def sound_root : pram_inode :=
  seal_inode
    { i_sum := 0, i_uid := 0, i_gid := 0, i_mode := 0o40755, i_links_count := 2,
      i_size := 0, i_generation := 0, i_type_dir_head := 0, i_type_dir_tail := 0,
      i_d_next := 0, i_d_parent := 256, i_d_name := List.replicate 48 0, i_rest := [] }

/-- A root directory inode with mode `drwxr-xr-x` whose only defect is a
non-null `d_next`; its checksum is the one of its bytes. -/
def root_with_next : pram_inode :=
  seal_inode { sound_root with i_d_next := 384 }

/-- A root directory inode whose only defect is a failing checksum. -/
def root_bad_sum : pram_inode :=
  { sound_root with i_sum := sound_root.i_sum ^^^ 1 }

/-- An image with the given superblock copies and blank inode records. -/
def image_of (s r : pram_super_block) : Image :=
  { super := s, redund := r, inode := fun _ => blank_inode }

/-- A directory entry for the examples: an inode record with the given name,
link count and `d_next`, as a child of the root. -/
def dir_entry (name : List Nat) (links next : Nat) : pram_inode :=
  { blank_inode with
    i_links_count := links, i_d_next := next, i_d_parent := 256,
    i_d_name := name ++ List.replicate (48 - name.length) 0 }

/-- An inode table for the examples: the root directory 256 has the chain
`384 → 512 → 640`; all three entries are named "a"; entry 384 is dead (link
count 0), entries 512 and 640 are live. -/
def dir_table : Nat → pram_inode := fun ino =>
  if ino = 256 then { sound_root with i_type_dir_head := 384, i_type_dir_tail := 640 }
  else if ino = 384 then dir_entry [97] 0 512
  else if ino = 512 then dir_entry [97] 1 640
  else if ino = 640 then dir_entry [97] 1 0
  else blank_inode

/-- An allocator for the examples: the state lists the mapped
`(inode, file block, physical block)` triples; a lookup returns the physical
block of the first triple for the file block, 0 if there is none. -/
def demo_find (s : List (Nat × Nat × Nat)) (inode iblock : Nat) : Nat :=
  match s.find? (fun e => e.1 == inode && e.2.1 == iblock) with
  | some e => e.2.2
  | none => 0

/-- The allocator of the examples: with fewer than 2 blocks mapped, an
allocation maps the file block to the next free physical block; after that it
fails with `-ENOSPC` (-28). -/
def demo_ops : block_ops (List (Nat × Nat × Nat)) where
  pram_find_data_block := demo_find
  pram_alloc_blocks := fun s inode iblock _ =>
    if s.length < 2 then (0, s ++ [(inode, iblock, 4096 * (s.length + 1))]) else (-28, s)
  pram_get_block := fun b => 0xC0000000 + b
  pram_get_pfn := fun b => b / 4096

/-- An allocator that reports success without mapping anything. -/
def lying_ops : block_ops (List (Nat × Nat × Nat)) where
  pram_find_data_block := demo_find
  pram_alloc_blocks := fun s _ _ _ => (0, s)
  pram_get_block := fun b => 0xC0000000 + b
  pram_get_pfn := fun b => b / 4096

/-- An option item without argument, such as `xip` or `errors=panic`. -/
def opt_flag (pat : opt_pattern) : opt_item :=
  { empty := false, pattern := some pat, int_arg := none, is_digit := false, mem_arg := 0 }

/-- An option item with a numeric argument, such as `mode=700` (the value is
the number the kernel parses, here `0o700`) or `bs=4096`. -/
def opt_num (pat : opt_pattern) (v : Nat) : opt_item :=
  { empty := false, pattern := some pat, int_arg := some v, is_digit := true, mem_arg := v }

/-- An option item that matches no pattern of `tokens`. -/
def opt_unknown : opt_item :=
  { empty := false, pattern := none, int_arg := none, is_digit := false, mem_arg := 0 }

/-- A kernel built with all four PRAMFS switches on. -/
def cfg_all : pram_config :=
  { CONFIG_PRAMFS_WRITE_PROTECT := true, CONFIG_PRAMFS_XATTR := true,
    CONFIG_PRAMFS_POSIX_ACL := true, CONFIG_PRAMFS_XIP := true }

/-- A mount in which every step outside `super.c` succeeds, made by root. -/
def env_ok : mount_env :=
  { kzalloc_ok := true, phys_addr_ok := true, current_fsuid := 0, current_fsgid := 0,
    ioremap_ok := true, remap_ok := true, pram_iget_err := 0, d_make_root_ok := true }

/-- A valid superblock copy of an image with 1 KiB blocks. -/
def valid_super_1k : pram_super_block :=
  seal_super { valid_super with s_blocksize := 1024, s_blocks_count := 15564,
                                s_free_blocks_count := 15562, s_bitmap_blocks := 2 }

/-- A mounted filesystem for the examples: read-write, default options of a
kernel with write protection, root defaults `mode=1777`, `uid=0`, `gid=0`. -/
def mounted_rw : mounted_sb :=
  { s_flags := 0,
    sbi := { bpi := 0, num_inodes := 0, blocksize := 0, initsize := 0,
             s_mount_opt := PRAM_MOUNT_PROTECT ||| PRAM_MOUNT_ERRORS_CONT,
             uid := 0, gid := 0, mode := 0o1777 },
    image := image_of valid_super valid_super }

/-- External functions for the `namei.c` examples: `pram_write_inode` stores
the link count in the on-media record, `pram_new_inode` hands out inode 768
with link count 1, and `pram_add_link` fails with `-ENOSPC` (-28) for a name
longer than 3 bytes. -/
def demo_namei_ops : namei_ops where
  pram_write_inode := fun ino v media i =>
    if i = ino then { media i with i_links_count := cpu_to_be16 v.i_nlink } else media i
  pram_new_inode := fun st _ mode _ =>
    .ok (768, { i_mode := mode, i_nlink := 1, i_size := 0, i_ctime := 0 }, st.media)
  pram_add_link := fun st _ name _ => if name.length > 3 then (-28, st.media) else (0, st.media)

/-- External functions for the examples with no free inode: `pram_new_inode`
fails with `-ENOSPC` (-28). -/
def full_namei_ops : namei_ops where
  pram_write_inode := demo_namei_ops.pram_write_inode
  pram_new_inode := fun _ _ _ _ => .error (-28)
  pram_add_link := demo_namei_ops.pram_add_link

/-- A state for the `namei.c` examples: the on-media records of `dir_table`;
in memory the root 256 has link count 3 and every other inode is a directory
with link count 2 and size 4096. -/
def demo_namei_state : namei_state :=
  { inode := fun i =>
      if i = 256 then { i_mode := 0o41777, i_nlink := 3, i_size := 0, i_ctime := 100 }
      else { i_mode := 0o40755, i_nlink := 2, i_size := 4096, i_ctime := 50 },
    media := dir_table }

/-- Mount options `bs=4k,N=1048576`: an inode table of 128 MiB. -/
def opts_big_N : pram_sb_info :=
  { opts_4k with num_inodes := 1048576 }

/-- A `pram_iget` for the examples that finds every inode, with generation 7. -/
def demo_iget (ino : Nat) : Except Int iget_inode :=
  .ok { i_ino := ino, i_generation := 7 }

/-- External functions for the `pram_rename` examples: those of
`demo_namei_ops` and a `pram_remove_link` that succeeds. -/
def demo_rename_ops : rename_ops :=
  { tonamei_ops := demo_namei_ops, pram_remove_link := fun st _ => (0, st.media) }

/-- On-media records for the `pram_rename` examples: the root 256 holds the
directories 384 ("a") and 512 ("b"), the directory 512 holds the empty
directory 640 ("c"). -/
def rename_table : Nat → pram_inode := fun ino =>
  if ino = 256 then { sound_root with i_type_dir_head := 384, i_type_dir_tail := 512 }
  else if ino = 384 then dir_entry [97] 2 512
  else if ino = 512 then
    { dir_entry [98] 3 0 with i_type_dir_head := 640, i_type_dir_tail := 640 }
  else if ino = 640 then { dir_entry [99] 2 0 with i_d_parent := 512 }
  else blank_inode

/-- A state for the `pram_rename` examples: the records of `rename_table`; in
memory the root 256 has link count 4, the directory 512 has 3, the
directories 384 and 640 have 2. -/
def rename_state : namei_state :=
  { inode := fun i =>
      if i = 256 then { i_mode := 0o41777, i_nlink := 4, i_size := 0, i_ctime := 100 }
      else if i = 512 then { i_mode := 0o40755, i_nlink := 3, i_size := 0, i_ctime := 50 }
      else { i_mode := 0o40755, i_nlink := 2, i_size := 0, i_ctime := 50 },
    media := rename_table }

/-! # Properties

## Machine arithmetic -/

/-- On a power of two `fls_aux` finds the one set bit. -/
theorem fls_aux_two_pow (n k : Nat) (h : k < n) : fls_aux n (2 ^ k) = k + 1 := by
  induction n with
  | zero => omega
  | succ m ih =>
    unfold fls_aux
    by_cases hk : k = m
    · subst hk
      simp [Nat.testBit_two_pow_self]
    · have hlt : k < m := by omega
      have hbit : (2 ^ k).testBit m = false := by
        rw [Nat.testBit_two_pow]
        simp [hk]
      simp [hbit, ih hlt]

/-- The function `pram_set_blocksize` keeps a power-of-two block size below
`2 ^ 31` as it is. -/
theorem pram_set_blocksize_two_pow (k : Nat) (h : k < 31) :
    pram_set_blocksize (2 ^ k) = (k, 2 ^ k) := by
  have hf : fls (2 ^ k) = k + 1 := fls_aux_two_pow 32 k (by omega)
  have h0 : ¬ k + 1 = 0 := by omega
  have h32 : ¬ k + 1 = 32 := by omega
  simp only [pram_set_blocksize, hf, h0, h32, if_false, Nat.add_sub_cancel]

/-- Masking with `2 ^ k - 1` is the remainder modulo `2 ^ k`. -/
theorem and_mask (a k : Nat) : a &&& (2 ^ k - 1) = a % 2 ^ k :=
  Nat.and_pow_two_sub_one_eq_mod a k

/-- Masking a 64-bit value with `~(2 ^ k - 1)` clears its low `k` bits. -/
theorem and_not_mask (a k : Nat) (ha : a < 2 ^ 64) (hk : k ≤ 64) :
    a &&& not_ulong (2 ^ k - 1) = a / 2 ^ k * 2 ^ k := by
  have hpow : 2 ^ k ≤ 2 ^ 64 := Nat.pow_le_pow_right (by decide) hk
  have hpos : 0 < 2 ^ k := Nat.two_pow_pos k
  have hmask : not_ulong (2 ^ k - 1) = 2 ^ k * (2 ^ (64 - k) - 1) := by
    have h1 : 2 ^ k * 2 ^ (64 - k) = 2 ^ 64 := by
      rw [← Nat.pow_add]; congr 1; omega
    unfold not_ulong
    rw [Nat.mul_sub, h1]
    omega
  apply Nat.eq_of_testBit_eq
  intro i
  rw [Nat.testBit_and, hmask, Nat.mul_comm (a / 2 ^ k), Nat.testBit_mul_pow_two,
    Nat.testBit_mul_pow_two, Nat.testBit_two_pow_sub_one, ← Nat.shiftRight_eq_div_pow,
    Nat.testBit_shiftRight]
  by_cases hik : k ≤ i
  · have e : k + (i - k) = i := by omega
    rw [e]
    by_cases hi : i < 64
    · have : i - k < 64 - k := by omega
      simp [hik, this]
    · have hfalse : a.testBit i = false :=
        Nat.testBit_lt_two_pow (lt_of_lt_of_le ha (Nat.pow_le_pow_right (by decide) (by omega)))
      simp [hfalse]
  · simp [hik]

/-- The source's idiom `if (x & (bs-1)) x = (x + bs) & ~(bs-1)` rounds `x` up
to the next multiple of the power of two `bs`. -/
theorem round_up_spec (a k : Nat) (hk : k ≤ 64) (ha : a + 2 ^ k < 2 ^ 64) :
    let r := if a &&& (2 ^ k - 1) ≠ 0
      then ((a + 2 ^ k) % 2 ^ 64) &&& not_ulong (2 ^ k - 1) else a
    2 ^ k ∣ r ∧ a ≤ r ∧ r < a + 2 ^ k := by
  intro r
  have hpos : 0 < 2 ^ k := Nat.two_pow_pos k
  by_cases h : a &&& (2 ^ k - 1) ≠ 0
  · have hr : r = (a + 2 ^ k) / 2 ^ k * 2 ^ k := by
      simp only [r, if_pos h]
      rw [Nat.mod_eq_of_lt ha, and_not_mask _ _ ha hk]
    rw [and_mask] at h
    have hq : (a + 2 ^ k) / 2 ^ k = a / 2 ^ k + 1 := Nat.add_div_right a hpos
    have hdm := Nat.div_add_mod a (2 ^ k)
    have hlt := Nat.mod_lt a hpos
    rw [hr, hq]
    refine ⟨Dvd.intro_left _ rfl, ?_, ?_⟩
    · rw [Nat.add_mul, Nat.mul_comm]; omega
    · rw [Nat.add_mul, Nat.mul_comm]; omega
  · have hr : r = a := by simp only [r, if_neg h]
    rw [hr]
    simp only [ne_eq, not_not] at h
    rw [and_mask] at h
    exact ⟨Nat.dvd_of_mod_eq_zero h, le_refl _, by omega⟩

/-! ## The layout computed by `pram_init` -/

/-- What a successful run of `pram_init` computed, statement by statement. -/
theorem pram_init_ok {crc : List Nat → Nat} {ok : Bool} {sbi : pram_sb_info} {img : Image}
    {size : Nat} {r : pram_init_result} (h : pram_init crc ok sbi img size = .ok r) :
    ok = true ∧ (pram_init_blocksize sbi).2 ≤ size ∧ r.num_blocks ≠ 0 ∧
    r.s_blocksize_bits = (pram_init_blocksize sbi).1 ∧
    r.s_blocksize = (pram_init_blocksize sbi).2 ∧
    r.bitmap_start =
      pram_init_bitmap_start (pram_init_requested sbi size) (pram_init_blocksize sbi).2 ∧
    r.num_inodes = pram_init_num_inodes r.bitmap_start ∧
    r.num_blocks = ((size + 2 ^ 64 - r.bitmap_start) % 2 ^ 64) >>> r.s_blocksize_bits ∧
    r.bitmap_size = pram_init_bitmap_size r.num_blocks r.s_blocksize ∧
    r.image = pram_init_root crc r.sbi
      (pram_init_super crc (memset_zero img r.bitmap_start) size r.s_blocksize
        r.s_blocksize_bits r.num_inodes r.num_blocks r.bitmap_start r.bitmap_size) := by
  have hreq : ∀ b, pram_init_requested
      (if sbi.blocksize ≠ 0 ∧ sbi.blocksize ≠ b then { sbi with blocksize := b } else sbi)
      size = pram_init_requested sbi size := by
    intro b
    split <;> rfl
  unfold pram_init at h
  simp only [hreq] at h
  by_cases hok : ok = true
  · by_cases hsize : size < (pram_init_blocksize sbi).2
    · simp only [hok, Bool.not_true, Bool.false_eq_true, if_false, hsize, if_true] at h
      cases h
    · by_cases hnb : ((size + 2 ^ 64 - pram_init_bitmap_start (pram_init_requested sbi size)
          (pram_init_blocksize sbi).2) % 2 ^ 64) >>> (pram_init_blocksize sbi).1 = 0
      · simp only [hok, Bool.not_true, Bool.false_eq_true, if_false, hsize, hnb, if_true] at h
        cases h
      · simp only [hok, Bool.not_true, Bool.false_eq_true, if_false, hsize, hnb] at h
        injection h with h
        subst h
        exact ⟨hok, by omega, hnb, rfl, rfl, rfl, rfl, rfl, rfl, rfl⟩
  · simp [hok] at h

/-- The block size `pram_init` works with when the option (or the default) is
the power of two `2 ^ k`. -/
theorem pram_init_blocksize_two_pow (sbi : pram_sb_info) (k : Nat) (hk : k < 31)
    (hbs : (if sbi.blocksize = 0 then PRAM_DEF_BLOCK_SIZE else sbi.blocksize) = 2 ^ k) :
    pram_init_blocksize sbi = (k, 2 ^ k) := by
  unfold pram_init_blocksize
  rw [hbs]
  exact pram_set_blocksize_two_pow k hk

/-- Lines 396-399 on values that do not overflow: the boundary is the least
multiple of the block size at or above the end of the requested table. -/
theorem pram_init_bitmap_start_spec (req k : Nat) (hk : k ≤ 32) (hreq : req < 2 ^ 56) :
    2 ^ k ∣ pram_init_bitmap_start req (2 ^ k) ∧
    PRAM_SB_SIZE * 2 + req * PRAM_INODE_SIZE ≤ pram_init_bitmap_start req (2 ^ k) ∧
    pram_init_bitmap_start req (2 ^ k) < PRAM_SB_SIZE * 2 + req * PRAM_INODE_SIZE + 2 ^ k := by
  have hpow : 2 ^ k ≤ 2 ^ 32 := Nat.pow_le_pow_right (by decide) hk
  have h32 : (2 : Nat) ^ 32 = 4294967296 := by norm_num
  have h56 : (2 : Nat) ^ 56 = 72057594037927936 := by norm_num
  have h64 : (2 : Nat) ^ 64 = 18446744073709551616 := by norm_num
  have e1 : (req <<< PRAM_INODE_BITS) % 2 ^ 64 = req * PRAM_INODE_SIZE := by
    rw [Nat.shiftLeft_eq]
    simp only [PRAM_INODE_BITS, PRAM_INODE_SIZE]
    omega
  have e2 : (PRAM_SB_SIZE * 2 + req * PRAM_INODE_SIZE) % 2 ^ 64
      = PRAM_SB_SIZE * 2 + req * PRAM_INODE_SIZE := by
    simp only [PRAM_SB_SIZE, PRAM_INODE_SIZE]
    omega
  have hlt : PRAM_SB_SIZE * 2 + req * PRAM_INODE_SIZE + 2 ^ k < 2 ^ 64 := by
    simp only [PRAM_SB_SIZE, PRAM_INODE_SIZE]
    omega
  have := round_up_spec (PRAM_SB_SIZE * 2 + req * PRAM_INODE_SIZE) k (by omega) hlt
  simpa only [pram_init_bitmap_start, e1, e2] using this

/-- Line 400 on a boundary that is a multiple of the inode size. -/
theorem pram_init_num_inodes_spec (b : Nat) (hlo : PRAM_SB_SIZE * 2 ≤ b) (hhi : b < 2 ^ 64)
    (hdvd : PRAM_INODE_SIZE ∣ b) :
    PRAM_SB_SIZE * 2 + pram_init_num_inodes b * PRAM_INODE_SIZE = b := by
  obtain ⟨c, rfl⟩ := hdvd
  simp only [pram_init_num_inodes, PRAM_SB_SIZE, PRAM_INODE_SIZE, PRAM_INODE_BITS,
    Nat.shiftRight_eq_div_pow] at *
  omega

/-- A multiple of `b` below `a + b` is below every multiple of `b` that is at
least `a`. -/
theorem least_multiple_of_lt (a b r : Nat) (hr : b ∣ r) (hlt : r < a + b) :
    ∀ m, b ∣ m → a ≤ m → r ≤ m := by
  intro m hm ham
  obtain ⟨d, rfl⟩ := hr
  obtain ⟨c, rfl⟩ := hm
  apply Nat.mul_le_mul_left
  have h1 : b * d < b * (c + 1) := by
    rw [Nat.mul_add, Nat.mul_one]; omega
  have := Nat.lt_of_mul_lt_mul_left h1
  omega

/-- Lines 413-416 of `pram_init`: one bit per block, in whole bytes. -/
theorem bitmap_bytes_spec (nb : Nat) (hnb : nb + 8 < 2 ^ 64) :
    (if nb &&& 7 ≠ 0 then (((nb + 8) % 2 ^ 64) &&& not_ulong 7) >>> 3 else nb >>> 3)
      = (nb + 7) / 8 := by
  have h7 : nb &&& 7 = nb % 8 := and_mask nb 3
  have hn7 : ((nb + 8) % 2 ^ 64) &&& not_ulong 7 = (nb + 8) / 8 * 8 := by
    rw [Nat.mod_eq_of_lt hnb]
    exact and_not_mask (nb + 8) 3 hnb (by decide)
  rw [h7, hn7]
  simp only [Nat.shiftRight_eq_div_pow]
  split <;> omega

/-- Lines 413-419 of `pram_init` on a block count that fits 32 bits. -/
theorem pram_init_bitmap_size_spec (nb k : Nat) (hnb : nb < 2 ^ 32) (hk : k ≤ 32) :
    2 ^ k ∣ pram_init_bitmap_size nb (2 ^ k) ∧
    (nb + 7) / 8 ≤ pram_init_bitmap_size nb (2 ^ k) ∧
    pram_init_bitmap_size nb (2 ^ k) < (nb + 7) / 8 + 2 ^ k := by
  have hpow : 2 ^ k ≤ 2 ^ 32 := Nat.pow_le_pow_right (by decide) hk
  have h32 : (2 : Nat) ^ 32 = 4294967296 := by norm_num
  have h64 : (2 : Nat) ^ 64 = 18446744073709551616 := by norm_num
  have hb := bitmap_bytes_spec nb (by omega)
  have := round_up_spec ((nb + 7) / 8) k (by omega) (by omega)
  simpa only [pram_init_bitmap_size, hb] using this

/-- The bitmap never takes more blocks than there are blocks. -/
theorem bitmap_blocks_le (nb k : Nat) (hnb : nb < 2 ^ 32) (hk : k ≤ 32) :
    pram_init_bitmap_size nb (2 ^ k) / 2 ^ k ≤ nb := by
  obtain ⟨hd, _, hlt⟩ := pram_init_bitmap_size_spec nb k hnb hk
  obtain ⟨t, ht⟩ := hd
  have hpos : 0 < 2 ^ k := Nat.two_pow_pos k
  rw [ht, Nat.mul_div_cancel_left _ hpos]
  rw [ht] at hlt
  by_contra hcon
  have h1 : nb + 1 ≤ t := by omega
  have h2 : 2 ^ k * (nb + 1) ≤ 2 ^ k * t := Nat.mul_le_mul_left _ h1
  have h3 : nb ≤ 2 ^ k * nb := Nat.le_mul_of_pos_left _ hpos
  rw [Nat.mul_add, Nat.mul_one] at h2
  omega

/-- The superblock fields that `pram_init` stored, read back from the image of a
successful run. -/
theorem pram_init_stored {crc : List Nat → Nat} {ok : Bool} {sbi : pram_sb_info} {img : Image}
    {size : Nat} {r : pram_init_result} (h : pram_init crc ok sbi img size = .ok r) :
    r.image.super.s_inodes_count = cpu_to_be32 r.num_inodes ∧
    r.image.super.s_blocks_count = cpu_to_be32 r.num_blocks ∧
    r.image.super.s_bitmap_blocks = cpu_to_be32 (r.bitmap_size >>> r.s_blocksize_bits) ∧
    r.image.super.s_free_blocks_count =
      cpu_to_be32 ((r.num_blocks + 2 ^ 64
        - cpu_to_be32 (r.bitmap_size >>> r.s_blocksize_bits)) % 2 ^ 64) := by
  obtain ⟨_, _, _, _, _, _, _, _, _, himg⟩ := pram_init_ok h
  rw [himg]
  exact ⟨rfl, rfl, rfl, rfl⟩

/-- C6, as amended: for a block size `2 ^ k` that is a multiple of
`PRAM_INODE_SIZE` and a requested inode count whose rounded-up value fits the
32-bit field `s_inodes_count` (`requested + blocksize / PRAM_INODE_SIZE ≤ 2 ^ 32`),
a successful `pram_init` computes `bitmap_start` as the least multiple of the
block size that is at least `2 * PRAM_SB_SIZE + requested * PRAM_INODE_SIZE`, and
the stored inode count `n` satisfies
`2 * PRAM_SB_SIZE + n * PRAM_INODE_SIZE = bitmap_start`, `requested ≤ n` and
`n < requested + blocksize / PRAM_INODE_SIZE`. -/
theorem pram_init_inode_table (crc : List Nat → Nat) (sbi : pram_sb_info) (img : Image)
    (size k : Nat) (r : pram_init_result)
    (hk7 : PRAM_INODE_BITS ≤ k) (hk30 : k ≤ 30)
    (hbs : (if sbi.blocksize = 0 then PRAM_DEF_BLOCK_SIZE else sbi.blocksize) = 2 ^ k)
    (hfit : pram_init_requested sbi size + 2 ^ k / PRAM_INODE_SIZE ≤ 2 ^ 32)
    (h : pram_init crc true sbi img size = .ok r) :
    (2 ^ k ∣ r.bitmap_start ∧
      PRAM_SB_SIZE * 2 + pram_init_requested sbi size * PRAM_INODE_SIZE ≤ r.bitmap_start ∧
      ∀ m, 2 ^ k ∣ m → PRAM_SB_SIZE * 2 + pram_init_requested sbi size * PRAM_INODE_SIZE ≤ m →
        r.bitmap_start ≤ m) ∧
    PRAM_SB_SIZE * 2 + r.image.super.s_inodes_count * PRAM_INODE_SIZE = r.bitmap_start ∧
    pram_init_requested sbi size ≤ r.image.super.s_inodes_count ∧
    r.image.super.s_inodes_count < pram_init_requested sbi size + 2 ^ k / PRAM_INODE_SIZE := by
  obtain ⟨_, _, _, _, _, hstart, hnum, _, _, _⟩ := pram_init_ok h
  obtain ⟨hcount, _, _, _⟩ := pram_init_stored h
  rw [pram_init_blocksize_two_pow sbi k (by omega) hbs] at hstart
  have h32 : (2 : Nat) ^ 32 = 4294967296 := by norm_num
  have h64 : (2 : Nat) ^ 64 = 18446744073709551616 := by norm_num
  have hpow : 2 ^ k ≤ 2 ^ 32 := Nat.pow_le_pow_right (by decide) (by omega)
  have hdvdk : PRAM_INODE_SIZE ∣ 2 ^ k := by
    have : PRAM_INODE_SIZE = 2 ^ PRAM_INODE_BITS := by decide
    rw [this]
    exact Nat.pow_dvd_pow 2 hk7
  have hreq : pram_init_requested sbi size < 2 ^ 56 :=
    lt_of_le_of_lt (le_trans (Nat.le_add_right _ _) hfit) (by norm_num)
  obtain ⟨hd, hle, hlt⟩ := pram_init_bitmap_start_spec (pram_init_requested sbi size) k
    (by omega) hreq
  rw [← hstart] at hd hle hlt
  have hdvd : PRAM_INODE_SIZE ∣ r.bitmap_start := Dvd.dvd.trans hdvdk hd
  have hsz : PRAM_SB_SIZE * 2 + r.num_inodes * PRAM_INODE_SIZE = r.bitmap_start := by
    rw [hnum]
    apply pram_init_num_inodes_spec _ (by omega) _ hdvd
    simp only [PRAM_SB_SIZE, PRAM_INODE_SIZE] at *
    omega
  obtain ⟨c, hc⟩ := hdvdk
  have hc' : 2 ^ k / PRAM_INODE_SIZE = c := by
    rw [hc]; exact Nat.mul_div_cancel_left c (by decide)
  rw [hc'] at hfit ⊢
  have hn32 : r.num_inodes < 2 ^ 32 := by
    simp only [PRAM_SB_SIZE, PRAM_INODE_SIZE] at *
    omega
  have hcount' : r.image.super.s_inodes_count = r.num_inodes := by
    rw [hcount]; exact Nat.mod_eq_of_lt hn32
  rw [hcount']
  refine ⟨⟨hd, hle, least_multiple_of_lt _ _ _ hd hlt⟩, hsz, ?_, ?_⟩
  · simp only [PRAM_SB_SIZE, PRAM_INODE_SIZE] at *
    omega
  · simp only [PRAM_SB_SIZE, PRAM_INODE_SIZE] at *
    omega

/-- The 16 MiB / 4 KiB example of C6: 6553 inodes requested, `bitmap_start`
839680 and 6558 inodes stored; `pram_init_inode_table` applies to it. -/
theorem pram_init_inode_table_witness :
    ∃ r, pram_init sum_crc true opts_4k blank_image (16 * 1024 * 1024) = .ok r ∧
      pram_init_requested opts_4k (16 * 1024 * 1024) = 6553 ∧
      r.bitmap_start = 839680 ∧ r.image.super.s_inodes_count = 6558 ∧
      PRAM_SB_SIZE * 2 + r.image.super.s_inodes_count * PRAM_INODE_SIZE = r.bitmap_start :=
  ⟨_, rfl, by decide, by decide, by decide,
    (pram_init_inode_table sum_crc opts_4k blank_image (16 * 1024 * 1024) 12 _
      (by decide) (by decide) (by decide) (by decide) rfl).2.1⟩

/-- C6 as stated fails on a 16 TiB image with 4 KiB blocks and the default
inode budget: 6871947673 inodes are requested, the table is rounded up to
6871947678 records, and the 32-bit field `s_inodes_count` keeps 2576980382. -/
theorem pram_init_inode_count_truncated :
    ∃ r, pram_init sum_crc true opts_4k blank_image (2 ^ 44) = .ok r ∧
      pram_init_requested opts_4k (2 ^ 44) = 6871947673 ∧
      r.bitmap_start = 879609303040 ∧
      r.image.super.s_inodes_count = 2576980382 ∧
      PRAM_SB_SIZE * 2 + r.image.super.s_inodes_count * PRAM_INODE_SIZE ≠ r.bitmap_start ∧
      ¬ pram_init_requested opts_4k (2 ^ 44) ≤ r.image.super.s_inodes_count :=
  ⟨_, rfl, by decide, by decide, by decide, by decide, by decide⟩


/-- The bitmap size and the stored bitmap block count of a successful run of
`pram_init` with a block count below `2 ^ 32`. -/
theorem pram_init_bitmap_stored {crc : List Nat → Nat} {sbi : pram_sb_info} {img : Image}
    {size k : Nat} {r : pram_init_result} (hk : k ≤ 30)
    (hbs : (if sbi.blocksize = 0 then PRAM_DEF_BLOCK_SIZE else sbi.blocksize) = 2 ^ k)
    (h : pram_init crc true sbi img size = .ok r) (hnb : r.num_blocks < 2 ^ 32) :
    r.bitmap_size = pram_init_bitmap_size r.num_blocks (2 ^ k) ∧
    r.image.super.s_bitmap_blocks = pram_init_bitmap_size r.num_blocks (2 ^ k) / 2 ^ k := by
  obtain ⟨_, _, _, hbits, hbsz, _, _, _, hsize, _⟩ := pram_init_ok h
  obtain ⟨_, _, hbb, _⟩ := pram_init_stored h
  rw [pram_init_blocksize_two_pow sbi k (by omega) hbs] at hbits hbsz
  simp only at hbits hbsz
  rw [hbsz] at hsize
  rw [hbb, hsize, hbits, Nat.shiftRight_eq_div_pow]
  refine ⟨rfl, ?_⟩
  have hle2 := bitmap_blocks_le r.num_blocks k hnb (by omega)
  unfold cpu_to_be32
  exact Nat.mod_eq_of_lt (by omega)

/-- Lines 413-419 of `pram_init` on every block count below `2 ^ 63`, where
neither `num_blocks + 8` nor the rounding wraps. -/
theorem pram_init_bitmap_size_wide (nb k : Nat) (hnb : nb < 2 ^ 63) (hk : k ≤ 32) :
    2 ^ k ∣ pram_init_bitmap_size nb (2 ^ k) ∧
    (nb + 7) / 8 ≤ pram_init_bitmap_size nb (2 ^ k) ∧
    pram_init_bitmap_size nb (2 ^ k) < (nb + 7) / 8 + 2 ^ k := by
  have hpow : 2 ^ k ≤ 2 ^ 32 := Nat.pow_le_pow_right (by decide) hk
  have h32 : (2 : Nat) ^ 32 = 4294967296 := by norm_num
  have h63 : (2 : Nat) ^ 63 = 9223372036854775808 := by norm_num
  have h64 : (2 : Nat) ^ 64 = 18446744073709551616 := by norm_num
  have hb := bitmap_bytes_spec nb (by omega)
  have := round_up_spec ((nb + 7) / 8) k (by omega) (by omega)
  simpa only [pram_init_bitmap_size, hb] using this

/-- The bitmap never takes more blocks than there are blocks, for every block
count below `2 ^ 63`. -/
theorem bitmap_blocks_le_wide (nb k : Nat) (hnb : nb < 2 ^ 63) (hk : k ≤ 32) :
    pram_init_bitmap_size nb (2 ^ k) / 2 ^ k ≤ nb := by
  obtain ⟨hd, _, hlt⟩ := pram_init_bitmap_size_wide nb k hnb hk
  obtain ⟨t, ht⟩ := hd
  have hpos : 0 < 2 ^ k := Nat.two_pow_pos k
  rw [ht, Nat.mul_div_cancel_left _ hpos]
  rw [ht] at hlt
  by_contra hcon
  have h1 : nb + 1 ≤ t := by omega
  have h2 : 2 ^ k * (nb + 1) ≤ 2 ^ k * t := Nat.mul_le_mul_left _ h1
  have h3 : nb ≤ 2 ^ k * nb := Nat.le_mul_of_pos_left _ hpos
  rw [Nat.mul_add, Nat.mul_one] at h2
  omega

/-- The bitmap size of a successful run of `pram_init` and what it stores in the
32-bit field `s_bitmap_blocks`: the low 32 bits of the size divided by the
block size. -/
theorem pram_init_bitmap_stored_wide {crc : List Nat → Nat} {sbi : pram_sb_info}
    {img : Image} {size k : Nat} {r : pram_init_result} (hk : k ≤ 30)
    (hbs : (if sbi.blocksize = 0 then PRAM_DEF_BLOCK_SIZE else sbi.blocksize) = 2 ^ k)
    (h : pram_init crc true sbi img size = .ok r) :
    r.bitmap_size = pram_init_bitmap_size r.num_blocks (2 ^ k) ∧
    r.image.super.s_bitmap_blocks
      = pram_init_bitmap_size r.num_blocks (2 ^ k) / 2 ^ k % 2 ^ 32 := by
  obtain ⟨_, _, _, hbits, hbsz, _, _, _, hsize, _⟩ := pram_init_ok h
  obtain ⟨_, _, hbb, _⟩ := pram_init_stored h
  rw [pram_init_blocksize_two_pow sbi k (by omega) hbs] at hbits hbsz
  simp only at hbits hbsz
  rw [hbsz] at hsize
  rw [hbb, hsize, hbits, Nat.shiftRight_eq_div_pow]
  exact ⟨rfl, rfl⟩

/-- The block count of a successful run of `pram_init` with a block size
`2 ^ k` of at least two bytes is at least 1 and below `2 ^ 63`. -/
theorem pram_init_num_blocks_range {crc : List Nat → Nat} {sbi : pram_sb_info}
    {img : Image} {size k : Nat} {r : pram_init_result} (hk1 : 1 ≤ k) (hk : k ≤ 30)
    (hbs : (if sbi.blocksize = 0 then PRAM_DEF_BLOCK_SIZE else sbi.blocksize) = 2 ^ k)
    (h : pram_init crc true sbi img size = .ok r) :
    1 ≤ r.num_blocks ∧ r.num_blocks < 2 ^ 63 := by
  obtain ⟨_, _, hnz, hbits, _, _, _, hnum, _, _⟩ := pram_init_ok h
  rw [pram_init_blocksize_two_pow sbi k (by omega) hbs] at hbits
  simp only at hbits
  rw [hbits, Nat.shiftRight_eq_div_pow] at hnum
  refine ⟨Nat.pos_of_ne_zero hnz, ?_⟩
  rw [hnum]
  have hlt : (size + 2 ^ 64 - r.bitmap_start) % 2 ^ 64 < 2 ^ 64 :=
    Nat.mod_lt _ (Nat.two_pow_pos 64)
  have h2 : (2 : Nat) ^ 1 ≤ 2 ^ k := Nat.pow_le_pow_right (by decide) hk1
  have h3 : (size + 2 ^ 64 - r.bitmap_start) % 2 ^ 64 / 2 ^ k
      ≤ (size + 2 ^ 64 - r.bitmap_start) % 2 ^ 64 / 2 ^ 1 :=
    Nat.div_le_div_left h2 (by decide)
  have h63 : (2 : Nat) ^ 63 = 9223372036854775808 := by norm_num
  have h64 : (2 : Nat) ^ 64 = 18446744073709551616 := by norm_num
  omega

/-- C7, the original claim fails: `pram_init` on an image of `2 ^ 53 + 4096`
bytes with the options `bs=512,N=30` has `2 ^ 44` blocks of 512 bytes.  The
bitmap size is `2 ^ 41` bytes, which is `ceil(2 ^ 44 / 8)` and a multiple of
the block size, so it takes `2 ^ 32` blocks; the 32-bit field `s_bitmap_blocks`
keeps the low 32 bits of that number and stores 0. -/
theorem pram_init_bitmap_blocks_truncated :
    ∃ r, pram_init sum_crc true opts_512 blank_image (2 ^ 53 + 4096) = .ok r ∧
      r.s_blocksize = 512 ∧
      r.num_blocks = 2 ^ 44 ∧
      r.bitmap_size = 2 ^ 41 ∧
      (r.num_blocks + 7) / 8 = 2 ^ 41 ∧
      r.bitmap_size / r.s_blocksize = 2 ^ 32 ∧
      r.image.super.s_bitmap_blocks = 0 ∧
      r.image.super.s_bitmap_blocks ≠ r.bitmap_size / r.s_blocksize :=
  ⟨_, rfl, by decide, by decide, by decide, by decide, by decide, by decide, by decide⟩

/-- C7, as amended: for every block count `1 ≤ nb < 2 ^ 63` and every block size
`2 ^ k` up to `2 ^ 30`, the bitmap size computed by lines 413-419 of `pram_init`
is `ceil(nb / 8)` rounded up to the next multiple of the block size: it is a
multiple of the block size, it is at least `(nb + 7) / 8`, and it is at most
every other such multiple, where `(nb + 7) / 8` is the least number of bytes
with a bit for each block; the bitmap takes no more blocks than there are.
A run of `pram_init` with that block count stores in `s_bitmap_blocks` the low
32 bits of that size divided by the block size: the quotient itself exactly
when it is below `2 ^ 32`, which it is for every block count below `2 ^ 32`.
Every successful run with a block size of at least two bytes has a block
count in the range `1 ≤ nb < 2 ^ 63`. -/
theorem pram_init_bitmap_size_correct (nb k : Nat) (hnb1 : 1 ≤ nb) (hnb : nb < 2 ^ 63)
    (hk : k ≤ 30) :
    (2 ^ k ∣ pram_init_bitmap_size nb (2 ^ k) ∧
      (nb + 7) / 8 ≤ pram_init_bitmap_size nb (2 ^ k) ∧
      ∀ m, 2 ^ k ∣ m → (nb + 7) / 8 ≤ m → pram_init_bitmap_size nb (2 ^ k) ≤ m) ∧
    (8 * ((nb + 7) / 8 - 1) < nb ∧ nb ≤ 8 * ((nb + 7) / 8)) ∧
    pram_init_bitmap_size nb (2 ^ k) / 2 ^ k ≤ nb ∧
    (∀ (crc : List Nat → Nat) (sbi : pram_sb_info) (img : Image) (size : Nat)
      (r : pram_init_result),
      (if sbi.blocksize = 0 then PRAM_DEF_BLOCK_SIZE else sbi.blocksize) = 2 ^ k →
      pram_init crc true sbi img size = .ok r → r.num_blocks = nb →
      r.bitmap_size = pram_init_bitmap_size nb (2 ^ k) ∧
      r.image.super.s_bitmap_blocks = pram_init_bitmap_size nb (2 ^ k) / 2 ^ k % 2 ^ 32 ∧
      (r.image.super.s_bitmap_blocks = pram_init_bitmap_size nb (2 ^ k) / 2 ^ k ↔
        pram_init_bitmap_size nb (2 ^ k) / 2 ^ k < 2 ^ 32) ∧
      (nb < 2 ^ 32 →
        r.image.super.s_bitmap_blocks = pram_init_bitmap_size nb (2 ^ k) / 2 ^ k)) ∧
    (∀ (crc : List Nat → Nat) (sbi : pram_sb_info) (img : Image) (size : Nat)
      (r : pram_init_result),
      (if sbi.blocksize = 0 then PRAM_DEF_BLOCK_SIZE else sbi.blocksize) = 2 ^ k → 1 ≤ k →
      pram_init crc true sbi img size = .ok r →
      1 ≤ r.num_blocks ∧ r.num_blocks < 2 ^ 63) := by
  obtain ⟨hd, hle, hlt⟩ := pram_init_bitmap_size_wide nb k hnb (by omega)
  have hblk := bitmap_blocks_le_wide nb k hnb (by omega)
  refine ⟨⟨hd, hle, least_multiple_of_lt _ _ _ hd hlt⟩, by omega, hblk, ?_, ?_⟩
  · intro crc sbi img size r hbs h hr
    subst hr
    obtain ⟨h1, h2⟩ := pram_init_bitmap_stored_wide hk hbs h
    have hiff : r.image.super.s_bitmap_blocks
        = pram_init_bitmap_size r.num_blocks (2 ^ k) / 2 ^ k ↔
        pram_init_bitmap_size r.num_blocks (2 ^ k) / 2 ^ k < 2 ^ 32 := by
      rw [h2]
      constructor
      · intro he
        rw [← he]
        exact Nat.mod_lt _ (Nat.two_pow_pos 32)
      · intro hl
        exact Nat.mod_eq_of_lt hl
    exact ⟨h1, h2, hiff, fun h32 => hiff.mpr (by omega)⟩
  · intro crc sbi img size r hbs hk1 h
    exact pram_init_num_blocks_range hk1 hk hbs h

/-- Three runs for C7.  The 16 MiB / 4 KiB example: 3891 blocks need 487 bitmap
bytes, rounded up to one block of 4096 bytes, and 1 is stored.  The image of
`2 ^ 41 + 4096` bytes with 512-byte blocks: `2 ^ 32` blocks need `2 ^ 29` bytes,
and their `2 ^ 20` blocks are stored.  The image of `2 ^ 53 + 4096` bytes with
512-byte blocks: the bitmap of its `2 ^ 44` blocks takes `2 ^ 32` blocks, and the
low 32 bits, 0, are stored. -/
theorem pram_init_bitmap_size_correct_witness :
    pram_init_bitmap_size 3891 (2 ^ 12) = 4096 ∧ (3891 + 7) / 8 = 487 ∧
    2 ^ 12 ∣ pram_init_bitmap_size 3891 (2 ^ 12) ∧
    (∃ r, pram_init sum_crc true opts_4k blank_image (16 * 1024 * 1024) = .ok r ∧
      r.num_blocks = 3891 ∧ r.image.super.s_bitmap_blocks = 4096 / 2 ^ 12) ∧
    (∃ r, pram_init sum_crc true opts_512 blank_image (2 ^ 41 + 4096) = .ok r ∧
      r.num_blocks = 2 ^ 32 ∧ r.bitmap_size = 2 ^ 29 ∧
      r.image.super.s_bitmap_blocks = 2 ^ 29 / 2 ^ 9) ∧
    (∃ r, pram_init sum_crc true opts_512 blank_image (2 ^ 53 + 4096) = .ok r ∧
      r.num_blocks = 2 ^ 44 ∧ r.image.super.s_bitmap_blocks = 2 ^ 41 / 2 ^ 9 % 2 ^ 32) :=
  have run32 : ∃ r, pram_init sum_crc true opts_512 blank_image (2 ^ 41 + 4096) = .ok r ∧
      r.num_blocks = 2 ^ 32 := ⟨_, rfl, by decide⟩
  have run44 : ∃ r, pram_init sum_crc true opts_512 blank_image (2 ^ 53 + 4096) = .ok r ∧
      r.num_blocks = 2 ^ 44 := ⟨_, rfl, by decide⟩
  ⟨by decide, by decide,
    (pram_init_bitmap_size_correct 3891 12 (by decide) (by decide) (by decide)).1.1,
    ⟨_, rfl, by decide,
      (((pram_init_bitmap_size_correct 3891 12 (by decide) (by decide) (by decide)).2.2.2.1
        sum_crc opts_4k blank_image (16 * 1024 * 1024) _ (by decide) rfl
          (by decide)).2.2.2 (by decide)).trans (by decide)⟩,
    run32.elim fun r hr =>
      have h := (pram_init_bitmap_size_correct (2 ^ 32) 9 (by decide) (by decide)
        (by decide)).2.2.2.1 sum_crc opts_512 blank_image (2 ^ 41 + 4096) r (by decide)
        hr.1 hr.2
      ⟨r, hr.1, hr.2, h.1.trans (by decide), (h.2.2.1.mpr (by decide)).trans (by decide)⟩,
    run44.elim fun r hr =>
      have h := (pram_init_bitmap_size_correct (2 ^ 44) 9 (by decide) (by decide)
        (by decide)).2.2.2.1 sum_crc opts_512 blank_image (2 ^ 53 + 4096) r (by decide)
        hr.1 hr.2
      ⟨r, hr.1, hr.2, h.2.1.trans (by decide)⟩⟩

/-- C8, as amended: whenever `pram_init` succeeds with a block count that fits
the 32-bit field `s_blocks_count` (`num_blocks < 2 ^ 32`), the stored counters
satisfy `s_free_blocks_count + s_bitmap_blocks = s_blocks_count` as natural
numbers; the subtraction does not wrap because the bitmap never takes more
blocks than there are. -/
theorem pram_init_free_blocks (crc : List Nat → Nat) (sbi : pram_sb_info) (img : Image)
    (size k : Nat) (r : pram_init_result) (hk : k ≤ 30)
    (hbs : (if sbi.blocksize = 0 then PRAM_DEF_BLOCK_SIZE else sbi.blocksize) = 2 ^ k)
    (h : pram_init crc true sbi img size = .ok r) (hnb : r.num_blocks < 2 ^ 32) :
    r.image.super.s_free_blocks_count + r.image.super.s_bitmap_blocks
      = r.image.super.s_blocks_count ∧
    r.image.super.s_blocks_count = r.num_blocks ∧
    r.image.super.s_bitmap_blocks ≤ r.num_blocks := by
  obtain ⟨_, hblocks, hbb, hfree⟩ := pram_init_stored h
  have hbm := (pram_init_bitmap_stored hk hbs h hnb).2
  have hle := bitmap_blocks_le r.num_blocks k hnb (by omega)
  rw [← hbm] at hle
  rw [← hbb] at hfree
  have h32 : (2 : Nat) ^ 32 = 4294967296 := by norm_num
  have h64 : (2 : Nat) ^ 64 = 18446744073709551616 := by norm_num
  have hb : r.image.super.s_blocks_count = r.num_blocks := by
    rw [hblocks]; exact Nat.mod_eq_of_lt hnb
  refine ⟨?_, hb, hle⟩
  rw [hfree, hb]
  unfold cpu_to_be32
  omega

/-- The 16 MiB / 4 KiB example of C8: 3891 blocks, 1 bitmap block, 3890 free
blocks; `pram_init_free_blocks` applies to it. -/
theorem pram_init_free_blocks_witness :
    ∃ r, pram_init sum_crc true opts_4k blank_image (16 * 1024 * 1024) = .ok r ∧
      r.image.super.s_blocks_count = 3891 ∧ r.image.super.s_bitmap_blocks = 1 ∧
      r.image.super.s_free_blocks_count = 3890 ∧
      r.image.super.s_free_blocks_count + r.image.super.s_bitmap_blocks
        = r.image.super.s_blocks_count :=
  ⟨_, rfl, by decide, by decide, by decide,
    (pram_init_free_blocks sum_crc opts_4k blank_image (16 * 1024 * 1024) 12 _
      (by decide) (by decide) rfl (by decide)).1⟩

/-- C8 as stated fails on an image of 2 TiB + 4 KiB with 512-byte blocks and
`N=30`: there are `2 ^ 32` blocks, the 32-bit field `s_blocks_count` keeps 0,
and `s_free_blocks_count + s_bitmap_blocks` is `2 ^ 32`. -/
theorem pram_init_block_count_truncated :
    ∃ r, pram_init sum_crc true opts_512 blank_image (2 ^ 41 + 4096) = .ok r ∧
      r.num_blocks = 2 ^ 32 ∧
      r.image.super.s_blocks_count = 0 ∧
      r.image.super.s_bitmap_blocks = 1048576 ∧
      r.image.super.s_free_blocks_count = 4293918720 ∧
      r.image.super.s_free_blocks_count + r.image.super.s_bitmap_blocks
        ≠ r.image.super.s_blocks_count :=
  ⟨_, rfl, by decide, by decide, by decide, by decide, by decide⟩


/-! ## Superblock checks at mount -/

/-- The superblock checks reject the image in three of the four ways in which
both copies can be invalid. -/
theorem pram_fill_super_checks_reject (crc : List Nat → Nat) (img : Image)
    (h : (img.super.s_magic ≠ PRAM_SUPER_MAGIC ∧ img.redund.s_magic ≠ PRAM_SUPER_MAGIC) ∨
      (img.super.s_magic ≠ PRAM_SUPER_MAGIC ∧
        pram_calc_checksum crc img.redund.s_sum (sb_payload img.redund) ≠ 0) ∨
      (pram_calc_checksum crc img.super.s_sum (sb_payload img.super) ≠ 0 ∧
        pram_calc_checksum crc img.redund.s_sum (sb_payload img.redund) ≠ 0)) :
    pram_fill_super_checks crc img = .error (-EINVAL) := by
  unfold pram_fill_super_checks
  rcases h with ⟨h1, h2⟩ | ⟨h1, h2⟩ | ⟨h1, h2⟩
  · simp [h1, h2]
  · by_cases h3 : img.redund.s_magic = PRAM_SUPER_MAGIC
    · simp [h1, h2, h3]
    · simp [h1, h3]
  · by_cases h3 : img.super.s_magic = PRAM_SUPER_MAGIC
    · simp [h1, h2, h3]
    · by_cases h4 : img.redund.s_magic = PRAM_SUPER_MAGIC
      · simp [h2, h3, h4]
      · simp [h3, h4]

/-- The fourth way: a primary copy with the right magic and a failing checksum
is replaced by a redundant copy whose checksum passes, whatever the magic of
the redundant copy is. -/
theorem pram_fill_super_checks_copy_unchecked (crc : List Nat → Nat) (img : Image)
    (h1 : img.super.s_magic = PRAM_SUPER_MAGIC)
    (h2 : pram_calc_checksum crc img.super.s_sum (sb_payload img.super) ≠ 0)
    (h3 : pram_calc_checksum crc img.redund.s_sum (sb_payload img.redund) = 0) :
    pram_fill_super_checks crc img = .ok { img with super := img.redund } := by
  unfold pram_fill_super_checks
  simp [h1, h2, h3]

/-- C1, the failing input: the primary copy has the right magic and a failing
checksum, the redundant copy has a wrong magic and a passing checksum.  Both
copies are invalid, yet the superblock checks of `pram_fill_super` do not fail:
they copy the redundant copy over the primary one and the mount goes on with
a superblock whose magic is wrong. -/
theorem pram_fill_super_checks_accept_bad_magic :
    ¬ sb_valid sum_crc bad_sum_super ∧ ¬ sb_valid sum_crc bad_magic_super ∧
    bad_sum_super.s_magic = PRAM_SUPER_MAGIC ∧
    pram_calc_checksum sum_crc bad_sum_super.s_sum (sb_payload bad_sum_super) ≠ 0 ∧
    bad_magic_super.s_magic ≠ PRAM_SUPER_MAGIC ∧
    pram_calc_checksum sum_crc bad_magic_super.s_sum (sb_payload bad_magic_super) = 0 ∧
    ∃ img, pram_fill_super_checks sum_crc (image_of bad_sum_super bad_magic_super) = .ok img ∧
      img.super = bad_magic_super ∧ img.super.s_magic ≠ PRAM_SUPER_MAGIC ∧
      ∃ m, pram_fill_super_existing sum_crc (image_of bad_sum_super bad_magic_super) = .ok m :=
  ⟨by decide, by decide, by decide, by decide, by decide, by decide,
    _, rfl, by decide, by decide, _, rfl⟩

/-- C2: when the primary superblock is invalid (wrong magic or failing
checksum) and the redundant one is valid (right magic and passing checksum),
the superblock checks of `pram_fill_super` do not fail; they leave an image
whose primary copy is the redundant copy, byte for byte, and whose redundant
copy and inode records are unchanged. -/
theorem pram_fill_super_checks_repair (crc : List Nat → Nat) (img : Image)
    (hp : ¬ sb_valid crc img.super) (hr : sb_valid crc img.redund) :
    pram_fill_super_checks crc img = .ok { img with super := img.redund } ∧
    ∃ img2, pram_fill_super_checks crc img = .ok img2 ∧ img2.super = img.redund ∧
      img2.redund = img.redund ∧ img2.inode = img.inode := by
  have key : pram_fill_super_checks crc img = .ok { img with super := img.redund } := by
    obtain ⟨hr1, hr2⟩ := hr
    unfold sb_valid at hp
    unfold pram_fill_super_checks
    by_cases h1 : img.super.s_magic = PRAM_SUPER_MAGIC
    · have h2 : pram_calc_checksum crc img.super.s_sum (sb_payload img.super) ≠ 0 :=
        fun h => hp ⟨h1, h⟩
      simp [h1, h2, hr2]
    · simp [h1, hr1, hr2]
  exact ⟨key, _, key, rfl, rfl, rfl⟩

/-- The repair of C2 on two images: a primary copy with a failing checksum, and
a primary copy with a wrong magic, each next to the valid copy `valid_super`. -/
theorem pram_fill_super_checks_repair_witness :
    (∃ img2, pram_fill_super_checks sum_crc (image_of bad_sum_super valid_super) = .ok img2 ∧
      img2.super = valid_super ∧ img2.redund = valid_super) ∧
    (∃ img2, pram_fill_super_checks sum_crc (image_of bad_magic_super valid_super) = .ok img2 ∧
      img2.super = valid_super ∧ img2.redund = valid_super) :=
  ⟨⟨_, (pram_fill_super_checks_repair sum_crc (image_of bad_sum_super valid_super)
      (by decide) (by decide)).1, rfl, rfl⟩,
   ⟨_, (pram_fill_super_checks_repair sum_crc (image_of bad_magic_super valid_super)
      (by decide) (by decide)).1, rfl, rfl⟩⟩

/-- A valid primary copy passes both checks and nothing is written. -/
theorem pram_fill_super_checks_valid (crc : List Nat → Nat) (img : Image)
    (hp : sb_valid crc img.super) : pram_fill_super_checks crc img = .ok img := by
  obtain ⟨h1, h2⟩ := hp
  unfold pram_fill_super_checks
  simp [h1, h2]

/-- C3: when the primary superblock is valid, the superblock checks of
`pram_fill_super` return the image as it is (neither copy is written), the
mount does not fail there, block size and image size are those of the primary
copy, and a run on an image that differs only in its redundant copy gives the
same primary copy, block size, image size and root inode. -/
theorem pram_fill_super_primary_valid (crc : List Nat → Nat) (img : Image)
    (redund2 : pram_super_block) (hp : sb_valid crc img.super) :
    pram_fill_super_checks crc img = .ok img ∧
    ∃ m m2, pram_fill_super_existing crc img = .ok m ∧
      pram_fill_super_existing crc { img with redund := redund2 } = .ok m2 ∧
      m.image.super = img.super ∧ m.image.redund = img.redund ∧
      m2.image.super = img.super ∧ m2.image.redund = redund2 ∧
      m.s_blocksize = (pram_set_blocksize img.super.s_blocksize).2 ∧
      m.initsize = img.super.s_size ∧
      m2.s_blocksize = m.s_blocksize ∧ m2.s_blocksize_bits = m.s_blocksize_bits ∧
      m2.initsize = m.initsize ∧ m2.image.inode = m.image.inode := by
  have k1 := pram_fill_super_checks_valid crc img hp
  have k2 := pram_fill_super_checks_valid crc { img with redund := redund2 } hp
  refine ⟨k1, ?_⟩
  unfold pram_fill_super_existing
  rw [k1, k2]
  exact ⟨_, _, rfl, rfl, rfl, rfl, rfl, rfl, rfl, rfl, rfl, rfl, rfl, rfl⟩

/-- The frame property of C3 on the valid copy `valid_super` next to a corrupt
redundant copy: the checks return the image unchanged. -/
theorem pram_fill_super_primary_valid_witness :
    sb_valid sum_crc valid_super ∧
    pram_fill_super_checks sum_crc (image_of valid_super bad_magic_super)
      = .ok (image_of valid_super bad_magic_super) :=
  ⟨by decide,
    (pram_fill_super_primary_valid sum_crc (image_of valid_super bad_magic_super) valid_super
      (by decide)).1⟩


/-! ## Root inode repair -/

/-- C4: whatever root inode record `pram_root_check` is given, and whichever
of the three checks fails or passes, the record it leaves has
`d_parent = PRAM_ROOT_INO`, `d_next = 0` and a directory mode. -/
theorem pram_root_check_post (crc : List Nat → Nat) (root_pi : pram_inode) :
    (pram_root_check crc root_pi).i_d_parent = PRAM_ROOT_INO ∧
    (pram_root_check crc root_pi).i_d_next = 0 ∧
    S_ISDIR (pram_root_check crc root_pi).i_mode = true := by
  have hp : cpu_to_be64 PRAM_ROOT_INO = PRAM_ROOT_INO := by decide
  have hd : S_ISDIR (cpu_to_be16 (S_IRWXUGO ||| S_ISVTX ||| S_IFDIR)) = true := by decide
  unfold pram_root_check
  by_cases h1 : root_pi.i_d_next = 0
  · by_cases h2 : S_ISDIR root_pi.i_mode = true
    · by_cases h3 : pram_calc_checksum crc root_pi.i_sum (inode_payload root_pi) = 0
      · simp only [h1, h2, h3, ne_eq, not_true_eq_false, if_false, Bool.not_true,
          Bool.false_eq_true]
        exact ⟨hp, rfl, hd⟩
      · simp only [h1, h2, h3, ne_eq, not_true_eq_false, if_false, Bool.not_true,
          Bool.false_eq_true, not_false_eq_true, if_true]
        exact ⟨hp, h1, h2⟩
    · simp only [h1, h2, ne_eq, not_true_eq_false, if_false, Bool.not_false, if_true]
      exact ⟨hp, h1, hd⟩
  · simp only [h1, ne_eq, not_false_eq_true, if_true]
    exact ⟨hp, rfl, hd⟩

/-- The record that `pram_root_check` leaves has a null `d_next`. -/
theorem pram_root_check_d_next (crc : List Nat → Nat) (root_pi : pram_inode) :
    (pram_root_check crc root_pi).i_d_next = 0 := by
  unfold pram_root_check
  split
  · rfl
  · rename_i h1
    simp only [ne_eq, not_not] at h1
    split
    · exact h1
    · split
      · exact h1
      · rfl

/-- Where `pram_root_check` leaves the mode alone and where it resets it. -/
theorem pram_root_check_mode (crc : List Nat → Nat) (root_pi : pram_inode) :
    (root_pi.i_d_next = 0 → S_ISDIR root_pi.i_mode = true →
      pram_calc_checksum crc root_pi.i_sum (inode_payload root_pi) ≠ 0 →
      (pram_root_check crc root_pi).i_mode = root_pi.i_mode) ∧
    (root_pi.i_d_next ≠ 0 ∨ S_ISDIR root_pi.i_mode = false →
      (pram_root_check crc root_pi).i_mode = cpu_to_be16 (S_IRWXUGO ||| S_ISVTX ||| S_IFDIR)) := by
  unfold pram_root_check
  refine ⟨fun h1 h2 h3 => ?_, fun h => ?_⟩
  · simp only [h1, h2, h3, ne_eq, not_true_eq_false, if_false, Bool.not_true,
      Bool.false_eq_true, not_false_eq_true, if_true]
    rfl
  · by_cases h1 : root_pi.i_d_next = 0
    · have h2 : S_ISDIR root_pi.i_mode = false := by
        rcases h with h | h
        · exact absurd h1 h
        · exact h
      simp only [h1, h2, ne_eq, not_true_eq_false, if_false, Bool.not_false, if_true]
      rfl
    · simp only [h1, ne_eq, not_false_eq_true, if_true]
      rfl

/-- C5, as amended: `pram_root_check` changes `d_next` only when it was
non-null, and all it ever stores there is 0.  The repairs are not independent:
a failed check skips the later checks and resets their fields too.  When
`d_next` is null, the mode is a directory mode and the checksum fails, `i_mode`
is left as it was; when `d_next` is non-null or the mode is not a directory
mode, `i_mode` becomes `S_IRWXUGO|S_ISVTX|S_IFDIR`, whatever it was. -/
theorem pram_root_check_frame (crc : List Nat → Nat) (root_pi : pram_inode) :
    ((pram_root_check crc root_pi).i_d_next ≠ root_pi.i_d_next → root_pi.i_d_next ≠ 0) ∧
    (root_pi.i_d_next = 0 → S_ISDIR root_pi.i_mode = true →
      pram_calc_checksum crc root_pi.i_sum (inode_payload root_pi) ≠ 0 →
      (pram_root_check crc root_pi).i_mode = root_pi.i_mode) ∧
    (root_pi.i_d_next ≠ 0 ∨ S_ISDIR root_pi.i_mode = false →
      (pram_root_check crc root_pi).i_mode = cpu_to_be16 (S_IRWXUGO ||| S_ISVTX ||| S_IFDIR)) := by
  refine ⟨fun hne h0 => hne ?_, pram_root_check_mode crc root_pi⟩
  rw [pram_root_check_d_next crc root_pi, h0]

/-- The three cases of C5 on concrete root inodes: a failing checksum alone
leaves the mode `0o40755`, a non-null `d_next` alone resets it to `0o41777`. -/
theorem pram_root_check_frame_witness :
    (pram_root_check sum_crc root_bad_sum).i_mode = 0o40755 ∧
    (pram_root_check sum_crc root_with_next).i_mode = 0o41777 :=
  ⟨((pram_root_check_frame sum_crc root_bad_sum).2.1 (by decide) (by decide) (by decide)).trans
      (by decide),
   ((pram_root_check_frame sum_crc root_with_next).2.2 (Or.inl (by decide))).trans (by decide)⟩

/-- A root inode that passes all three checks runs on into the label `fail1`:
the mode `0o40755` of `sound_root` is replaced by `0o41777` as well. -/
theorem pram_root_check_sound_root :
    sound_root.i_d_next = 0 ∧ S_ISDIR sound_root.i_mode = true ∧
    pram_calc_checksum sum_crc sound_root.i_sum (inode_payload sound_root) = 0 ∧
    (pram_root_check sum_crc sound_root).i_mode = 0o41777 :=
  ⟨by decide, by decide, by decide, by decide⟩

/-- C5 as stated fails on a root inode whose only defect is a non-null
`d_next` (its mode `0o40755` is a directory mode and its checksum passes):
`pram_root_check` changes its mode to `0o41777`. -/
theorem pram_root_check_next_resets_mode :
    root_with_next.i_d_next ≠ 0 ∧ S_ISDIR root_with_next.i_mode = true ∧
    pram_calc_checksum sum_crc root_with_next.i_sum (inode_payload root_with_next) = 0 ∧
    root_with_next.i_mode = 0o40755 ∧
    (pram_root_check sum_crc root_with_next).i_mode = 0o41777 ∧
    (pram_root_check sum_crc root_with_next).i_mode ≠ root_with_next.i_mode :=
  ⟨by decide, by decide, by decide, by decide, by decide, by decide⟩


/-! ## Directory lookup -/

/-- The comparison made by `pram_inode_by_name` (link count, `strlen`, then
`memcmp`) holds exactly for the entries that match the name. -/
theorem name_test_iff (tbl : Nat → pram_inode) (name : List Nat) (ino : Nat) :
    ((tbl ino).i_links_count ≠ 0 ∧ strlen (tbl ino).i_d_name = name.length ∧
      memcmp_eq name (tbl ino).i_d_name (strlen (tbl ino).i_d_name) = true)
    ↔ entry_matches tbl name ino = true := by
  have htake : (tbl ino).i_d_name.take (strlen (tbl ino).i_d_name)
      = stored_name (tbl ino) := by
    unfold strlen stored_name
    exact (List.prefix_iff_eq_take.mp (List.takeWhile_prefix _)).symm
  have hlen : strlen (tbl ino).i_d_name = (stored_name (tbl ino)).length := rfl
  unfold entry_matches memcmp_eq
  rw [htake]
  simp only [Bool.and_eq_true, decide_eq_true_eq, beq_iff_eq]
  constructor
  · rintro ⟨h1, h2, h3⟩
    rw [h2, List.take_length] at h3
    exact ⟨h1, h3.symm⟩
  · rintro ⟨h1, h2⟩
    rw [hlen, h2]
    exact ⟨h1, rfl, by rw [List.take_length]⟩

/-- The loop of `pram_inode_by_name` on a chain that ends at 0: with more fuel
than the chain is long it stops, at the first entry of the chain that matches
or else at 0. -/
theorem pram_inode_by_name_loop_eq (tbl : Nat → pram_inode) (name : List Nat) :
    ∀ (l : List Nat) (ino fuel : Nat), dir_chain tbl ino l = true → l.length < fuel →
      pram_inode_by_name_loop tbl name fuel ino
        = some ((l.find? (entry_matches tbl name)).getD 0) := by
  intro l
  induction l with
  | nil =>
    intro ino fuel hc hf
    obtain ⟨f, rfl⟩ : ∃ f, fuel = f + 1 := ⟨fuel - 1, by simp at hf; omega⟩
    simp only [dir_chain, beq_iff_eq] at hc
    subst hc
    simp [pram_inode_by_name_loop]
  | cons x l ih =>
    intro ino fuel hc hf
    obtain ⟨f, rfl⟩ : ∃ f, fuel = f + 1 := ⟨fuel - 1, by simp at hf; omega⟩
    simp only [dir_chain, Bool.and_eq_true, bne_iff_ne, ne_eq, beq_iff_eq] at hc
    obtain ⟨⟨h0, hx⟩, hrest⟩ := hc
    subst hx
    have hlen : l.length < f := by simp at hf; omega
    unfold pram_inode_by_name_loop
    simp only [h0, if_false]
    by_cases hm : entry_matches tbl name x = true
    · rw [if_pos ((name_test_iff tbl name x).mpr hm)]
      simp [List.find?, hm]
    · rw [if_neg (fun h => hm ((name_test_iff tbl name x).mp h))]
      simp only [Bool.not_eq_true] at hm
      rw [ih _ _ hrest hlen]
      simp [List.find?, hm]

/-- The entries of a chain are non-zero inode numbers. -/
theorem dir_chain_ne_zero (tbl : Nat → pram_inode) :
    ∀ (l : List Nat) (ino : Nat), dir_chain tbl ino l = true → ∀ x ∈ l, x ≠ 0 := by
  intro l
  induction l with
  | nil => intro ino _ x hx; simp at hx
  | cons y l ih =>
    intro ino hc x hx
    simp only [dir_chain, Bool.and_eq_true, bne_iff_ne, ne_eq, beq_iff_eq] at hc
    obtain ⟨⟨h0, hy⟩, hrest⟩ := hc
    rcases List.mem_cons.mp hx with rfl | hx
    · rw [hy]; exact h0
    · exact ih _ hrest x hx

/-- C10: for every directory whose chain `head → d_next → … ` ends at 0 (the
list `l` of its entries) and every name, `pram_inode_by_name` returns, once the
fuel exceeds the length of the chain, the first inode number in chain order
that is live (link count non-zero) and whose stored name has the length and
bytes of the queried name; it returns 0 exactly when the chain has no such
entry.  A returned entry is live and is preceded in the chain by no matching
entry, so an entry with link count 0 is never returned and with duplicate
names the earliest entry wins. -/
theorem pram_inode_by_name_correct (tbl : Nat → pram_inode) (dir : Nat) (name : List Nat)
    (l : List Nat) (fuel : Nat)
    (hchain : dir_chain tbl (tbl dir).i_type_dir_head l = true) (hfuel : l.length < fuel) :
    pram_inode_by_name tbl dir name fuel
      = some ((l.find? (entry_matches tbl name)).getD 0) ∧
    (pram_inode_by_name tbl dir name fuel = some 0 ↔
      ∀ x ∈ l, ¬ ((tbl x).i_links_count ≠ 0 ∧ stored_name (tbl x) = name)) ∧
    ∀ ino, ino ≠ 0 → pram_inode_by_name tbl dir name fuel = some ino →
      (tbl ino).i_links_count ≠ 0 ∧ stored_name (tbl ino) = name ∧
      ∃ pre post, l = pre ++ ino :: post ∧
        ∀ y ∈ pre, ¬ ((tbl y).i_links_count ≠ 0 ∧ stored_name (tbl y) = name) := by
  have hm : ∀ x, entry_matches tbl name x = true ↔
      ((tbl x).i_links_count ≠ 0 ∧ stored_name (tbl x) = name) := by
    intro x
    simp [entry_matches]
  have hloop := pram_inode_by_name_loop_eq tbl name l _ fuel hchain hfuel
  have hres : pram_inode_by_name tbl dir name fuel
      = some ((l.find? (entry_matches tbl name)).getD 0) := hloop
  have hnz := dir_chain_ne_zero tbl l _ hchain
  refine ⟨hres, ?_, ?_⟩
  · rw [hres]
    constructor
    · intro h x hx hmx
      cases hfind : l.find? (entry_matches tbl name) with
      | none =>
        have := List.find?_eq_none.mp hfind x hx
        exact this ((hm x).mpr hmx)
      | some y =>
        rw [hfind] at h
        simp only [Option.getD_some, Option.some.injEq] at h
        exact hnz y (List.mem_of_find?_eq_some hfind) h
    · intro h
      have : l.find? (entry_matches tbl name) = none := by
        apply List.find?_eq_none.mpr
        intro x hx hmx
        exact h x hx ((hm x).mp hmx)
      rw [this]
      rfl
  · intro ino hino h
    rw [hres] at h
    cases hfind : l.find? (entry_matches tbl name) with
    | none =>
      rw [hfind] at h
      simp only [Option.getD_none, Option.some.injEq] at h
      exact absurd h.symm hino
    | some y =>
      rw [hfind] at h
      simp only [Option.getD_some, Option.some.injEq] at h
      subst h
      obtain ⟨hy, pre, post, hl, hpre⟩ := List.find?_eq_some.mp hfind
      refine ⟨((hm y).mp hy).1, ((hm y).mp hy).2, pre, post, hl, ?_⟩
      intro z hz hmz
      have := hpre z hz
      simp only [Bool.not_eq_eq_eq_not, Bool.not_true] at this
      rw [(hm z).mpr hmz] at this
      exact absurd this (by decide)

/-- The lookup of C10 in the directory of `dir_table`, whose three entries are
all named "a": the dead first entry 384 is passed over and the earlier of the
two live entries, 512, is returned; the name "b" is not found. -/
theorem pram_inode_by_name_correct_witness :
    pram_inode_by_name dir_table 256 [97] 4 = some 512 ∧
    (pram_inode_by_name dir_table 256 [98] 4 = some 0 ↔
      ∀ x ∈ [384, 512, 640],
        ¬ ((dir_table x).i_links_count ≠ 0 ∧ stored_name (dir_table x) = [98])) :=
  ⟨(pram_inode_by_name_correct dir_table 256 [97] [384, 512, 640] 4 (by decide)
      (by decide)).1.trans (by decide),
   (pram_inode_by_name_correct dir_table 256 [98] [384, 512, 640] 4 (by decide)
      (by decide)).2.1⟩


/-! ## Format, then mount -/

/-- The checksum that `pram_sync_super` stores is the one `pram_calc_checksum`
accepts. -/
theorem pram_sync_super_valid (crc : List Nat → Nat) (img : Image) :
    pram_calc_checksum crc (pram_sync_super crc img).super.s_sum
      (sb_payload (pram_sync_super crc img).super) = 0 ∧
    (pram_sync_super crc img).redund = (pram_sync_super crc img).super ∧
    (pram_sync_super crc img).super.s_magic = img.super.s_magic := by
  refine ⟨?_, rfl, rfl⟩
  unfold pram_calc_checksum
  rw [if_pos]
  rfl

/-- Fields of the root inode that `pram_root_check` never writes. -/
theorem pram_root_check_keeps (crc : List Nat → Nat) (root_pi : pram_inode) :
    (pram_root_check crc root_pi).i_type_dir_head = root_pi.i_type_dir_head ∧
    (pram_root_check crc root_pi).i_type_dir_tail = root_pi.i_type_dir_tail ∧
    (pram_root_check crc root_pi).i_links_count = root_pi.i_links_count := by
  unfold pram_root_check
  split
  · exact ⟨rfl, rfl, rfl⟩
  · split
    · exact ⟨rfl, rfl, rfl⟩
    · split <;> exact ⟨rfl, rfl, rfl⟩

/-- The record that `pram_root_check` leaves has the root as its parent. -/
theorem pram_root_check_d_parent (crc : List Nat → Nat) (root_pi : pram_inode) :
    (pram_root_check crc root_pi).i_d_parent = PRAM_ROOT_INO := by
  have hp : cpu_to_be64 PRAM_ROOT_INO = PRAM_ROOT_INO := by decide
  unfold pram_root_check
  split
  · exact hp
  · split
    · exact hp
    · split <;> exact hp

/-- C9: for every size and every set of options that `pram_init` accepts (block
size a power of two from `PRAM_MIN_BLOCK_SIZE` up, requested inode table below
`2 ^ 63` bytes so that the 64-bit shift does not wrap), the image it writes
passes the mount-time checks of an existing image without repair: the primary
superblock has the right magic and a valid checksum, primary and redundant
copy are identical, the checks return the image unchanged; and after
`pram_root_check` the root inode is an empty directory (`head = tail = 0`,
`d_next = 0`) with link count 2 and `d_parent = PRAM_ROOT_INO`. -/
theorem pram_init_then_mount (crc : List Nat → Nat) (sbi : pram_sb_info) (img : Image)
    (size k : Nat) (r : pram_init_result)
    (hmin : PRAM_MIN_BLOCK_SIZE ≤ 2 ^ k) (hk30 : k ≤ 30)
    (hbs : (if sbi.blocksize = 0 then PRAM_DEF_BLOCK_SIZE else sbi.blocksize) = 2 ^ k)
    (hreq : pram_init_requested sbi size < 2 ^ 56)
    (h : pram_init crc true sbi img size = .ok r) :
    sb_valid crc r.image.super ∧ r.image.redund = r.image.super ∧
    pram_fill_super_checks crc r.image = .ok r.image ∧
    ∃ m, pram_fill_super_existing crc r.image = .ok m ∧
      m.image.super = r.image.super ∧ m.image.redund = r.image.redund ∧
      m.s_blocksize = r.s_blocksize ∧
      (m.image.inode PRAM_ROOT_INO).i_type_dir_head = 0 ∧
      (m.image.inode PRAM_ROOT_INO).i_type_dir_tail = 0 ∧
      (m.image.inode PRAM_ROOT_INO).i_d_next = 0 ∧
      (m.image.inode PRAM_ROOT_INO).i_links_count = 2 ∧
      (m.image.inode PRAM_ROOT_INO).i_d_parent = PRAM_ROOT_INO := by
  obtain ⟨_, _, _, hbits, hbsz, hstart, _, _, _, himg⟩ := pram_init_ok h
  rw [pram_init_blocksize_two_pow sbi k (by omega) hbs] at hstart hbsz
  simp only at hbsz
  obtain ⟨hd, hle, _⟩ := pram_init_bitmap_start_spec (pram_init_requested sbi size) k
    (by omega) hreq
  rw [← hstart] at hd hle
  -- the root inode record lies in the cleared part of the image
  have hroot : PRAM_ROOT_INO + PRAM_INODE_SIZE ≤ r.bitmap_start := by
    obtain ⟨c, hc⟩ := hd
    have hc1 : 1 ≤ c := by
      rcases Nat.eq_zero_or_pos c with h0 | h0
      · rw [h0, Nat.mul_zero] at hc
        simp only [PRAM_SB_SIZE] at hle
        omega
      · exact h0
    have : 2 ^ k * 1 ≤ 2 ^ k * c := Nat.mul_le_mul_left _ hc1
    simp only [PRAM_ROOT_INO, PRAM_SB_SIZE, PRAM_INODE_SIZE, PRAM_MIN_BLOCK_SIZE] at *
    omega
  have hvalid : sb_valid crc r.image.super := by
    have hmag : cpu_to_be16 PRAM_SUPER_MAGIC = PRAM_SUPER_MAGIC := by decide
    rw [himg]
    exact ⟨hmag, (pram_sync_super_valid crc _).1⟩
  have hsame : r.image.redund = r.image.super := by
    rw [himg]; rfl
  have hchecks := pram_fill_super_checks_valid crc r.image hvalid
  have hblk : r.image.super.s_blocksize = 2 ^ k := by
    rw [himg, hbsz]
    show cpu_to_be32 (2 ^ k) = 2 ^ k
    have : 2 ^ k ≤ 2 ^ 30 := Nat.pow_le_pow_right (by decide) hk30
    exact Nat.mod_eq_of_lt (lt_of_le_of_lt this (by norm_num))
  have hrootrec : (r.image.inode PRAM_ROOT_INO).i_type_dir_head = 0 ∧
      (r.image.inode PRAM_ROOT_INO).i_type_dir_tail = 0 ∧
      (r.image.inode PRAM_ROOT_INO).i_links_count = 2 := by
    rw [himg]
    simp only [pram_init_root, pram_init_super, pram_sync_super, pram_sync_inode,
      memset_zero, if_pos hroot, if_true, zero_inode]
    decide
  refine ⟨hvalid, hsame, hchecks, ?_⟩
  unfold pram_fill_super_existing
  rw [hchecks]
  obtain ⟨k1, k2, k3⟩ := pram_root_check_keeps crc (r.image.inode PRAM_ROOT_INO)
  refine ⟨_, rfl, rfl, rfl, ?_, ?_, ?_, ?_, ?_, ?_⟩
  · show (pram_set_blocksize r.image.super.s_blocksize).2 = r.s_blocksize
    rw [hblk, pram_set_blocksize_two_pow k (by omega), hbsz]
  · simp only [if_true]; rw [k1]; exact hrootrec.1
  · simp only [if_true]; rw [k2]; exact hrootrec.2.1
  · simp only [if_true]; exact pram_root_check_d_next crc _
  · simp only [if_true]; rw [k3]; exact hrootrec.2.2
  · simp only [if_true]; exact pram_root_check_d_parent crc _

/-- The 16 MiB / 4 KiB example of C9: `pram_init` accepts it and
`pram_init_then_mount` applies; the mount derives the block size 4096. -/
theorem pram_init_then_mount_witness :
    ∃ r, pram_init sum_crc true opts_4k blank_image (16 * 1024 * 1024) = .ok r ∧
      sb_valid sum_crc r.image.super ∧ r.image.redund = r.image.super ∧
      ∃ m, pram_fill_super_existing sum_crc r.image = .ok m ∧
        m.image.super = r.image.super ∧ m.image.redund = r.image.redund ∧
        m.s_blocksize = r.s_blocksize ∧
        (m.image.inode PRAM_ROOT_INO).i_type_dir_head = 0 ∧
        (m.image.inode PRAM_ROOT_INO).i_type_dir_tail = 0 ∧
        (m.image.inode PRAM_ROOT_INO).i_d_next = 0 ∧
        (m.image.inode PRAM_ROOT_INO).i_links_count = 2 ∧
        (m.image.inode PRAM_ROOT_INO).i_d_parent = PRAM_ROOT_INO :=
  have w := pram_init_then_mount sum_crc opts_4k blank_image (16 * 1024 * 1024) 12 _
    (by decide) (by decide) (by decide) (by decide) rfl
  ⟨_, rfl, w.1, w.2.1, w.2.2.2⟩

/-! ## The direct-map fault path -/

/-- C11: when `pram_find_data_block` reports no block for a file and logical
block, `pram_find_and_alloc_blocks` called with `create = 0` returns
`-ENODATA`, makes no call to `pram_alloc_blocks`, leaves `*data_block` and the
allocator state as they were; `pram_get_xip_mem` then returns the same error
and leaves `*kmem` and `*pfn` as they were. -/
theorem pram_find_and_alloc_blocks_hole_readonly {σ : Type} (ops : block_ops σ) (s : σ)
    (inode iblock data_block kmem pfn : Nat)
    (habsent : ops.pram_find_data_block s inode iblock = 0) :
    pram_find_and_alloc_blocks ops s inode iblock data_block 0
      = { err := -ENODATA, data_block := data_block, state := s, alloc_calls := [] } ∧
    pram_get_xip_mem ops s inode iblock 0 kmem pfn
      = .returns { rc := -ENODATA, kmem := kmem, pfn := pfn, state := s, alloc_calls := [] } := by
  have h1 : ∀ db, pram_find_and_alloc_blocks ops s inode iblock db 0
      = { err := -ENODATA, data_block := db, state := s, alloc_calls := [] } := by
    intro db
    simp [pram_find_and_alloc_blocks, habsent]
  refine ⟨h1 data_block, ?_⟩
  have hne : (-ENODATA : Int) ≠ 0 := by decide
  simp [pram_get_xip_mem, __pram_get_block, h1, hne]

/-- The read fault on a hole of C11 with the example allocator: block 7 of
file 300 is absent, the result is `-ENODATA` and nothing is written. -/
theorem pram_find_and_alloc_blocks_hole_readonly_witness :
    demo_find [(300, 0, 4096)] 300 7 = 0 ∧
    pram_get_xip_mem demo_ops [(300, 0, 4096)] 300 7 0 11 22
      = .returns { rc := -61, kmem := 11, pfn := 22, state := [(300, 0, 4096)],
                   alloc_calls := [] } :=
  ⟨by decide,
    (pram_find_and_alloc_blocks_hole_readonly demo_ops [(300, 0, 4096)] 300 7 0 11 22
      (by decide)).2⟩

/-- A block that the lookup reports is returned without an allocation. -/
theorem pram_find_and_alloc_blocks_found {σ : Type} (ops : block_ops σ) (s : σ)
    (inode iblock data_block : Nat) (create : Int)
    (hfound : ops.pram_find_data_block s inode iblock ≠ 0) :
    pram_find_and_alloc_blocks ops s inode iblock data_block create
      = { err := 0, data_block := ops.pram_find_data_block s inode iblock, state := s,
          alloc_calls := [] } := by
  simp [pram_find_and_alloc_blocks, hfound]

/-- After a call that returned 0, the lookup in the state it left reports the
block it stored in `*data_block`. -/
theorem pram_find_and_alloc_blocks_ok_found {σ : Type} (ops : block_ops σ) (s : σ)
    (inode iblock data_block : Nat) (create : Int)
    (hok : (pram_find_and_alloc_blocks ops s inode iblock data_block create).err = 0) :
    ops.pram_find_data_block
        (pram_find_and_alloc_blocks ops s inode iblock data_block create).state inode iblock
      = (pram_find_and_alloc_blocks ops s inode iblock data_block create).data_block ∧
    (pram_find_and_alloc_blocks ops s inode iblock data_block create).data_block ≠ 0 := by
  have hne : (-ENODATA : Int) ≠ 0 := by decide
  unfold pram_find_and_alloc_blocks at hok ⊢
  by_cases h1 : ops.pram_find_data_block s inode iblock = 0
  · by_cases h2 : create = 0
    · simp [h1, h2, hne] at hok
    · by_cases h3 : (ops.pram_alloc_blocks s inode iblock 1).1 = 0
      · by_cases h4 : ops.pram_find_data_block (ops.pram_alloc_blocks s inode iblock 1).2
            inode iblock = 0
        · simp [h1, h2, h3, h4, hne] at hok
        · simp [h1, h2, h3, h4]
      · simp [h1, h2, h3] at hok
  · simp [h1]

/-- C12: when `pram_find_data_block` already reports a non-zero block `B`,
`pram_find_and_alloc_blocks` returns 0 with `*data_block = B`, makes no call to
`pram_alloc_blocks` and leaves the allocator state alone, for either value of
`create`.  Hence after any fault that returned 0, a second fault at the same
offset returns 0 with the same physical block, without a call to
`pram_alloc_blocks`. -/
theorem pram_find_and_alloc_blocks_present {σ : Type} (ops : block_ops σ) (s : σ)
    (inode iblock data_block data_block2 : Nat) (create create2 : Int) :
    (ops.pram_find_data_block s inode iblock ≠ 0 →
      pram_find_and_alloc_blocks ops s inode iblock data_block create
        = { err := 0, data_block := ops.pram_find_data_block s inode iblock, state := s,
            alloc_calls := [] }) ∧
    ((pram_find_and_alloc_blocks ops s inode iblock data_block create).err = 0 →
      pram_find_and_alloc_blocks ops
          (pram_find_and_alloc_blocks ops s inode iblock data_block create).state
          inode iblock data_block2 create2
        = { err := 0,
            data_block :=
              (pram_find_and_alloc_blocks ops s inode iblock data_block create).data_block,
            state := (pram_find_and_alloc_blocks ops s inode iblock data_block create).state,
            alloc_calls := [] }) := by
  refine ⟨pram_find_and_alloc_blocks_found ops s inode iblock data_block create, fun hok => ?_⟩
  obtain ⟨hf, hnz⟩ := pram_find_and_alloc_blocks_ok_found ops s inode iblock data_block create hok
  rw [pram_find_and_alloc_blocks_found ops _ inode iblock data_block2 create2 (by rw [hf]; exact hnz),
    hf]

/-- The two faults of C12 with the example allocator: a write fault on the
absent block 7 of file 300 maps it to physical block 8192, and a second
fault, read or write, returns 8192 again without an allocation. -/
theorem pram_find_and_alloc_blocks_present_witness :
    pram_find_and_alloc_blocks demo_ops [(300, 0, 4096)] 300 7 0 1
      = { err := 0, data_block := 8192, state := [(300, 0, 4096), (300, 7, 8192)],
          alloc_calls := [(300, 7, 1)] } ∧
    pram_find_and_alloc_blocks demo_ops [(300, 0, 4096), (300, 7, 8192)] 300 7 0 1
      = { err := 0, data_block := 8192, state := [(300, 0, 4096), (300, 7, 8192)],
          alloc_calls := [] } :=
  ⟨rfl,
    (pram_find_and_alloc_blocks_present demo_ops [(300, 0, 4096), (300, 7, 8192)] 300 7 0 0
      1 0).1 (by decide)⟩

/-- C13: when block `iblock` is absent and `create ≠ 0`,
`pram_find_and_alloc_blocks` calls `pram_alloc_blocks` exactly once, for block
`iblock` with count 1.  If that call returns an error, the same error is
returned and `*data_block` is left as it was.  If it returns 0, the outcome is
decided by the second lookup, made in the state the allocator left: a block
`B ≠ 0` gives the result 0 with `*data_block = B`, and no block gives
`-ENODATA` with `*data_block` left as it was. -/
theorem pram_find_and_alloc_blocks_hole_create {σ : Type} (ops : block_ops σ) (s : σ)
    (inode iblock data_block : Nat) (create : Int)
    (habsent : ops.pram_find_data_block s inode iblock = 0) (hcreate : create ≠ 0) :
    (pram_find_and_alloc_blocks ops s inode iblock data_block create).alloc_calls
      = [(inode, iblock, 1)] ∧
    (pram_find_and_alloc_blocks ops s inode iblock data_block create).state
      = (ops.pram_alloc_blocks s inode iblock 1).2 ∧
    ((ops.pram_alloc_blocks s inode iblock 1).1 ≠ 0 →
      (pram_find_and_alloc_blocks ops s inode iblock data_block create).err
        = (ops.pram_alloc_blocks s inode iblock 1).1 ∧
      (pram_find_and_alloc_blocks ops s inode iblock data_block create).data_block
        = data_block) ∧
    ((ops.pram_alloc_blocks s inode iblock 1).1 = 0 →
      (ops.pram_find_data_block (ops.pram_alloc_blocks s inode iblock 1).2 inode iblock ≠ 0 →
        (pram_find_and_alloc_blocks ops s inode iblock data_block create).err = 0 ∧
        (pram_find_and_alloc_blocks ops s inode iblock data_block create).data_block
          = ops.pram_find_data_block (ops.pram_alloc_blocks s inode iblock 1).2 inode iblock) ∧
      (ops.pram_find_data_block (ops.pram_alloc_blocks s inode iblock 1).2 inode iblock = 0 →
        (pram_find_and_alloc_blocks ops s inode iblock data_block create).err = -ENODATA ∧
        (pram_find_and_alloc_blocks ops s inode iblock data_block create).data_block
          = data_block)) := by
  unfold pram_find_and_alloc_blocks
  by_cases h3 : (ops.pram_alloc_blocks s inode iblock 1).1 = 0
  · by_cases h4 : ops.pram_find_data_block (ops.pram_alloc_blocks s inode iblock 1).2
        inode iblock = 0
    · simp [habsent, hcreate, h3, h4]
    · simp [habsent, hcreate, h3, h4]
  · simp [habsent, hcreate, h3]

/-- The write faults of C13 with the example allocator: on the absent block 7
one allocation is made and block 8192 is returned; with the allocator
exhausted the error -28 comes back unchanged and `*data_block` keeps its
content 5. -/
theorem pram_find_and_alloc_blocks_hole_create_witness :
    (pram_find_and_alloc_blocks demo_ops [(300, 0, 4096)] 300 7 5 1).alloc_calls
      = [(300, 7, 1)] ∧
    pram_find_and_alloc_blocks demo_ops [(300, 0, 4096)] 300 7 5 1
      = { err := 0, data_block := 8192, state := [(300, 0, 4096), (300, 7, 8192)],
          alloc_calls := [(300, 7, 1)] } ∧
    pram_find_and_alloc_blocks demo_ops [(300, 0, 4096), (300, 7, 8192)] 300 9 5 1
      = { err := -28, data_block := 5, state := [(300, 0, 4096), (300, 7, 8192)],
          alloc_calls := [(300, 9, 1)] } :=
  ⟨(pram_find_and_alloc_blocks_hole_create demo_ops [(300, 0, 4096)] 300 7 5 1
      (by decide) (by decide)).1, rfl, rfl⟩

/-- C14: `__pram_get_block` called with `create ≠ 0` never returns `-ENODATA`
to its caller; when the allocator reports success and the second lookup still
finds no block, it runs into `BUG()`, and so does `pram_get_xip_mem`.  With
`create = 0` it never runs into `BUG()`. -/
theorem pram_get_block_enodata_fatal {σ : Type} (ops : block_ops σ) (s : σ)
    (inode pgoff result kmem pfn : Nat) (create : Int) :
    (create ≠ 0 → ∀ r, __pram_get_block ops s inode pgoff create result = .returns r →
      r.err ≠ -ENODATA) ∧
    (create ≠ 0 → ops.pram_find_data_block s inode pgoff = 0 →
      (ops.pram_alloc_blocks s inode pgoff 1).1 = 0 →
      ops.pram_find_data_block (ops.pram_alloc_blocks s inode pgoff 1).2 inode pgoff = 0 →
      __pram_get_block ops s inode pgoff create result = .BUG ∧
      pram_get_xip_mem ops s inode pgoff create kmem pfn = .BUG) ∧
    (create = 0 → __pram_get_block ops s inode pgoff create result ≠ .BUG) := by
  refine ⟨fun hc r hr => ?_, fun hc h1 h3 h4 => ?_, fun hc => ?_⟩
  · unfold __pram_get_block at hr
    by_cases he : (pram_find_and_alloc_blocks ops s inode pgoff result create).err = -ENODATA
    · simp [he, hc] at hr
    · simp only [he, false_and, if_false, kernel_result.returns.injEq] at hr
      rw [← hr]
      exact he
  · have key : ∀ db, __pram_get_block ops s inode pgoff create db = .BUG := by
      intro db
      have herr : (pram_find_and_alloc_blocks ops s inode pgoff db create).err = -ENODATA := by
        simp [pram_find_and_alloc_blocks, h1, hc, h3, h4]
      simp [__pram_get_block, herr, hc]
    exact ⟨key result, by simp [pram_get_xip_mem, key 0]⟩
  · simp [__pram_get_block, hc]

/-- The three cases of C14 on example allocators: an allocator that reports
success without mapping the block leads a write fault into `BUG()`; the
exhausted allocator makes it return -28; a read fault on a hole returns
`-ENODATA` without `BUG()`. -/
theorem pram_get_block_enodata_fatal_witness :
    pram_get_xip_mem lying_ops [] 300 7 1 11 22 = .BUG ∧
    (∀ r, __pram_get_block demo_ops [(300, 0, 4096), (300, 7, 8192)] 300 9 1 0 = .returns r →
      r.err ≠ -ENODATA) ∧
    __pram_get_block demo_ops [] 300 7 0 0 ≠ .BUG :=
  ⟨((pram_get_block_enodata_fatal lying_ops [] 300 7 0 11 22 1).2.1 (by decide) (by decide)
      (by decide) (by decide)).2,
   (pram_get_block_enodata_fatal demo_ops [(300, 0, 4096), (300, 7, 8192)] 300 9 0 0 0 1).1
      (by decide),
   (pram_get_block_enodata_fatal demo_ops [] 300 7 0 0 0 0).2.2 rfl⟩

/-! ## Remount -/

/-- What `pram_remount` restores when the options are rejected: it returns
`-EINVAL` with `sb->s_flags` and `s_mount_opt` as they were before the call,
and leaves every other field of the options as `pram_parse_options` left it. -/
theorem pram_remount_rejected (cfg : pram_config) (crc : List Nat → Nat) (now : Nat)
    (sb : mounted_sb) (mntflags : Nat) (data : Option (List opt_item))
    (h : (pram_parse_options cfg data sb.sbi true).1 ≠ 0) :
    pram_remount cfg crc now sb mntflags data
      = (-EINVAL, { sb with sbi := { (pram_parse_options cfg data sb.sbi true).2 with
                                     s_mount_opt := sb.sbi.s_mount_opt } }) := by
  unfold pram_remount
  simp [h]

/-- C17, the failing input: a remount with the option string `mode=700,bpi=4096`
on a filesystem mounted with the root default `mode=1777`.  The option `bpi=`
is forbidden at remount, so `pram_remount` returns `-EINVAL`; `sb->s_flags`
and `s_mount_opt` are what they were, but `sbi->mode` stays at the `0o700` that
the accepted option in front had stored.  Likewise `gid=5,xip` leaves
`sbi->gid = 5` behind. -/
theorem pram_remount_rejected_keeps_mode :
    (pram_remount cfg_all sum_crc 1700000000 mounted_rw 0
      (some [opt_num .mode 0o700, opt_num .bpi 4096])).1 = -EINVAL ∧
    (pram_remount cfg_all sum_crc 1700000000 mounted_rw 0
      (some [opt_num .mode 0o700, opt_num .bpi 4096])).2.s_flags = mounted_rw.s_flags ∧
    (pram_remount cfg_all sum_crc 1700000000 mounted_rw 0
      (some [opt_num .mode 0o700, opt_num .bpi 4096])).2.sbi.s_mount_opt
      = mounted_rw.sbi.s_mount_opt ∧
    mounted_rw.sbi.mode = 0o1777 ∧
    (pram_remount cfg_all sum_crc 1700000000 mounted_rw 0
      (some [opt_num .mode 0o700, opt_num .bpi 4096])).2.sbi.mode = 0o700 ∧
    (pram_remount cfg_all sum_crc 1700000000 mounted_rw 0
      (some [opt_num .gid 5, opt_flag .xip])).1 = -EINVAL ∧
    mounted_rw.sbi.gid = 0 ∧
    (pram_remount cfg_all sum_crc 1700000000 mounted_rw 0
      (some [opt_num .gid 5, opt_flag .xip])).2.sbi.gid = 5 :=
  ⟨by decide, by decide, by decide, by decide, by decide, by decide, by decide, by decide⟩

/-! ## Error policy -/

/-- Setting a flag outside the error-policy bits leaves those bits alone. -/
theorem error_policy_bits_set (o f : Nat)
    (hf : f &&& (PRAM_MOUNT_ERRORS_CONT ||| PRAM_MOUNT_ERRORS_RO ||| PRAM_MOUNT_ERRORS_PANIC) = 0) :
    error_policy_bits (set_opt o f) = error_policy_bits o := by
  unfold error_policy_bits set_opt
  rw [Nat.and_distrib_right, hf, Nat.or_zero]

/-- Clearing a flag outside the error-policy bits leaves those bits alone. -/
theorem error_policy_bits_clear (o f : Nat)
    (hf : not_ulong f &&&
        (PRAM_MOUNT_ERRORS_CONT ||| PRAM_MOUNT_ERRORS_RO ||| PRAM_MOUNT_ERRORS_PANIC)
      = PRAM_MOUNT_ERRORS_CONT ||| PRAM_MOUNT_ERRORS_RO ||| PRAM_MOUNT_ERRORS_PANIC) :
    error_policy_bits (clear_opt o f) = error_policy_bits o := by
  unfold error_policy_bits clear_opt
  rw [Nat.and_assoc, hf]

/-- The three statements of an `errors=` case leave exactly the flag they set
among the error-policy bits. -/
theorem error_policy_bits_select (o a b c : Nat)
    (h0 : not_ulong a &&& (not_ulong b &&&
        (PRAM_MOUNT_ERRORS_CONT ||| PRAM_MOUNT_ERRORS_RO ||| PRAM_MOUNT_ERRORS_PANIC)) = c)
    (hc : c &&& (PRAM_MOUNT_ERRORS_CONT ||| PRAM_MOUNT_ERRORS_RO ||| PRAM_MOUNT_ERRORS_PANIC) = c) :
    error_policy_bits (set_opt (clear_opt (clear_opt o a) b) c) = c := by
  unfold error_policy_bits set_opt clear_opt
  rw [Nat.and_distrib_right, hc, Nat.and_assoc, Nat.and_assoc, h0]
  apply Nat.eq_of_testBit_eq
  intro i
  simp only [Nat.testBit_or, Nat.testBit_and]
  cases o.testBit i <;> simp

/-- The token that `match_token` finds in the table `tokens` for each
pattern. -/
theorem match_token_tokens (e : Bool) (pat : opt_pattern) (ia : Option Nat) (dg : Bool)
    (ma : Nat) :
    match_token (⟨e, some pat, ia, dg, ma⟩ : opt_item) tokens
      = match pat with
        | .physaddr => .Opt_bpi | .bpi => .Opt_bpi | .init => .Opt_size
        | .N => .Opt_num_inodes | .mode => .Opt_mode | .uid => .Opt_uid | .gid => .Opt_gid
        | .bs => .Opt_blocksize | .user_xattr => .Opt_user_xattr
        | .nouser_xattr => .Opt_user_xattr | .noprotect => .Opt_noprotect
        | .acl => .Opt_acl | .noacl => .Opt_acl | .xip => .Opt_xip
        | .errors_continue => .Opt_err_cont | .errors_panic => .Opt_err_panic
        | .errors_remount_ro => .Opt_err_ro := by
  cases pat <;> rfl

/-- One item of the option string and the error-policy bits: a rejected item
leaves them alone, an accepted item leaves what `error_policy_step` names. -/
theorem pram_parse_option_policy (cfg : pram_config) (remount : Bool) (p : opt_item)
    (sbi : pram_sb_info) (hp : p.empty = false) :
    ((pram_parse_option cfg remount p sbi).1 = false →
      error_policy_bits (pram_parse_option cfg remount p sbi).2.s_mount_opt
        = error_policy_bits sbi.s_mount_opt) ∧
    ((pram_parse_option cfg remount p sbi).1 = true →
      error_policy_bits (pram_parse_option cfg remount p sbi).2.s_mount_opt
        = error_policy_step (error_policy_bits sbi.s_mount_opt) p) := by
  have s1 := error_policy_bits_set sbi.s_mount_opt PRAM_MOUNT_XATTR_USER (by decide)
  have s2 := error_policy_bits_set sbi.s_mount_opt PRAM_MOUNT_POSIX_ACL (by decide)
  have s3 := error_policy_bits_set sbi.s_mount_opt PRAM_MOUNT_XIP (by decide)
  have c1 := error_policy_bits_clear sbi.s_mount_opt PRAM_MOUNT_PROTECT (by decide)
  have e1 := error_policy_bits_select sbi.s_mount_opt PRAM_MOUNT_ERRORS_CONT
    PRAM_MOUNT_ERRORS_RO PRAM_MOUNT_ERRORS_PANIC (by decide) (by decide)
  have e2 := error_policy_bits_select sbi.s_mount_opt PRAM_MOUNT_ERRORS_CONT
    PRAM_MOUNT_ERRORS_PANIC PRAM_MOUNT_ERRORS_RO (by decide) (by decide)
  have e3 := error_policy_bits_select sbi.s_mount_opt PRAM_MOUNT_ERRORS_RO
    PRAM_MOUNT_ERRORS_PANIC PRAM_MOUNT_ERRORS_CONT (by decide) (by decide)
  obtain ⟨e, pat, ia, dg, ma⟩ := p
  simp only at hp
  subst hp
  cases pat with
  | none =>
    have ht : match_token (⟨false, none, ia, dg, ma⟩ : opt_item) tokens = .Opt_err := rfl
    simp only [pram_parse_option, ht, error_policy_step]
    simp
  | some pat =>
    have ht := match_token_tokens false pat ia dg ma
    cases pat <;> simp only at ht <;>
      simp only [pram_parse_option, ht, error_policy_step] <;>
      (repeat' split) <;> simp_all

/-- The loop of `pram_parse_options` and the error-policy bits: whatever the
return value, the bits are those named by the items the loop handled. -/
theorem pram_parse_options_loop_policy (cfg : pram_config) (remount : Bool) :
    ∀ (l : List opt_item) (sbi : pram_sb_info),
      error_policy_bits (pram_parse_options_loop cfg remount l sbi).2.s_mount_opt
        = (options_processed cfg remount l sbi).foldl error_policy_step
            (error_policy_bits sbi.s_mount_opt) := by
  intro l
  induction l with
  | nil => intro sbi; rfl
  | cons p rest ih =>
    intro sbi
    unfold pram_parse_options_loop options_processed
    by_cases he : p.empty = true
    · simp only [he, if_true, List.foldl_cons]
      rw [ih sbi]
      simp [error_policy_step, he]
    · have he2 : p.empty = false := by simpa using he
      obtain ⟨hbad, hok⟩ := pram_parse_option_policy cfg remount p sbi he2
      by_cases hr : (pram_parse_option cfg remount p sbi).1 = true
      · simp only [he2, hr, if_true, Bool.false_eq_true, if_false, List.foldl_cons]
        rw [ih, hok hr]
      · have hr2 : (pram_parse_option cfg remount p sbi).1 = false := by simpa using hr
        simp only [he2, hr2, Bool.false_eq_true, if_false, List.foldl_nil]
        exact hbad hr2

/-- A policy that is one of the three flags stays one of them under
`error_policy_step`. -/
theorem error_policy_fold_valid :
    ∀ (l : List opt_item) (policy : Nat),
      (policy = PRAM_MOUNT_ERRORS_CONT ∨ policy = PRAM_MOUNT_ERRORS_RO ∨
        policy = PRAM_MOUNT_ERRORS_PANIC) →
      (l.foldl error_policy_step policy = PRAM_MOUNT_ERRORS_CONT ∨
        l.foldl error_policy_step policy = PRAM_MOUNT_ERRORS_RO ∨
        l.foldl error_policy_step policy = PRAM_MOUNT_ERRORS_PANIC) := by
  intro l
  induction l with
  | nil => intro policy h; exact h
  | cons p rest ih =>
    intro policy h
    rw [List.foldl_cons]
    apply ih
    unfold error_policy_step
    split
    · exact h
    · split
      · exact Or.inl rfl
      · exact Or.inr (Or.inr rfl)
      · exact Or.inr (Or.inl rfl)
      · exact h

/-- A flag inside the error-policy bits is tested on those bits alone. -/
theorem test_opt_policy (o f : Nat)
    (hf : (PRAM_MOUNT_ERRORS_CONT ||| PRAM_MOUNT_ERRORS_RO ||| PRAM_MOUNT_ERRORS_PANIC) &&& f = f) :
    test_opt o f = test_opt (error_policy_bits o) f := by
  unfold test_opt error_policy_bits
  rw [Nat.and_assoc, hf]

/-- C18: start from `set_default_opts` on the zeroed options and let
`pram_parse_options` process any option string, at mount or at remount, with
any outcome (0 or `-EINVAL`).  Then the error-policy bits of `s_mount_opt` are
the flag named by the last `errors=` item among the items the loop handled
(`ERRORS_CONT` if there is none), so exactly one of `ERRORS_CONT`,
`ERRORS_RO`, `ERRORS_PANIC` is set, and it is that one. -/
theorem pram_parse_options_error_policy (cfg : pram_config) (remount : Bool)
    (options : Option (List opt_item)) (sbi0 : pram_sb_info) (h0 : sbi0.s_mount_opt = 0) :
    error_policy_bits
        (pram_parse_options cfg options (set_default_opts cfg sbi0) remount).2.s_mount_opt
      = named_error_policy
          (options_processed cfg remount (options.getD []) (set_default_opts cfg sbi0)) ∧
    ((test_opt (pram_parse_options cfg options (set_default_opts cfg sbi0) remount).2.s_mount_opt
        PRAM_MOUNT_ERRORS_CONT = true ∧
      test_opt (pram_parse_options cfg options (set_default_opts cfg sbi0) remount).2.s_mount_opt
        PRAM_MOUNT_ERRORS_RO = false ∧
      test_opt (pram_parse_options cfg options (set_default_opts cfg sbi0) remount).2.s_mount_opt
        PRAM_MOUNT_ERRORS_PANIC = false ∧
      named_error_policy
          (options_processed cfg remount (options.getD []) (set_default_opts cfg sbi0))
        = PRAM_MOUNT_ERRORS_CONT) ∨
    (test_opt (pram_parse_options cfg options (set_default_opts cfg sbi0) remount).2.s_mount_opt
        PRAM_MOUNT_ERRORS_CONT = false ∧
      test_opt (pram_parse_options cfg options (set_default_opts cfg sbi0) remount).2.s_mount_opt
        PRAM_MOUNT_ERRORS_RO = true ∧
      test_opt (pram_parse_options cfg options (set_default_opts cfg sbi0) remount).2.s_mount_opt
        PRAM_MOUNT_ERRORS_PANIC = false ∧
      named_error_policy
          (options_processed cfg remount (options.getD []) (set_default_opts cfg sbi0))
        = PRAM_MOUNT_ERRORS_RO) ∨
    (test_opt (pram_parse_options cfg options (set_default_opts cfg sbi0) remount).2.s_mount_opt
        PRAM_MOUNT_ERRORS_CONT = false ∧
      test_opt (pram_parse_options cfg options (set_default_opts cfg sbi0) remount).2.s_mount_opt
        PRAM_MOUNT_ERRORS_RO = false ∧
      test_opt (pram_parse_options cfg options (set_default_opts cfg sbi0) remount).2.s_mount_opt
        PRAM_MOUNT_ERRORS_PANIC = true ∧
      named_error_policy
          (options_processed cfg remount (options.getD []) (set_default_opts cfg sbi0))
        = PRAM_MOUNT_ERRORS_PANIC)) := by
  have hstart : error_policy_bits (set_default_opts cfg sbi0).s_mount_opt
      = PRAM_MOUNT_ERRORS_CONT := by
    unfold set_default_opts
    cases cfg.CONFIG_PRAMFS_WRITE_PROTECT <;> simp only [h0, if_true, Bool.false_eq_true, if_false] <;>
      decide
  have hloop : pram_parse_options cfg options (set_default_opts cfg sbi0) remount
      = pram_parse_options_loop cfg remount (options.getD []) (set_default_opts cfg sbi0) := by
    cases options <;> rfl
  have hbits := pram_parse_options_loop_policy cfg remount (options.getD [])
    (set_default_opts cfg sbi0)
  rw [hstart] at hbits
  rw [hloop]
  have hbits2 : error_policy_bits
      (pram_parse_options_loop cfg remount (options.getD [])
        (set_default_opts cfg sbi0)).2.s_mount_opt
      = named_error_policy
          (options_processed cfg remount (options.getD []) (set_default_opts cfg sbi0)) := hbits
  refine ⟨hbits2, ?_⟩
  rw [test_opt_policy _ PRAM_MOUNT_ERRORS_CONT (by decide),
    test_opt_policy _ PRAM_MOUNT_ERRORS_RO (by decide),
    test_opt_policy _ PRAM_MOUNT_ERRORS_PANIC (by decide), hbits2]
  rcases error_policy_fold_valid
      (options_processed cfg remount (options.getD []) (set_default_opts cfg sbi0))
      PRAM_MOUNT_ERRORS_CONT (Or.inl rfl) with h | h | h
  · refine Or.inl ?_
    unfold named_error_policy
    rw [h]
    exact ⟨by decide, by decide, by decide, rfl⟩
  · refine Or.inr (Or.inl ?_)
    unfold named_error_policy
    rw [h]
    exact ⟨by decide, by decide, by decide, rfl⟩
  · refine Or.inr (Or.inr ?_)
    unfold named_error_policy
    rw [h]
    exact ⟨by decide, by decide, by decide, rfl⟩

/-- The option string `errors=panic,errors=remount-ro,bogus,errors=continue` of
C18 at mount: the third item is rejected, the loop has handled the first two,
and `ERRORS_RO`, the flag of the second, is the one that is set. -/
theorem pram_parse_options_error_policy_witness :
    (pram_parse_options cfg_all
      (some [opt_flag .errors_panic, opt_flag .errors_remount_ro, opt_unknown,
        opt_flag .errors_continue])
      (set_default_opts cfg_all zero_sbi) false).1 = -EINVAL ∧
    options_processed cfg_all false
      [opt_flag .errors_panic, opt_flag .errors_remount_ro, opt_unknown,
        opt_flag .errors_continue]
      (set_default_opts cfg_all zero_sbi)
      = [opt_flag .errors_panic, opt_flag .errors_remount_ro] ∧
    error_policy_bits (pram_parse_options cfg_all
      (some [opt_flag .errors_panic, opt_flag .errors_remount_ro, opt_unknown,
        opt_flag .errors_continue])
      (set_default_opts cfg_all zero_sbi) false).2.s_mount_opt = PRAM_MOUNT_ERRORS_RO :=
  ⟨by decide, by decide,
    (pram_parse_options_error_policy cfg_all false
      (some [opt_flag .errors_panic, opt_flag .errors_remount_ro, opt_unknown,
        opt_flag .errors_continue]) zero_sbi rfl).1.trans (by decide)⟩

/-! ## Direct-map mode and the block size -/

/-- C15, the failing input: the options `noprotect,xip,bs=4096` on an existing
image (no `init=`) whose superblock says 1 KiB blocks.  The test of
`pram_fill_super` compares the option `bs=` with `PAGE_SIZE`, not the block
size of the image, so the mount succeeds with the XIP option set and
`sb->s_blocksize = 1024`, which is not `PAGE_SIZE`. -/
theorem pram_fill_super_xip_blocksize :
    sb_valid sum_crc valid_super_1k ∧
    ∃ m, pram_fill_super cfg_all sum_crc env_ok 0 (image_of valid_super_1k valid_super_1k)
        (some [opt_flag .noprotect, opt_flag .xip, opt_num .bs 4096]) = .ok m ∧
      test_opt m.sbi.s_mount_opt PRAM_MOUNT_XIP = true ∧
      m.sbi.blocksize = PAGE_SIZE ∧
      m.s_blocksize = 1024 ∧ m.s_blocksize ≠ PAGE_SIZE :=
  ⟨by decide, _, rfl, by decide, by decide, by decide, by decide⟩

/-- Without a `bs=` option the XIP option is rejected with `-EINVAL`, also on
an image whose blocks are one page. -/
theorem pram_fill_super_xip_needs_bs :
    pram_fill_super cfg_all sum_crc env_ok 0 (image_of valid_super valid_super)
      (some [opt_flag .noprotect, opt_flag .xip]) = .error (-EINVAL) := rfl

/-! ## Link counts in `namei.c` -/

/-- Link counts after `pram_inc_count`. -/
theorem pram_inc_count_nlink (ops : namei_ops) (st : namei_state) (ino j : Nat) :
    ((pram_inc_count ops st ino).inode j).i_nlink
      = if j = ino then ((st.inode ino).i_nlink + 1) % 2 ^ 32 else (st.inode j).i_nlink := by
  unfold pram_inc_count write_inode set_inode
  by_cases h : j = ino
  · simp [h]
  · simp [h]

/-- Link counts after `pram_dec_count`. -/
theorem pram_dec_count_nlink (ops : namei_ops) (st : namei_state) (ino j : Nat) :
    ((pram_dec_count ops st ino).inode j).i_nlink
      = if j = ino then (st.inode ino).i_nlink - 1 else (st.inode j).i_nlink := by
  unfold pram_dec_count write_inode set_inode
  by_cases h : j = ino
  · by_cases h0 : (st.inode ino).i_nlink = 0
    · simp [h, h0]
    · simp [h, h0]
  · by_cases h0 : (st.inode ino).i_nlink = 0
    · simp [h, h0]
    · simp [h, h0]

/-- The function `pram_dec_count` leaves every other in-memory inode alone. -/
theorem pram_dec_count_other (ops : namei_ops) (st : namei_state) (ino j : Nat)
    (h : j ≠ ino) : (pram_dec_count ops st ino).inode j = st.inode j := by
  unfold pram_dec_count write_inode set_inode
  by_cases h0 : (st.inode ino).i_nlink = 0
  · simp [h0]
  · simp [h, h0]

/-- C19: for an existing target `ino` in the directory `dir`, `pram_rmdir`
returns 0 exactly when the on-media `tail` of the target is null.  Then the
link count and the size of the target are 0 and the link count of the parent
has dropped by one (it stays 0 if it was 0).  When `tail` is not null it
returns `-ENOTEMPTY` and leaves the state, and with it every link count, size
and time, as it was. -/
theorem pram_rmdir_empty_iff (ops : namei_ops) (st : namei_state) (dir ino : Nat)
    (hne : dir ≠ ino) :
    ((pram_rmdir ops st dir (some ino)).1 = 0 ↔ (st.media ino).i_type_dir_tail = 0) ∧
    ((st.media ino).i_type_dir_tail = 0 →
      ((pram_rmdir ops st dir (some ino)).2.inode ino).i_nlink = 0 ∧
      ((pram_rmdir ops st dir (some ino)).2.inode ino).i_size = 0 ∧
      ((pram_rmdir ops st dir (some ino)).2.inode dir).i_nlink = (st.inode dir).i_nlink - 1) ∧
    ((st.media ino).i_type_dir_tail ≠ 0 →
      pram_rmdir ops st dir (some ino) = (-ENOTEMPTY, st)) := by
  have hne2 : ino ≠ dir := fun h => hne h.symm
  have hE : (-ENOTEMPTY : Int) ≠ 0 := by decide
  by_cases ht : (st.media ino).i_type_dir_tail = 0
  · refine ⟨⟨fun _ => ht, fun _ => by simp [pram_rmdir, ht]⟩, fun _ => ?_, fun h => absurd ht h⟩
    simp only [pram_rmdir, ht, if_true]
    refine ⟨?_, ?_, ?_⟩
    · rw [pram_dec_count_nlink]
      simp [hne2, write_inode, set_inode]
    · rw [pram_dec_count_other ops _ dir ino hne2]
      simp [write_inode, set_inode]
    · rw [pram_dec_count_nlink]
      simp [write_inode, set_inode, hne]
  · refine ⟨⟨fun h => ?_, fun h => absurd h ht⟩, fun h => absurd h ht, fun _ => ?_⟩
    · simp [pram_rmdir, ht, hE] at h
    · simp [pram_rmdir, ht]

/-- The two cases of C19 on the example state: the directory 384 of the root
has a null `tail` and is removed (link count and size 0, the root goes from 3
links to 2); the root itself has `tail = 640` and is refused. -/
theorem pram_rmdir_empty_iff_witness :
    (pram_rmdir demo_namei_ops demo_namei_state 256 (some 384)).1 = 0 ∧
    ((pram_rmdir demo_namei_ops demo_namei_state 256 (some 384)).2.inode 384).i_nlink = 0 ∧
    ((pram_rmdir demo_namei_ops demo_namei_state 256 (some 384)).2.inode 384).i_size = 0 ∧
    ((pram_rmdir demo_namei_ops demo_namei_state 256 (some 384)).2.inode 256).i_nlink = 2 ∧
    (pram_rmdir demo_namei_ops demo_namei_state 384 (some 256)).1 = -ENOTEMPTY :=
  have h := (pram_rmdir_empty_iff demo_namei_ops demo_namei_state 256 384 (by decide)).2.1
    (by decide)
  ⟨by decide, h.1, h.2.1, h.2.2.trans (by decide),
    congrArg Prod.fst
      ((pram_rmdir_empty_iff demo_namei_ops demo_namei_state 384 256 (by decide)).2.2
        (by decide))⟩

/-- What `pram_add_nondir` does when `pram_add_link` fails. -/
theorem pram_add_nondir_failed (ops : namei_ops) (st : namei_state) (dir ino : Nat)
    (name : List Nat) (herr : (ops.pram_add_link st dir name ino).1 ≠ 0) :
    (pram_add_nondir ops st dir name ino).1 = (ops.pram_add_link st dir name ino).1 ∧
    ((pram_add_nondir ops st dir name ino).2.inode ino).i_nlink = (st.inode ino).i_nlink - 1 := by
  unfold pram_add_nondir
  simp only [herr, if_false]
  refine ⟨trivial, ?_⟩
  rw [pram_dec_count_nlink]
  simp

/-- C20: a failed create is reverted.  Let `pram_mkdir` be called on a parent
whose link count can be raised without wrapping, and let `pram_new_inode`, when
it succeeds, hand out an inode other than the parent with link count 1.  If
`pram_new_inode` fails, its error is returned; if `pram_add_link` fails, its
error is returned and the link count of the new inode is 0; whenever the
result is an error the link count of the parent is what it was before the
call.  Likewise, when `pram_add_link` fails in `pram_add_nondir`, its error is
returned unchanged and the link count of the new inode has been decremented
(to 0 from the 1 it was given). -/
theorem pram_mkdir_failure_reverted (ops : namei_ops) (st : namei_state) (dir mode : Nat)
    (name : List Nat) (hwrap : (st.inode dir).i_nlink + 1 < 2 ^ 32)
    (hfresh : ∀ ino v media,
      ops.pram_new_inode (pram_inc_count ops st dir) dir (S_IFDIR ||| mode) name
        = .ok (ino, v, media) → ino ≠ dir ∧ v.i_nlink = 1) :
    ((pram_mkdir ops st dir name mode).1 ≠ 0 →
      ((pram_mkdir ops st dir name mode).2.inode dir).i_nlink = (st.inode dir).i_nlink) ∧
    (∀ err, ops.pram_new_inode (pram_inc_count ops st dir) dir (S_IFDIR ||| mode) name
        = .error err →
      (pram_mkdir ops st dir name mode).1 = err ∧
      ((pram_mkdir ops st dir name mode).2.inode dir).i_nlink = (st.inode dir).i_nlink) ∧
    (∀ ino v media,
      ops.pram_new_inode (pram_inc_count ops st dir) dir (S_IFDIR ||| mode) name
        = .ok (ino, v, media) →
      (pram_mkdir ops st dir name mode).1 ≠ 0 →
      ((pram_mkdir ops st dir name mode).2.inode ino).i_nlink = 0 ∧
      ((pram_mkdir ops st dir name mode).2.inode dir).i_nlink = (st.inode dir).i_nlink) ∧
    (∀ (st2 : namei_state) (ino : Nat), (ops.pram_add_link st2 dir name ino).1 ≠ 0 →
      (pram_add_nondir ops st2 dir name ino).1 = (ops.pram_add_link st2 dir name ino).1 ∧
      ((pram_add_nondir ops st2 dir name ino).2.inode ino).i_nlink
        = (st2.inode ino).i_nlink - 1 ∧
      ((st2.inode ino).i_nlink = 1 →
        ((pram_add_nondir ops st2 dir name ino).2.inode ino).i_nlink = 0)) := by
  have h32 : (2 : Nat) ^ 32 = 4294967296 := by norm_num
  have hinc : ((pram_inc_count ops st dir).inode dir).i_nlink = (st.inode dir).i_nlink + 1 := by
    rw [pram_inc_count_nlink]
    simp only [if_true]
    exact Nat.mod_eq_of_lt hwrap
  have herrcase : ∀ err,
      ops.pram_new_inode (pram_inc_count ops st dir) dir (S_IFDIR ||| mode) name = .error err →
      (pram_mkdir ops st dir name mode).1 = err ∧
      ((pram_mkdir ops st dir name mode).2.inode dir).i_nlink = (st.inode dir).i_nlink := by
    intro err he
    unfold pram_mkdir
    simp only [he]
    refine ⟨trivial, ?_⟩
    rw [pram_dec_count_nlink, if_pos rfl, hinc]
    omega
  have hokcase : ∀ ino v media,
      ops.pram_new_inode (pram_inc_count ops st dir) dir (S_IFDIR ||| mode) name
        = .ok (ino, v, media) →
      (pram_mkdir ops st dir name mode).1 ≠ 0 →
      ((pram_mkdir ops st dir name mode).2.inode ino).i_nlink = 0 ∧
      ((pram_mkdir ops st dir name mode).2.inode dir).i_nlink = (st.inode dir).i_nlink := by
    intro ino v media hok hne
    obtain ⟨hfr, hv⟩ := hfresh ino v media hok
    have hfr2 : dir ≠ ino := fun h => hfr h.symm
    have hnew : ∀ j, ((pram_mkdir_new_dir ops
        (set_inode { pram_inc_count ops st dir with media := media } ino v) ino).inode j).i_nlink
        = if j = ino then 2 else ((pram_inc_count ops st dir).inode j).i_nlink := by
      intro j
      show ((pram_inc_count ops _ ino).inode j).i_nlink = _
      rw [pram_inc_count_nlink]
      by_cases hj : j = ino
      · simp only [hj, if_true, set_inode, hv]
        decide
      · simp only [hj, if_false, set_inode]
    unfold pram_mkdir at hne ⊢
    simp only [hok] at hne ⊢
    split at hne
    · rename_i herr
      rw [if_pos herr]
      simp only [pram_mkdir_out_fail]
      constructor
      · rw [pram_dec_count_nlink, if_neg hfr, pram_dec_count_nlink, if_pos rfl,
          pram_dec_count_nlink, if_pos rfl]
        show ((pram_mkdir_new_dir ops _ ino).inode ino).i_nlink - 1 - 1 = 0
        rw [hnew, if_pos rfl]
      · rw [pram_dec_count_nlink, if_pos rfl, pram_dec_count_nlink, if_neg hfr2,
          pram_dec_count_nlink, if_neg hfr2]
        show ((pram_mkdir_new_dir ops _ ino).inode dir).i_nlink - 1 = _
        rw [hnew, if_neg hfr2, hinc]
        omega
    · rename_i herr
      simp only [ne_eq, not_not] at herr
      exact absurd herr hne
  refine ⟨fun hne => ?_, herrcase, hokcase, fun st2 ino herr => ?_⟩
  · cases hnew : ops.pram_new_inode (pram_inc_count ops st dir) dir (S_IFDIR ||| mode) name with
    | error err => exact (herrcase err hnew).2
    | ok res =>
      obtain ⟨ino, v, media⟩ := res
      exact (hokcase ino v media hnew hne).2
  · obtain ⟨h1, h2⟩ := pram_add_nondir_failed ops st2 dir ino name herr
    exact ⟨h1, h2, fun h => by rw [h2, h]⟩

/-- The cases of C20 on the example state.  With a name of four characters
`pram_add_link` fails with -28: `pram_mkdir` returns -28, the new inode 768 is
left with link count 0 and the root 256 with its 3 links.  With no free inode
`pram_new_inode` fails with -28: `pram_mkdir` returns -28 and the root keeps
its 3 links. -/
theorem pram_mkdir_failure_reverted_witness :
    (pram_mkdir demo_namei_ops demo_namei_state 256 [1, 2, 3, 4] 0o755).1 = -28 ∧
    ((pram_mkdir demo_namei_ops demo_namei_state 256 [1, 2, 3, 4] 0o755).2.inode 768).i_nlink
      = 0 ∧
    ((pram_mkdir demo_namei_ops demo_namei_state 256 [1, 2, 3, 4] 0o755).2.inode 256).i_nlink
      = 3 ∧
    (pram_mkdir full_namei_ops demo_namei_state 256 [1] 0o755).1 = -28 ∧
    ((pram_mkdir full_namei_ops demo_namei_state 256 [1] 0o755).2.inode 256).i_nlink = 3 :=
  have h := (pram_mkdir_failure_reverted demo_namei_ops demo_namei_state 256 0o755 [1, 2, 3, 4]
    (by decide)
    (fun ino v media hok => by
      simp only [demo_namei_ops, Except.ok.injEq, Prod.mk.injEq] at hok
      obtain ⟨h1, h2, _⟩ := hok
      subst h1 h2
      exact ⟨by decide, rfl⟩)).2.2.1 768 _ _ rfl (by decide)
  have g := (pram_mkdir_failure_reverted full_namei_ops demo_namei_state 256 0o755 [1]
    (by decide)
    (fun ino v media hok => by
      simp only [full_namei_ops] at hok
      exact absurd hok (by simp))).2.1 (-28) rfl
  ⟨by decide, h.1, h.2.trans (by decide), g.1, g.2.trans (by decide)⟩

/-! ## The metadata region of `pram_init` -/

/-- Where `size - bitmap_start` does not wrap the metadata region lies inside
the image: when `pram_init` succeeds with `bitmap_start ≤ size` and a block
count below `2 ^ 32`, then `bitmap_start + bitmap_size ≤ size`. -/
theorem pram_init_region_inside {crc : List Nat → Nat} {sbi : pram_sb_info} {img : Image}
    {size k : Nat} {r : pram_init_result} (hk : k ≤ 30)
    (hbs : (if sbi.blocksize = 0 then PRAM_DEF_BLOCK_SIZE else sbi.blocksize) = 2 ^ k)
    (h : pram_init crc true sbi img size = .ok r) (hsize : size < 2 ^ 64)
    (hle : r.bitmap_start ≤ size) (hnb : r.num_blocks < 2 ^ 32) :
    r.bitmap_start + r.bitmap_size ≤ size := by
  obtain ⟨_, _, _, hbits, hbsz, _, _, hnum, hsz, _⟩ := pram_init_ok h
  have hb := pram_init_blocksize_two_pow sbi k (by omega) hbs
  rw [hb] at hbits hbsz
  simp only at hbits hbsz
  rw [hbits] at hnum
  rw [hbsz] at hsz
  have hwrap : (size + 2 ^ 64 - r.bitmap_start) % 2 ^ 64 = size - r.bitmap_start := by
    have : size + 2 ^ 64 - r.bitmap_start = (size - r.bitmap_start) + 2 ^ 64 := by omega
    rw [this, Nat.add_mod_right]
    exact Nat.mod_eq_of_lt (by omega)
  rw [hwrap, Nat.shiftRight_eq_div_pow] at hnum
  obtain ⟨hdvd, _, _⟩ := pram_init_bitmap_size_spec r.num_blocks k hnb (by omega)
  have hblk := bitmap_blocks_le r.num_blocks k hnb (by omega)
  rw [← hsz] at hdvd hblk
  have h1 : r.bitmap_size = r.bitmap_size / 2 ^ k * 2 ^ k := (Nat.div_mul_cancel hdvd).symm
  have h2 : r.bitmap_size / 2 ^ k * 2 ^ k ≤ r.num_blocks * 2 ^ k :=
    Nat.mul_le_mul_right _ hblk
  have h3 : r.num_blocks * 2 ^ k ≤ size - r.bitmap_start := by
    rw [hnum]
    exact Nat.div_mul_le_self _ _
  omega

/-- C21, the failing input: `pram_init` on a 16 MiB image with the options
`bs=4k,N=1048576`.  The inode table alone takes 128 MiB, so `bitmap_start` is
above `size`; `size - bitmap_start` wraps to a number just below `2 ^ 64`, the
block count is not zero and `pram_init` succeeds.  The region it unlocks,
zeroes and initialises ends far behind the end of the image. -/
theorem pram_init_region_outside :
    ∃ r, pram_init sum_crc true opts_big_N blank_image (16 * 1024 * 1024) = .ok r ∧
      r.bitmap_start = 134221824 ∧
      16 * 1024 * 1024 < r.bitmap_start ∧
      r.num_blocks = 4503599627341823 ∧
      r.bitmap_size = 562949953421312 ∧
      ¬ r.bitmap_start + r.bitmap_size ≤ 16 * 1024 * 1024 ∧
      (r.bitmap_start + r.bitmap_size) % 2 ^ 64 = r.bitmap_start + r.bitmap_size :=
  ⟨_, rfl, by decide, by decide, by decide, by decide, by decide, by decide⟩

/-- The mount that leads to the failing input of C21: the options
`init=16M,N=1048576,bs=4096` are accepted and `pram_fill_super` succeeds. -/
theorem pram_fill_super_big_N :
    ∃ m, pram_fill_super cfg_all sum_crc env_ok 0 blank_image
      (some [opt_num .init (16 * 1024 * 1024), opt_num .N 1048576, opt_num .bs 4096])
        = .ok m ∧ m.sbi.num_inodes = 1048606 :=
  ⟨_, rfl, by decide⟩

/-! ## Termination of the directory walk -/

/-- The recorded loop returns what `pram_inode_by_name_loop` returns. -/
theorem pram_inode_by_name_visits_fst (tbl : Nat → pram_inode) (name : List Nat) :
    ∀ (fuel ino : Nat),
      (pram_inode_by_name_visits tbl name fuel ino).map Prod.fst
        = pram_inode_by_name_loop tbl name fuel ino := by
  intro fuel
  induction fuel with
  | zero => intro ino; rfl
  | succ f ih =>
    intro ino
    unfold pram_inode_by_name_visits pram_inode_by_name_loop
    by_cases h0 : ino = 0
    · simp [h0]
    · simp only [h0, if_false]
      split
      · rfl
      · rw [← ih (tbl ino).i_d_next]
        cases pram_inode_by_name_visits tbl name f (tbl ino).i_d_next with
        | none => rfl
        | some p => rfl

/-- A chain is determined by where it starts. -/
theorem dir_chain_unique (tbl : Nat → pram_inode) :
    ∀ (l1 l2 : List Nat) (ino : Nat), dir_chain tbl ino l1 = true →
      dir_chain tbl ino l2 = true → l1 = l2 := by
  intro l1
  induction l1 with
  | nil =>
    intro l2 ino h1 h2
    cases l2 with
    | nil => rfl
    | cons y l2 =>
      simp only [dir_chain, beq_iff_eq] at h1
      simp only [dir_chain, Bool.and_eq_true, bne_iff_ne, ne_eq, beq_iff_eq] at h2
      exact absurd h1 h2.1.1
  | cons x l1 ih =>
    intro l2 ino h1 h2
    cases l2 with
    | nil =>
      simp only [dir_chain, beq_iff_eq] at h2
      simp only [dir_chain, Bool.and_eq_true, bne_iff_ne, ne_eq, beq_iff_eq] at h1
      exact absurd h2 h1.1.1
    | cons y l2 =>
      simp only [dir_chain, Bool.and_eq_true, bne_iff_ne, ne_eq, beq_iff_eq] at h1 h2
      rw [h1.1.2, h2.1.2, ih l2 _ h1.2 h2.2]

/-- From each of its entries on, a chain is the chain of that entry. -/
theorem dir_chain_suffix (tbl : Nat → pram_inode) :
    ∀ (pre : List Nat) (x : Nat) (post : List Nat) (ino : Nat),
      dir_chain tbl ino (pre ++ x :: post) = true → dir_chain tbl x (x :: post) = true := by
  intro pre
  induction pre with
  | nil =>
    intro x post ino h
    simp only [List.nil_append, dir_chain, Bool.and_eq_true, bne_iff_ne, ne_eq,
      beq_iff_eq] at h
    obtain ⟨⟨h0, hx⟩, hrest⟩ := h
    subst hx
    simp only [dir_chain, Bool.and_eq_true, bne_iff_ne, ne_eq, beq_iff_eq]
    exact ⟨⟨h0, trivial⟩, hrest⟩
  | cons y pre ih =>
    intro x post ino h
    simp only [List.cons_append, dir_chain, Bool.and_eq_true] at h
    exact ih x post _ h.2

/-- A chain that reaches 0 repeats no inode. -/
theorem dir_chain_nodup (tbl : Nat → pram_inode) :
    ∀ (l : List Nat) (ino : Nat), dir_chain tbl ino l = true → l.Nodup := by
  intro l
  induction l with
  | nil => intro _ _; exact List.nodup_nil
  | cons x l ih =>
    intro ino h
    have hfull := h
    simp only [dir_chain, Bool.and_eq_true, bne_iff_ne, ne_eq, beq_iff_eq] at h
    obtain ⟨⟨h0, hx⟩, hrest⟩ := h
    refine List.nodup_cons.mpr ⟨fun hmem => ?_, ih _ hrest⟩
    obtain ⟨pre, post, hl⟩ := List.append_of_mem hmem
    have hs : dir_chain tbl x (x :: post) = true := by
      apply dir_chain_suffix tbl pre x post (tbl ino).i_d_next
      rw [← hl]
      exact hrest
    have hx2 : dir_chain tbl x (x :: l) = true := by
      rw [hx] at hfull ⊢
      exact hfull
    have heq := dir_chain_unique tbl _ _ x hx2 hs
    have hlen := congrArg List.length heq
    rw [hl] at hlen
    simp at hlen
    omega

/-- The recorded loop on a chain that ends at 0: with more fuel than the chain
is long it stops, and the entries it has run the loop body for are an initial
part of the chain, all of the chain when it stops at 0. -/
theorem pram_inode_by_name_visits_chain (tbl : Nat → pram_inode) (name : List Nat) :
    ∀ (l : List Nat) (ino fuel : Nat), dir_chain tbl ino l = true → l.length < fuel →
      ∃ r visited, pram_inode_by_name_visits tbl name fuel ino = some (r, visited) ∧
        visited <+: l ∧ (r = 0 → visited = l) := by
  intro l
  induction l with
  | nil =>
    intro ino fuel hc hf
    obtain ⟨f, rfl⟩ : ∃ f, fuel = f + 1 := ⟨fuel - 1, by simp at hf; omega⟩
    simp only [dir_chain, beq_iff_eq] at hc
    subst hc
    exact ⟨0, [], by simp [pram_inode_by_name_visits], List.prefix_refl _, fun _ => rfl⟩
  | cons x l ih =>
    intro ino fuel hc hf
    obtain ⟨f, rfl⟩ : ∃ f, fuel = f + 1 := ⟨fuel - 1, by simp at hf; omega⟩
    simp only [dir_chain, Bool.and_eq_true, bne_iff_ne, ne_eq, beq_iff_eq] at hc
    obtain ⟨⟨h0, hx⟩, hrest⟩ := hc
    subst hx
    have hlen : l.length < f := by simp at hf; omega
    obtain ⟨r, visited, hv, hpre, hall⟩ := ih _ f hrest hlen
    unfold pram_inode_by_name_visits
    simp only [h0, if_false]
    split
    · refine ⟨x, [x], rfl, ?_, fun h => absurd h h0⟩
      exact ⟨l, rfl⟩
    · rw [hv]
      refine ⟨r, x :: visited, rfl, ?_, fun h => by rw [hall h]⟩
      obtain ⟨t, ht⟩ := hpre
      exact ⟨t, by rw [List.cons_append, ht]⟩

/-- C22: for every directory whose chain `head → d_next → …` reaches 0 (the
list `l` of its entries, which then repeats no inode) `pram_inode_by_name`
terminates: with any fuel above the length of the chain the loop stops and
returns a result.  The entries for which the loop body ran are an initial part
of the chain, so the loop follows `d_next` whether or not an entry is live; it
runs for no entry twice and makes at most as many iterations as the chain is
long.  When no entry is found it has run exactly once for each entry. -/
theorem pram_inode_by_name_terminates (tbl : Nat → pram_inode) (dir : Nat) (name : List Nat)
    (l : List Nat) (fuel : Nat)
    (hchain : dir_chain tbl (tbl dir).i_type_dir_head l = true) (hfuel : l.length < fuel) :
    l.Nodup ∧
    ∃ r visited,
      pram_inode_by_name_visits tbl name fuel (tbl dir).i_type_dir_head = some (r, visited) ∧
      pram_inode_by_name tbl dir name fuel = some r ∧
      visited <+: l ∧ visited.Nodup ∧ visited.length ≤ l.length ∧
      (r = 0 → visited = l) := by
  have hnd := dir_chain_nodup tbl l _ hchain
  obtain ⟨r, visited, hv, hpre, hall⟩ :=
    pram_inode_by_name_visits_chain tbl name l _ fuel hchain hfuel
  refine ⟨hnd, r, visited, hv, ?_, hpre, ?_, hpre.length_le, hall⟩
  · unfold pram_inode_by_name
    rw [← pram_inode_by_name_visits_fst, hv]
    rfl
  · exact List.Nodup.sublist hpre.sublist hnd

/-- The walk of C22 in the directory of `dir_table`, chain `384 → 512 → 640`:
a lookup of "b" finds nothing after one iteration for each of the three
entries, the dead entry 384 included; a lookup of "a" stops at 512 after two
iterations. -/
theorem pram_inode_by_name_terminates_witness :
    pram_inode_by_name_visits dir_table [98] 4 (dir_table 256).i_type_dir_head
      = some (0, [384, 512, 640]) ∧
    pram_inode_by_name_visits dir_table [97] 4 (dir_table 256).i_type_dir_head
      = some (512, [384, 512]) ∧
    [384, 512, 640].Nodup ∧
    ∃ r visited,
      pram_inode_by_name_visits dir_table [98] 4 (dir_table 256).i_type_dir_head
        = some (r, visited) ∧
      pram_inode_by_name dir_table 256 [98] 4 = some r ∧
      visited <+: [384, 512, 640] ∧ visited.Nodup ∧ visited.length ≤ 3 ∧
      (r = 0 → visited = [384, 512, 640]) :=
  have h := pram_inode_by_name_terminates dir_table 256 [98] [384, 512, 640] 4 (by decide)
    (by decide)
  ⟨by decide, by decide, h.1, h.2⟩

/-! ## Inode numbers from NFS file handles -/

/-- The range test of `pram_nfs_get_inode` as the source makes it: an inode
number below `PRAM_ROOT_INO` or with a table index above `s_inodes_count` is
refused with `-ESTALE`, and so is an inode that `pram_iget` finds when the
generation of the handle is non-zero and differs from the one of the inode;
every other inode that `pram_iget` finds is returned. -/
theorem pram_nfs_get_inode_cases (pram_iget : Nat → Except Int iget_inode)
    (ps : pram_super_block) (ino generation : Nat) :
    (ino < PRAM_ROOT_INO → pram_nfs_get_inode pram_iget ps ino generation = .error (-ESTALE)) ∧
    (PRAM_ROOT_INO ≤ ino → ps.s_inodes_count < (ino - PRAM_ROOT_INO) >>> PRAM_INODE_BITS →
      pram_nfs_get_inode pram_iget ps ino generation = .error (-ESTALE)) ∧
    (∀ inode, PRAM_ROOT_INO ≤ ino →
      (ino - PRAM_ROOT_INO) >>> PRAM_INODE_BITS ≤ ps.s_inodes_count →
      pram_iget ino = .ok inode →
      (pram_nfs_get_inode pram_iget ps ino generation = .error (-ESTALE) ↔
        generation ≠ 0 ∧ inode.i_generation ≠ generation) ∧
      (¬ (generation ≠ 0 ∧ inode.i_generation ≠ generation) →
        pram_nfs_get_inode pram_iget ps ino generation = .ok inode)) := by
  refine ⟨fun h => ?_, fun h1 h2 => ?_, fun inode h1 h2 h3 => ?_⟩
  · simp [pram_nfs_get_inode, h]
  · have h1n : ¬ ino < PRAM_ROOT_INO := by omega
    simp [pram_nfs_get_inode, h1n, h2]
  · have h1n : ¬ ino < PRAM_ROOT_INO := by omega
    have h2n : ¬ (ino - PRAM_ROOT_INO) >>> PRAM_INODE_BITS > ps.s_inodes_count := by omega
    unfold pram_nfs_get_inode
    simp only [h1n, h2n, if_false, h3]
    by_cases hg : generation ≠ 0 ∧ inode.i_generation ≠ generation
    · rw [if_pos hg]
      exact ⟨⟨fun _ => hg, fun _ => rfl⟩, fun h => absurd hg h⟩
    · rw [if_neg hg]
      exact ⟨⟨fun h => (by cases h), fun h => absurd h hg⟩, fun _ => rfl⟩

/-- C23, the failing input: a handle for the inode number
`PRAM_ROOT_INO + s_inodes_count * PRAM_INODE_SIZE` on the 16 MiB example, whose
inode table has the 6558 records of index 0 to 6557.  The table index of the
handle is 6558, which is not below `s_inodes_count`, and the record would lie
at `s_bitmap_start`, behind the table; the test `>` lets it pass, `pram_iget`
is called for it and its inode is returned. -/
theorem pram_nfs_get_inode_accepts_end :
    valid_super.s_inodes_count = 6558 ∧
    (839680 - PRAM_ROOT_INO) >>> PRAM_INODE_BITS = 6558 ∧
    ¬ (839680 - PRAM_ROOT_INO) >>> PRAM_INODE_BITS < valid_super.s_inodes_count ∧
    valid_super.s_bitmap_start = 839680 ∧
    pram_nfs_get_inode demo_iget valid_super 839680 0
      = .ok { i_ino := 839680, i_generation := 7 } ∧
    pram_nfs_get_inode demo_iget valid_super 839680 7
      = .ok { i_ino := 839680, i_generation := 7 } ∧
    pram_nfs_get_inode demo_iget valid_super (839680 + 128) 0 = .error (-ESTALE) :=
  ⟨by decide, by decide, by decide, by decide, rfl, rfl, rfl⟩

/-- The range test lets every inode number with table index `s_inodes_count`
pass: the result is then the one of `pram_iget` and the generation test. -/
theorem pram_nfs_get_inode_index_end (pram_iget : Nat → Except Int iget_inode)
    (ps : pram_super_block) (generation : Nat) :
    pram_nfs_get_inode pram_iget ps
        (PRAM_ROOT_INO + ps.s_inodes_count * PRAM_INODE_SIZE) generation
      = match pram_iget (PRAM_ROOT_INO + ps.s_inodes_count * PRAM_INODE_SIZE) with
        | .error e => .error e
        | .ok inode =>
          if generation ≠ 0 ∧ inode.i_generation ≠ generation then .error (-ESTALE)
          else .ok inode := by
  have h1 : ¬ PRAM_ROOT_INO + ps.s_inodes_count * PRAM_INODE_SIZE < PRAM_ROOT_INO := by omega
  have h2 : (PRAM_ROOT_INO + ps.s_inodes_count * PRAM_INODE_SIZE - PRAM_ROOT_INO)
      >>> PRAM_INODE_BITS = ps.s_inodes_count := by
    rw [Nat.add_sub_cancel_left, Nat.shiftRight_eq_div_pow]
    exact Nat.mul_div_cancel _ (by decide)
  unfold pram_nfs_get_inode
  simp only [h1, if_false, h2, gt_iff_lt, lt_self_iff_false]

/-! ## The negated options -/

/-- A flag that has just been set tests as set. -/
theorem test_opt_set_opt (o f : Nat) (hf : f ≠ 0) : test_opt (set_opt o f) f = true := by
  unfold test_opt set_opt
  have h : (o ||| f) &&& f = f := by
    apply Nat.eq_of_testBit_eq
    intro i
    simp only [Nat.testBit_and, Nat.testBit_or]
    cases o.testBit i <;> cases f.testBit i <;> rfl
  rw [h]
  simpa using hf

/-- C24, the failing inputs: in a kernel with xattr and ACL support, the
option `noacl` alone, given at mount or at remount with whatever flags were
there before, is accepted and leaves the POSIX_ACL flag set, and the option
`nouser_xattr` leaves the XATTR_USER flag set.  Each does exactly what `acl`
and `user_xattr` do: the table `tokens` gives the negated pattern the token
of the plain one, and the cases `Opt_noacl` and `Opt_nouser_xattr` are never
reached. -/
theorem pram_parse_options_noacl_sets (sbi : pram_sb_info) (remount : Bool) :
    match_token (opt_flag .noacl) tokens = .Opt_acl ∧
    match_token (opt_flag .nouser_xattr) tokens = .Opt_user_xattr ∧
    pram_parse_options cfg_all (some [opt_flag .noacl]) sbi remount
      = pram_parse_options cfg_all (some [opt_flag .acl]) sbi remount ∧
    pram_parse_options cfg_all (some [opt_flag .noacl]) sbi remount
      = (0, { sbi with s_mount_opt := set_opt sbi.s_mount_opt PRAM_MOUNT_POSIX_ACL }) ∧
    test_opt (pram_parse_options cfg_all (some [opt_flag .noacl]) sbi remount).2.s_mount_opt
      PRAM_MOUNT_POSIX_ACL = true ∧
    pram_parse_options cfg_all (some [opt_flag .nouser_xattr]) sbi remount
      = pram_parse_options cfg_all (some [opt_flag .user_xattr]) sbi remount ∧
    pram_parse_options cfg_all (some [opt_flag .nouser_xattr]) sbi remount
      = (0, { sbi with s_mount_opt := set_opt sbi.s_mount_opt PRAM_MOUNT_XATTR_USER }) ∧
    test_opt
      (pram_parse_options cfg_all (some [opt_flag .nouser_xattr]) sbi remount).2.s_mount_opt
      PRAM_MOUNT_XATTR_USER = true := by
  have h1 : pram_parse_options cfg_all (some [opt_flag .noacl]) sbi remount
      = (0, { sbi with s_mount_opt := set_opt sbi.s_mount_opt PRAM_MOUNT_POSIX_ACL }) := rfl
  have h2 : pram_parse_options cfg_all (some [opt_flag .nouser_xattr]) sbi remount
      = (0, { sbi with s_mount_opt := set_opt sbi.s_mount_opt PRAM_MOUNT_XATTR_USER }) := rfl
  refine ⟨rfl, rfl, rfl, h1, ?_, rfl, h2, ?_⟩
  · rw [h1]
    exact test_opt_set_opt _ _ (by decide)
  · rw [h2]
    exact test_opt_set_opt _ _ (by decide)

/-- The mount options `acl,noacl` and `user_xattr,nouser_xattr` on the zeroed
options of `kzalloc`: both flags are set at the end; the plain options `acl`
and `user_xattr` set them as well. -/
theorem pram_parse_options_noacl_example :
    (pram_parse_options cfg_all (some [opt_flag .acl, opt_flag .noacl])
      (set_default_opts cfg_all zero_sbi) false).1 = 0 ∧
    test_opt (pram_parse_options cfg_all (some [opt_flag .acl, opt_flag .noacl])
      (set_default_opts cfg_all zero_sbi) false).2.s_mount_opt PRAM_MOUNT_POSIX_ACL = true ∧
    test_opt (pram_parse_options cfg_all (some [opt_flag .noacl])
      (set_default_opts cfg_all zero_sbi) false).2.s_mount_opt PRAM_MOUNT_POSIX_ACL = true ∧
    test_opt (pram_parse_options cfg_all (some [opt_flag .user_xattr, opt_flag .nouser_xattr])
      (set_default_opts cfg_all zero_sbi) false).2.s_mount_opt PRAM_MOUNT_XATTR_USER = true ∧
    test_opt (pram_parse_options cfg_all (some [opt_flag .acl])
      (set_default_opts cfg_all zero_sbi) false).2.s_mount_opt PRAM_MOUNT_POSIX_ACL = true ∧
    test_opt (pram_parse_options cfg_all (some [opt_flag .user_xattr])
      (set_default_opts cfg_all zero_sbi) false).2.s_mount_opt PRAM_MOUNT_XATTR_USER = true ∧
    test_opt (set_default_opts cfg_all zero_sbi).s_mount_opt PRAM_MOUNT_POSIX_ACL = false :=
  ⟨by decide, by decide, by decide, by decide, by decide, by decide, by decide⟩

/-! ## Link counts in `pram_rename` -/

/-- The calls of `pram_remove_link` and `pram_add_link` in `pram_rename` leave
the in-memory inodes as lines 302-321 left them. -/
theorem pram_rename_inode (ops : rename_ops) (now : Nat) (st st1 : namei_state)
    (old_dir old_inode new_dir : Nat) (new_name : List Nat) (new_inode : Option Nat)
    (h : pram_rename_counts ops now st old_dir old_inode new_dir new_inode = .ok st1) :
    (pram_rename ops now st old_dir old_inode new_dir new_name new_inode).2.inode
      = st1.inode := by
  unfold pram_rename
  simp only [h]
  split
  · rfl
  · split <;> rfl

/-- With an existing destination `pram_rename` changes no in-memory inode but
the one of the destination, whatever it returns. -/
theorem pram_rename_existing_other (ops : rename_ops) (now : Nat) (st : namei_state)
    (old_dir old_inode new_dir ni j : Nat) (new_name : List Nat) (hj : j ≠ ni) :
    (pram_rename ops now st old_dir old_inode new_dir new_name (some ni)).2.inode j
      = st.inode j := by
  cases hc : pram_rename_counts ops now st old_dir old_inode new_dir (some ni) with
  | error e =>
    unfold pram_rename
    simp only [hc]
  | ok st1 =>
    rw [pram_rename_inode ops now st st1 old_dir old_inode new_dir new_name (some ni) hc]
    unfold pram_rename_counts at hc
    simp only at hc
    split at hc
    · cases hc
    · rename_i st2 hr
      simp only [Except.ok.injEq] at hc
      rw [← hc, pram_dec_count_other _ _ _ _ hj]
      simp only [set_inode, hj, if_false]
      split at hr
      · split at hr
        · cases hr
        · split at hr
          · simp only [Except.ok.injEq] at hr
            rw [← hr]
            simp only [set_inode, hj, if_false]
          · simp only [Except.ok.injEq] at hr
            rw [hr]
      · simp only [Except.ok.injEq] at hr
        rw [hr]

/-- With no destination entry `pram_rename` of a directory lowers the link
count of `old_dir` by one (it stays 0 at 0) and raises the one of a different
`new_dir` by one, whatever it returns. -/
theorem pram_rename_fresh_counts (ops : rename_ops) (now : Nat) (st : namei_state)
    (old_dir old_inode new_dir : Nat) (new_name : List Nat)
    (hdir : S_ISDIR (st.inode old_inode).i_mode = true) (hne : old_dir ≠ new_dir)
    (hwrap : (st.inode new_dir).i_nlink + 1 < 2 ^ 32) :
    ((pram_rename ops now st old_dir old_inode new_dir new_name none).2.inode old_dir).i_nlink
      = (st.inode old_dir).i_nlink - 1 ∧
    ((pram_rename ops now st old_dir old_inode new_dir new_name none).2.inode new_dir).i_nlink
      = (st.inode new_dir).i_nlink + 1 := by
  have hc : pram_rename_counts ops now st old_dir old_inode new_dir none
      = .ok (pram_inc_count ops.tonamei_ops (pram_dec_count ops.tonamei_ops st old_dir)
          new_dir) := by
    simp [pram_rename_counts, hdir]
  have hne2 : new_dir ≠ old_dir := fun h => hne h.symm
  rw [pram_rename_inode ops now st _ old_dir old_inode new_dir new_name none hc]
  constructor
  · rw [pram_inc_count_nlink, if_neg hne, pram_dec_count_nlink, if_pos rfl]
  · rw [pram_inc_count_nlink, if_pos rfl, pram_dec_count_nlink, if_neg hne2]
    exact Nat.mod_eq_of_lt hwrap

/-- When the destination of a directory is an existing empty directory, its
link count is lowered twice by `pram_rename` (to 0 from the 2 of an empty
directory) and the rename goes on to the calls of `pram_remove_link` and
`pram_add_link`. -/
theorem pram_rename_existing_target (ops : rename_ops) (now : Nat) (st : namei_state)
    (old_dir old_inode new_dir ni : Nat) (new_name : List Nat)
    (hdir : S_ISDIR (st.inode old_inode).i_mode = true)
    (hempty : (st.media ni).i_type_dir_tail = 0) :
    ((pram_rename ops now st old_dir old_inode new_dir new_name (some ni)).2.inode ni).i_nlink
      = (st.inode ni).i_nlink - 1 - 1 := by
  by_cases h0 : (st.inode ni).i_nlink = 0
  · have hc : pram_rename_counts ops now st old_dir old_inode new_dir (some ni)
        = .ok (pram_dec_count ops.tonamei_ops
            (set_inode st ni { st.inode ni with i_ctime := now }) ni) := by
      simp [pram_rename_counts, hdir, hempty, h0]
    rw [pram_rename_inode ops now st _ old_dir old_inode new_dir new_name (some ni) hc,
      pram_dec_count_nlink, if_pos rfl]
    simp [set_inode, h0]
  · have hc : pram_rename_counts ops now st old_dir old_inode new_dir (some ni)
        = .ok (pram_dec_count ops.tonamei_ops
            (set_inode (set_inode st ni
                { st.inode ni with i_nlink := (st.inode ni).i_nlink - 1 }) ni
              { (set_inode st ni
                  { st.inode ni with i_nlink := (st.inode ni).i_nlink - 1 }).inode ni with
                i_ctime := now }) ni) := by
      simp [pram_rename_counts, hdir, hempty, h0]
    rw [pram_rename_inode ops now st _ old_dir old_inode new_dir new_name (some ni) hc,
      pram_dec_count_nlink, if_pos rfl]
    simp [set_inode]

/-- C25, the failing input: the directory 384 ("a") of the root 256 is renamed
to "c" in the directory 512, where "c" is the empty directory 640.  The rename
succeeds, the destination 640 ends with link count 0 and `new_dir` 512 keeps
its 3 links, but `old_dir`, the root, keeps its 4 links although it has lost
the subdirectory: with an existing destination `pram_rename` never calls
`pram_dec_count(old_dir)`.  With no destination entry (the name "d") the root
goes from 4 links to 3 and the directory 512 from 3 to 4. -/
theorem pram_rename_existing_keeps_old_dir :
    (pram_rename demo_rename_ops 200 rename_state 256 384 512 [99] (some 640)).1 = 0 ∧
    (rename_state.inode 256).i_nlink = 4 ∧
    ((pram_rename demo_rename_ops 200 rename_state 256 384 512 [99] (some 640)).2.inode
      256).i_nlink = 4 ∧
    ((pram_rename demo_rename_ops 200 rename_state 256 384 512 [99] (some 640)).2.inode
      512).i_nlink = 3 ∧
    ((pram_rename demo_rename_ops 200 rename_state 256 384 512 [99] (some 640)).2.inode
      640).i_nlink = 0 ∧
    (pram_rename demo_rename_ops 200 rename_state 256 384 512 [100] none).1 = 0 ∧
    ((pram_rename demo_rename_ops 200 rename_state 256 384 512 [100] none).2.inode
      256).i_nlink = 3 ∧
    ((pram_rename demo_rename_ops 200 rename_state 256 384 512 [100] none).2.inode
      512).i_nlink = 4 :=
  ⟨by decide, by decide, by decide, by decide, by decide, by decide, by decide, by decide⟩

end Pramfs
